import Mathlib

/-!
# bus-tracker: transit topology store, importer and route queries

A shallow embedding of the backend of the bus-tracker repository:

* `backend/models/index.js`   : the four Sequelize models and their constraints
* `backend/scripts/importData.js` : the three import stages, the `all` run
  and `clearAllData`
* `backend/routes/busRoutes.js`   : route list, route detail, create route
  and add-stop-to-route
* `backend/routes/stopRoutes.js`  : stop list, stop detail and create stop
* `backend/routes/analyticsRoutes.js` : the system overview query

The database is an explicit `Store` value passed through every operation.
Numbers that the program keeps as decimals (`DECIMAL(8,2)` distances) are
integers counted in hundredths; coordinates are integers counted in
thousandths of a degree. The JavaScript numbers that the route detail
computes from the distances are IEEE 754 doubles (`Double`), each kept as
its exact value and every addition rounded to the nearest double.
The `createdAt` / `updatedAt` timestamps are left out.
-/

namespace BusTracker

/-! ## Data model (`backend/models/index.js`) -/

/-- Values of `ENUM('active', 'inactive', 'under_construction')`. -/
inductive StopStatus where
  | active
  | inactive
  | under_construction
  deriving DecidableEq, Repr

/-- Values of `ENUM('active', 'inactive', 'seasonal')`. -/
inductive RouteStatus where
  | active
  | inactive
  | seasonal
  deriving DecidableEq, Repr

/-- Values of `ENUM('outbound', 'inbound')`. -/
inductive Direction where
  | outbound
  | inbound
  deriving DecidableEq, Repr

/-- Values of `ENUM('standard', 'articulated', 'minibus')`. -/
inductive BusType where
  | standard
  | articulated
  | minibus
  deriving DecidableEq, Repr

/-- Values of `ENUM('active', 'maintenance', 'retired')`. -/
inductive BusStatus where
  | active
  | maintenance
  | retired
  deriving DecidableEq, Repr

/-- A GeoJSON value of type "Point": the `coordinates` array. -/
structure Point where
  coordinates : List Int
  deriving DecidableEq, Repr

/-- The JSON column `operatingHours`. -/
structure OperatingHours where
  start : Option String
  «end» : Option String
  days : List String
  deriving DecidableEq, Repr

/-- A row of `bus_stops`. -/
structure BusStop where
  id : Nat
  name : String
  description : Option String
  coordinates : Point
  address : Option String
  landmarks : Option String
  status : StopStatus
  deriving DecidableEq, Repr

/-- A row of `bus_routes`. -/
structure BusRoute where
  id : Nat
  name : String
  code : String
  color : String
  description : Option String
  operatingHours : Option OperatingHours
  farePrice : Option Int
  status : RouteStatus
  deriving DecidableEq, Repr

/-- A row of `route_stops`. -/
structure RouteStop where
  id : Nat
  routeId : Nat
  stopId : Nat
  stopOrder : Int
  direction : Direction
  averageArrivalTime : Option Int
  distanceFromPrevious : Option Int
  deriving DecidableEq, Repr

/-- A row of `buses`. -/
structure Bus where
  id : Nat
  plateNumber : String
  routeId : Nat
  capacity : Option Int
  busType : BusType
  status : BusStatus
  lastKnownPosition : Option Point
  deriving DecidableEq, Repr

/-- The database: the four tables in insertion order, and the last value
handed out by each `autoIncrement` primary key. -/
structure Store where
  stops : List BusStop
  routes : List BusRoute
  routeStops : List RouteStop
  buses : List Bus
  stopSeq : Nat
  routeSeq : Nat
  routeStopSeq : Nat
  deriving DecidableEq, Repr

/-- The freshly synchronised database. -/
def Store.empty : Store :=
  { stops := [], routes := [], routeStops := [], buses := [],
    stopSeq := 0, routeSeq := 0, routeStopSeq := 0 }

/-- Why a call to Sequelize was rejected. -/
inductive SequelizeError where
  | notNullViolation
  | uniqueConstraint
  | foreignKeyConstraint
  | invalidEnumValue
  | valueTooLong
  | numericFieldOverflow
  | eagerLoadingError
  deriving DecidableEq, Repr

/-- The label of an `ENUM('outbound', 'inbound')` column. -/
def Direction.ofString (x : String) : Option Direction :=
  if x = "outbound" then some Direction.outbound
  else if x = "inbound" then some Direction.inbound
  else none

/-! ### Lookups -/

/-- `BusStop.findOne({ where: { name } })`; no row has a null name, so an
absent key finds nothing. -/
def BusStop.findOne (s : Store) (name : Option String) : Option BusStop :=
  match name with
  | none => none
  | some n => s.stops.find? (fun st => decide (st.name = n))

/-- `BusRoute.findOne({ where: { code } })`. -/
def BusRoute.findOne (s : Store) (code : Option String) : Option BusRoute :=
  match code with
  | none => none
  | some c => s.routes.find? (fun r => decide (r.code = c))

/-- `BusStop.findByPk(id)`; a missing id finds nothing. -/
def BusStop.findByPk (s : Store) (id : Option Nat) : Option BusStop :=
  match id with
  | none => none
  | some i => s.stops.find? (fun st => decide (st.id = i))

/-- `BusRoute.findByPk(id)`. -/
def BusRoute.findByPk (s : Store) (id : Option Nat) : Option BusRoute :=
  match id with
  | none => none
  | some i => s.routes.find? (fun r => decide (r.id = i))

/-- `RouteStop.findOne({ where: { routeId, stopId, direction, stopOrder } })`.
A direction that is no label of the enum, or an absent direction or order,
matches no row. -/
def RouteStop.findOne (s : Store) (routeId stopId : Nat)
    (direction : Option String) (stopOrder : Option Int) : Option RouteStop :=
  match direction.bind Direction.ofString, stopOrder with
  | some d, some o =>
      s.routeStops.find? (fun rs =>
        decide (rs.routeId = routeId ∧ rs.stopId = stopId ∧ rs.direction = d ∧ rs.stopOrder = o))
  | _, _ => none

/-! ### Inserts -/

/-- The attributes handed to `BusStop.create`. -/
structure BusStopValues where
  name : Option String
  description : Option String
  coordinates : Point
  address : Option String
  landmarks : Option String
  deriving DecidableEq, Repr

/-- Whether a value fits a column of type `DataTypes.STRING(n)`, a
`VARCHAR(n)`: at most `n` characters; the database refuses a longer value,
and a null fits. -/
def fitsVarchar (x : Option String) (n : Nat) : Bool :=
  match x with
  | none => true
  | some v => decide (v.length ≤ n)

/-- Whether a value in hundredths fits a column of type `DECIMAL(5, 2)`:
below 1000 in magnitude; a null fits. -/
def fitsDecimal52 (x : Option Int) : Bool :=
  match x with
  | none => true
  | some v => decide (-99999 ≤ v) && decide (v ≤ 99999)

/-- `BusStop.create`: `name` is `allowNull: false` and `unique: true`; `name`
and `address` are `DataTypes.STRING`, a `VARCHAR(255)`, while `description`
and `landmarks` are `TEXT`; the id is auto-incremented and `status` defaults
to active. A row that breaks one of these rules is refused and nothing is
stored. For a row that breaks more than one of them the error named here is
the first in the order null, unique key, length; the database may name
another of the broken rules. -/
def BusStop.create (s : Store) (v : BusStopValues) : Except SequelizeError (Store × BusStop) :=
  match v.name with
  | none => .error .notNullViolation
  | some n =>
    if s.stops.any (fun st => decide (st.name = n)) then .error .uniqueConstraint
    else if fitsVarchar (some n) 255 && fitsVarchar v.address 255 then
      let row : BusStop :=
        { id := s.stopSeq + 1, name := n, description := v.description,
          coordinates := v.coordinates, address := v.address, landmarks := v.landmarks,
          status := StopStatus.active }
      .ok ({ s with stops := s.stops ++ [row], stopSeq := s.stopSeq + 1 }, row)
    else .error .valueTooLong

/-- The attributes handed to `BusRoute.create`: a route record of the input
file, or the validated body of the create-route request. -/
structure BusRouteValues where
  name : Option String
  code : Option String
  color : Option String
  description : Option String
  operatingHours : Option OperatingHours
  farePrice : Option Int
  deriving DecidableEq, Repr

/-- `BusRoute.create`: `name` and `code` are `allowNull: false`, `code` is
`unique: true`, `color` defaults to #3498db and `status` to active; `name`
and `code` are `DataTypes.STRING`, a `VARCHAR(255)`, `color` is
`DataTypes.STRING(7)` and `farePrice` is `DECIMAL(5, 2)`. A row that breaks
one of these rules is refused and nothing is stored. For a row that breaks
more than one of them the error named here is the first in the order null,
unique key, length, numeric range; the database may name another of the
broken rules. -/
def BusRoute.create (s : Store) (v : BusRouteValues) : Except SequelizeError (Store × BusRoute) :=
  match v.name, v.code with
  | some n, some c =>
    if s.routes.any (fun r => decide (r.code = c)) then .error .uniqueConstraint
    else if fitsVarchar (some n) 255 && fitsVarchar (some c) 255 && fitsVarchar v.color 7 then
      if fitsDecimal52 v.farePrice then
        let row : BusRoute :=
          { id := s.routeSeq + 1, name := n, code := c, color := v.color.getD "#3498db",
            description := v.description, operatingHours := v.operatingHours,
            farePrice := v.farePrice, status := RouteStatus.active }
        .ok ({ s with routes := s.routes ++ [row], routeSeq := s.routeSeq + 1 }, row)
      else .error .numericFieldOverflow
    else .error .valueTooLong
  | _, _ => .error .notNullViolation

/-- The attributes handed to `RouteStop.create`. -/
structure RouteStopValues where
  routeId : Nat
  stopId : Nat
  stopOrder : Option Int
  direction : Option String
  distanceFromPrevious : Option Int
  averageArrivalTime : Option Int
  deriving DecidableEq, Repr

/-- `RouteStop.create`: `stopOrder` and `direction` are `allowNull: false`,
`direction` is an enum, `routeId` and `stopId` reference existing rows, and
the index on (route_id, direction, stop_order) is unique. -/
def RouteStop.create (s : Store) (v : RouteStopValues) :
    Except SequelizeError (Store × RouteStop) :=
  match v.stopOrder, v.direction with
  | some o, some dstr =>
    match Direction.ofString dstr with
    | none => .error .invalidEnumValue
    | some d =>
      if ¬ (s.routes.any (fun r => decide (r.id = v.routeId))
            ∧ s.stops.any (fun st => decide (st.id = v.stopId))) then
        .error .foreignKeyConstraint
      else if s.routeStops.any (fun rs =>
          decide (rs.routeId = v.routeId ∧ rs.direction = d ∧ rs.stopOrder = o)) then
        .error .uniqueConstraint
      else
        let row : RouteStop :=
          { id := s.routeStopSeq + 1, routeId := v.routeId, stopId := v.stopId,
            stopOrder := o, direction := d, averageArrivalTime := v.averageArrivalTime,
            distanceFromPrevious := v.distanceFromPrevious }
        .ok ({ s with routeStops := s.routeStops ++ [row],
                      routeStopSeq := s.routeStopSeq + 1 }, row)
  | _, _ => .error .notNullViolation

/-! ## The importer (`backend/scripts/importData.js`) -/

/-- A stop record of `stops.json`. -/
structure StopRecord where
  name : Option String
  description : Option String
  latitude : Int
  longitude : Int
  address : Option String
  landmarks : Option String
  deriving DecidableEq, Repr

/-- A link record of `route_stops.json`. -/
structure LinkRecord where
  routeCode : Option String
  stopName : Option String
  direction : Option String
  stopOrder : Option Int
  distanceFromPrevious : Option Int
  averageArrivalTime : Option Int
  deriving DecidableEq, Repr

/-- What one pass through a loop body did with its record: reached
`created++`, reached `skipped++`, or took an error path. -/
inductive Outcome where
  | created
  | skipped
  | error
  deriving DecidableEq, Repr

/-- The object `{ created, skipped }` returned by `importStops` and
`importRoutes`. -/
structure StageCounts where
  created : Nat
  skipped : Nat
  deriving DecidableEq, Repr

/-- The object `{ created, skipped, errors }` returned by `importRouteStops`. -/
structure LinkCounts where
  created : Nat
  skipped : Nat
  errors : Nat
  deriving DecidableEq, Repr

/-- The counters of `importStops` / `importRoutes` after one more record:
the `catch` block only logs. -/
def StageCounts.bump (c : StageCounts) : Outcome → StageCounts
  | .created => { c with created := c.created + 1 }
  | .skipped => { c with skipped := c.skipped + 1 }
  | .error => c

/-- The counters of `importRouteStops` after one more record. -/
def LinkCounts.bump (c : LinkCounts) : Outcome → LinkCounts
  | .created => { c with created := c.created + 1 }
  | .skipped => { c with skipped := c.skipped + 1 }
  | .error => { c with errors := c.errors + 1 }

/-- The body of the loop of `importStops` for one record. -/
def importStopsBody (s : Store) (stop : StopRecord) : Store × Outcome :=
  match BusStop.findOne s stop.name with
  | some _ => (s, .skipped)
  | none =>
    match BusStop.create s
        { name := stop.name, description := stop.description,
          coordinates := { coordinates := [stop.longitude, stop.latitude] },
          address := stop.address, landmarks := stop.landmarks } with
    | .ok (s', _) => (s', .created)
    | .error _ => (s, .error)

/-- The loop of `importStops`, from given counters. -/
def importStopsLoop (s : Store) (c : StageCounts) : List StopRecord → Store × StageCounts
  | [] => (s, c)
  | stop :: rest =>
    let r := importStopsBody s stop
    importStopsLoop r.1 (c.bump r.2) rest

/-- `importStops` on the parsed content of the input file. -/
def importStops (s : Store) (data : List StopRecord) : Store × StageCounts :=
  importStopsLoop s { created := 0, skipped := 0 } data

/-- The body of the loop of `importRoutes` for one record. -/
def importRoutesBody (s : Store) (route : BusRouteValues) : Store × Outcome :=
  match BusRoute.findOne s route.code with
  | some _ => (s, .skipped)
  | none =>
    match BusRoute.create s route with
    | .ok (s', _) => (s', .created)
    | .error _ => (s, .error)

/-- The loop of `importRoutes`, from given counters. -/
def importRoutesLoop (s : Store) (c : StageCounts) : List BusRouteValues → Store × StageCounts
  | [] => (s, c)
  | route :: rest =>
    let r := importRoutesBody s route
    importRoutesLoop r.1 (c.bump r.2) rest

/-- `importRoutes` on the parsed content of the input file. -/
def importRoutes (s : Store) (data : List BusRouteValues) : Store × StageCounts :=
  importRoutesLoop s { created := 0, skipped := 0 } data

/-- The body of the loop of `importRouteStops` for one record. -/
def importRouteStopsBody (s : Store) (rs : LinkRecord) : Store × Outcome :=
  match BusRoute.findOne s rs.routeCode, BusStop.findOne s rs.stopName with
  | none, _ => (s, .error)
  | some _, none => (s, .error)
  | some route, some stop =>
    match RouteStop.findOne s route.id stop.id rs.direction rs.stopOrder with
    | some _ => (s, .skipped)
    | none =>
      match RouteStop.create s
          { routeId := route.id, stopId := stop.id, stopOrder := rs.stopOrder,
            direction := rs.direction, distanceFromPrevious := rs.distanceFromPrevious,
            averageArrivalTime := rs.averageArrivalTime } with
      | .ok (s', _) => (s', .created)
      | .error _ => (s, .error)

/-- The loop of `importRouteStops`, from given counters. -/
def importRouteStopsLoop (s : Store) (c : LinkCounts) : List LinkRecord → Store × LinkCounts
  | [] => (s, c)
  | rs :: rest =>
    let r := importRouteStopsBody s rs
    importRouteStopsLoop r.1 (c.bump r.2) rest

/-- `importRouteStops` on the parsed content of the input file. -/
def importRouteStops (s : Store) (data : List LinkRecord) : Store × LinkCounts :=
  importRouteStopsLoop s { created := 0, skipped := 0, errors := 0 } data

/-- The outcome of every record of a stops input, in input order. -/
def importStopsOutcomes (s : Store) : List StopRecord → List Outcome
  | [] => []
  | stop :: rest =>
    let r := importStopsBody s stop
    r.2 :: importStopsOutcomes r.1 rest

/-- The outcome of every record of a routes input, in input order. -/
def importRoutesOutcomes (s : Store) : List BusRouteValues → List Outcome
  | [] => []
  | route :: rest =>
    let r := importRoutesBody s route
    r.2 :: importRoutesOutcomes r.1 rest

/-- The outcome of every record of a links input, in input order. -/
def importRouteStopsOutcomes (s : Store) : List LinkRecord → List Outcome
  | [] => []
  | rs :: rest =>
    let r := importRouteStopsBody s rs
    r.2 :: importRouteStopsOutcomes r.1 rest

/-- What the three stages of an `all` run return. -/
structure AllCounts where
  stops : StageCounts
  routes : StageCounts
  links : LinkCounts
  deriving DecidableEq, Repr

/-- The branch `command === "all"` of `main`: `importStops`, then
`importRoutes`, then `importRouteStops`, each on the store the one before
left. -/
def importAll (s : Store) (stops : List StopRecord) (routes : List BusRouteValues)
    (links : List LinkRecord) : Store × AllCounts :=
  let r1 := importStops s stops
  let r2 := importRoutes r1.1 routes
  let r3 := importRouteStops r2.1 links
  (r3.1, { stops := r1.2, routes := r2.2, links := r3.2 })

/-- The stops that a stops input adds to a store holding the names `seen`:
the records with a name that is not in `seen` and did not occur earlier in
the input. -/
def firstNew (seen : List String) : List StopRecord → List StopRecord
  | [] => []
  | r :: rest =>
    match r.name with
    | none => firstNew seen rest
    | some n => if n ∈ seen then firstNew seen rest else r :: firstNew (seen ++ [n]) rest

/-- The distinct names of a stops input that the store does not hold. -/
def distinctNewNames (s : Store) (data : List StopRecord) : List String :=
  ((data.filterMap (fun r => r.name)).filter
    (fun n => !s.stops.any (fun st => decide (st.name = n)))).dedup

/-- A stop row holds the fields of a stop record. -/
def HoldsRecord (row : BusStop) (r : StopRecord) : Prop :=
  r.name = some row.name ∧ row.description = r.description
    ∧ row.coordinates = { coordinates := [r.longitude, r.latitude] }
    ∧ row.address = r.address ∧ row.landmarks = r.landmarks ∧ row.status = StopStatus.active

/-- A store `t'` is `t` with more links: the same stops and routes, and the
links of `t` followed by others. -/
def Store.Extends (t t' : Store) : Prop :=
  t'.stops = t.stops ∧ t'.routes = t.routes ∧ ∃ extra, t'.routeStops = t.routeStops ++ extra

/-- A link record has its link in the store: its route and stop resolve
and a link with their ids and the direction and stopOrder of the record is
found. -/
def LinkStored (t : Store) (r : LinkRecord) : Prop :=
  ∃ route stop, BusRoute.findOne t r.routeCode = some route
    ∧ BusStop.findOne t r.stopName = some stop
    ∧ (RouteStop.findOne t route.id stop.id r.direction r.stopOrder).isSome = true

/-! ### Clearing (`clearAllData`) -/

/-- The ON DELETE action of a foreign key. -/
inductive ReferentialAction where
  | cascade
  | setNull
  | noAction
  deriving DecidableEq, Repr

/-- The ON DELETE action Sequelize gives the foreign key of a `hasMany`
association that names none: SET NULL for a key that allows null, CASCADE
for a key with `allowNull: false`. -/
def hasManyOnDelete (allowNull : Bool) : ReferentialAction :=
  if allowNull then ReferentialAction.setNull else ReferentialAction.cascade

/-- What a child table holds after the parent rows it may refer to are
deleted, `refers` telling the child rows that refer to a deleted parent.
The key columns of the model are NOT NULL, so SET NULL on a referring row
fails like NO ACTION does. -/
def onParentDelete {α : Type} (action : ReferentialAction) (refers : α → Bool)
    (children : List α) : Except SequelizeError (List α) :=
  match action with
  | .cascade => .ok (children.filter (fun c => !refers c))
  | .setNull => if children.any refers then .error .notNullViolation else .ok children
  | .noAction => if children.any refers then .error .foreignKeyConstraint else .ok children

/-- `RouteStop.destroy({ where: {} })`: no table refers to `route_stops`. -/
def RouteStop.destroy (s : Store) : Store :=
  { s with routeStops := [] }

/-- `BusRoute.destroy({ where: {} })`. `route_stops.route_id` and
`buses.route_id` refer to `bus_routes` through `BusRoute.hasMany(RouteStop)`
and `BusRoute.hasMany(Bus)`, both on a `routeId` with `allowNull: false`. -/
def BusRoute.destroy (s : Store) : Except SequelizeError Store :=
  match onParentDelete (hasManyOnDelete false)
          (fun (rs : RouteStop) => s.routes.any (fun r => decide (r.id = rs.routeId)))
          s.routeStops,
        onParentDelete (hasManyOnDelete false)
          (fun (b : Bus) => s.routes.any (fun r => decide (r.id = b.routeId)))
          s.buses with
  | .ok routeStops, .ok buses =>
    .ok { s with routes := [], routeStops := routeStops, buses := buses }
  | .error e, _ => .error e
  | _, .error e => .error e

/-- `BusStop.destroy({ where: {} })`. `route_stops.stop_id` refers to
`bus_stops` through `BusStop.hasMany(RouteStop)` on a `stopId` with
`allowNull: false`. -/
def BusStop.destroy (s : Store) : Except SequelizeError Store :=
  match onParentDelete (hasManyOnDelete false)
          (fun (rs : RouteStop) => s.stops.any (fun st => decide (st.id = rs.stopId)))
          s.routeStops with
  | .ok routeStops => .ok { s with stops := [], routeStops := routeStops }
  | .error e => .error e

/-- `clearAllData`: the three `destroy` calls in the order of the source; an
error of a call is not caught here and ends the run. -/
def clearAllData (s : Store) : Except SequelizeError Store :=
  match BusRoute.destroy (RouteStop.destroy s) with
  | .error e => .error e
  | .ok s2 => BusStop.destroy s2

/-! ## Route endpoints (`backend/routes/busRoutes.js`) -/

/-- The body of `POST /:routeId/stops`. -/
structure AddStopBody where
  stopId : Option Nat
  stopOrder : Option Int
  direction : Option String
  distanceFromPrevious : Option Int
  averageArrivalTime : Option Int
  deriving DecidableEq, Repr

/-- The JavaScript `x || d` on an optional number: absent and 0 are falsy. -/
def orDefault (x : Option Int) (d : Int) : Int :=
  match x with
  | none => d
  | some v => if v = 0 then d else v

/-- The JavaScript `x || d` on an optional string: absent and the empty
string are falsy. -/
def orDefaultStr (x : Option String) (d : String) : String :=
  match x with
  | none => d
  | some v => if v = "" then d else v

/-- The answer of `POST /:routeId/stops`: the status code and, on 201, the
created row. -/
structure AddStopResponse where
  status : Nat
  body : Option RouteStop
  deriving DecidableEq, Repr

/-- The handler of `POST /:routeId/stops`. The `stopId` written to the new
row is the id of the stop that `findByPk(stopId)` has just returned. A
rollback leaves the store as it was when the transaction was opened. -/
def addStopToRoute (s : Store) (routeId : Nat) (b : AddStopBody) : Store × AddStopResponse :=
  match BusRoute.findByPk s (some routeId), BusStop.findByPk s b.stopId with
  | some _, some stop =>
    match RouteStop.create s
        { routeId := routeId, stopId := stop.id,
          stopOrder := some (orDefault b.stopOrder 1),
          direction := some (orDefaultStr b.direction "outbound"),
          distanceFromPrevious := some (orDefault b.distanceFromPrevious 0),
          averageArrivalTime := b.averageArrivalTime } with
    | .ok (s', row) => (s', { status := 201, body := some row })
    | .error _ => (s, { status := 500, body := none })
  | _, _ => (s, { status := 404, body := none })

/-! ### Create route (`POST /` of `backend/routes/busRoutes.js`) -/

/-- The character class `[0-9A-F]` under the flag `i`. -/
def isHexDigit (c : Char) : Bool :=
  c.isDigit || ('a' ≤ c && c ≤ 'f') || ('A' ≤ c && c ≤ 'F')

/-- The pattern `/^#[0-9A-F]{6}$/i`. -/
def matchesColor (x : String) : Bool :=
  match x.toList with
  | '#' :: rest => rest.length == 6 && rest.all isHexDigit
  | _ => false

/-- The pattern `/^([01]?[0-9]|2[0-3]):[0-5][0-9]$/`. -/
def matchesTime (x : String) : Bool :=
  match x.toList with
  | [h, ':', m1, m2] => h.isDigit && ('0' ≤ m1 && m1 ≤ '5') && m2.isDigit
  | [h1, h2, ':', m1, m2] =>
    ((((h1 == '0') || (h1 == '1')) && h2.isDigit) || ((h1 == '2') && ('0' ≤ h2 && h2 ≤ '3')))
      && ('0' ≤ m1 && m1 ≤ '5') && m2.isDigit
  | _ => false

/-- The number of UTF-16 code units of a character: 2 for a character
outside the Basic Multilingual Plane, 1 otherwise. -/
def utf16Units (c : Char) : Nat :=
  if c.toNat < 65536 then 1 else 2

/-- The `length` of a JavaScript string: its number of UTF-16 code units. -/
def jsLength (x : String) : Nat :=
  (x.toList.map utf16Units).sum

/-- `Joi.string().required().max(n)`: present, not empty, and of `length`
at most `n`, the length being the one of the JavaScript string. -/
def requiredStringMax (x : Option String) (n : Nat) : Bool :=
  match x with
  | none => false
  | some v => v != "" && decide (jsLength v ≤ n)

/-- An optional key under a rule: an absent key passes. -/
def optionalKey {α : Type} (x : Option α) (rule : α → Bool) : Bool :=
  match x with
  | none => true
  | some v => rule v

/-- The rule of the key `operatingHours`: `start` and `end` match the time
pattern and `days` holds strings, which `Joi.string()` wants non-empty. -/
def operatingHoursValid (h : OperatingHours) : Bool :=
  optionalKey h.start matchesTime && optionalKey h.«end» matchesTime
    && h.days.all (fun d => d != "")

/-- Whether `createRouteSchema.validate(req.body)` reports no error;
`farePrice` is in hundredths, so 999.99 is 99999. -/
def createRouteSchema (b : BusRouteValues) : Bool :=
  requiredStringMax b.name 255
    && requiredStringMax b.code 50
    && optionalKey b.color matchesColor
    && optionalKey b.operatingHours operatingHoursValid
    && optionalKey b.farePrice (fun p => decide (0 ≤ p) && decide (p ≤ 99999))

/-- The answer of `POST /` for routes: the status code and, on 201, the
created row. -/
structure CreateRouteResponse where
  status : Nat
  body : Option BusRoute
  deriving DecidableEq, Repr

/-- The handler of `POST /` of the routes router. -/
def createRoute (s : Store) (b : BusRouteValues) : Store × CreateRouteResponse :=
  if createRouteSchema b then
    match BusRoute.create s b with
    | .ok (s', route) => (s', { status := 201, body := some route })
    | .error e =>
      if e = SequelizeError.uniqueConstraint then (s, { status := 400, body := none })
      else (s, { status := 500, body := none })
  else (s, { status := 400, body := none })

/-! ## Stop endpoints (`backend/routes/stopRoutes.js`) -/

/-- The body of `POST /` for stops; latitude and longitude in thousandths
of a degree. -/
structure CreateStopBody where
  name : Option String
  description : Option String
  latitude : Option Int
  longitude : Option Int
  address : Option String
  landmarks : Option String
  deriving DecidableEq, Repr

/-- `Joi.number().required().min(-b).max(b)`, the bound in degrees. -/
def requiredNumberWithin (x : Option Int) (b : Int) : Bool :=
  match x with
  | none => false
  | some v => decide (-(b * 1000) ≤ v) && decide (v ≤ b * 1000)

/-- Whether `createStopSchema.validate(req.body)` reports no error;
`description`, `address` and `landmarks` are strings that may be empty. -/
def createStopSchema (b : CreateStopBody) : Bool :=
  requiredStringMax b.name 255
    && requiredNumberWithin b.latitude 90
    && requiredNumberWithin b.longitude 180

/-- The JSON answered with 201: the created row with the latitude and
longitude of the request. -/
structure CreatedStop where
  stop : BusStop
  latitude : Int
  longitude : Int
  deriving DecidableEq, Repr

/-- The answer of `POST /` for stops. -/
structure CreateStopResponse where
  status : Nat
  body : Option CreatedStop
  deriving DecidableEq, Repr

/-- The handler of `POST /` of the stops router. -/
def createStop (s : Store) (b : CreateStopBody) : Store × CreateStopResponse :=
  match createStopSchema b, b.latitude, b.longitude with
  | true, some latitude, some longitude =>
    match BusStop.create s
        { name := b.name, description := b.description,
          coordinates := { coordinates := [longitude, latitude] },
          address := b.address, landmarks := b.landmarks } with
    | .ok (s', stop) =>
      (s', { status := 201,
             body := some { stop := stop, latitude := latitude, longitude := longitude } })
    | .error e =>
      if e = SequelizeError.uniqueConstraint then (s, { status := 400, body := none })
      else (s, { status := 500, body := none })
  | _, _, _ => (s, { status := 400, body := none })

/-! ### Stop detail (`GET /:id` of `backend/routes/stopRoutes.js`) -/

/-- The models of `backend/models/index.js`. -/
inductive Model where
  | BusStop
  | BusRoute
  | RouteStop
  | Bus
  deriving DecidableEq, Repr

/-- The associations declared on `BusStop`, alias and target:
`hasMany(RouteStop, { as: 'routeStops' })` and
`belongsToMany(BusRoute, { as: 'routes' })`. -/
def busStopAssociations : List (String × Model) :=
  [("routeStops", Model.RouteStop), ("routes", Model.BusRoute)]

/-- Whether an include `{ model, as }` names an association of the list:
Sequelize looks the association up by the target model and the alias. -/
def includeResolves (associations : List (String × Model)) (model : Model) (as : String) :
    Bool :=
  associations.any (fun a => decide (a.2 = model) && decide (a.1 = as))

/-- `BusStop.findByPk(id, { include: [{ model, as, ... }] })`: an include
that names no association of `BusStop` is refused with an eager-loading
error before any row is read. -/
def BusStop.findByPkIncluding (s : Store) (id : Nat) (model : Model) (as : String) :
    Except SequelizeError (Option BusStop) :=
  if includeResolves busStopAssociations model as then .ok (BusStop.findByPk s (some id))
  else .error SequelizeError.eagerLoadingError

/-- The JSON of the stop detail; the mapped `routes` array is left out. -/
structure StopDetail where
  stop : BusStop
  latitude : Option Int
  longitude : Option Int
  deriving DecidableEq, Repr

/-- The answer of `GET /:id` for stops: 200 with the detail, 404, or 500. -/
inductive StopDetailResponse where
  | ok (detail : StopDetail)
  | notFound
  | serverError
  deriving DecidableEq, Repr

/-- The handler of `GET /:id` of the stops router; its include is
`{ model: BusStop, as: 'routeStops' }`. -/
def stopDetail (s : Store) (id : Nat) : StopDetailResponse :=
  match BusStop.findByPkIncluding s id Model.BusStop "routeStops" with
  | .error _ => .serverError
  | .ok none => .notFound
  | .ok (some stop) =>
    .ok { stop := stop,
          latitude := stop.coordinates.coordinates[1]?,
          longitude := stop.coordinates.coordinates[0]? }

/-! ## Reachable stores -/

/-- A write operation of the system. -/
inductive Op where
  | importStops (data : List StopRecord)
  | importRoutes (data : List BusRouteValues)
  | importRouteStops (data : List LinkRecord)
  | addStopToRoute (routeId : Nat) (body : AddStopBody)
  | createStop (body : CreateStopBody)
  | createRoute (body : BusRouteValues)
  deriving Repr

/-- The store after one operation. -/
def Op.run (s : Store) : Op → Store
  | .importStops data => (BusTracker.importStops s data).1
  | .importRoutes data => (BusTracker.importRoutes s data).1
  | .importRouteStops data => (BusTracker.importRouteStops s data).1
  | .addStopToRoute routeId body => (BusTracker.addStopToRoute s routeId body).1
  | .createStop body => (BusTracker.createStop s body).1
  | .createRoute body => (BusTracker.createRoute s body).1

/-- The store after a sequence of operations. -/
def runOps (s : Store) (ops : List Op) : Store :=
  ops.foldl Op.run s

/-- The columns of the unique index of `route_stops`. -/
def RouteStop.orderKey (rs : RouteStop) : Nat × Direction × Int :=
  (rs.routeId, rs.direction, rs.stopOrder)

/-- Invariant I1: no two rows of `route_stops` agree on
(routeId, direction, stopOrder). -/
def OrderUnique (s : Store) : Prop :=
  (s.routeStops.map RouteStop.orderKey).Nodup

instance (s : Store) : Decidable (OrderUnique s) := by
  unfold OrderUnique; infer_instance

/-! ## Route detail (`GET /:id` of `backend/routes/busRoutes.js`) -/

/-- The rows that `BusRoute.findByPk(id, { include: ... })` attaches as
`route.routeStops`, each with its joined `stop`. The `order` option of the
source sits inside the `include` of a joined association; Sequelize reads an
`order` placed there only for an include fetched with `separate: true`, so
the query carries no ORDER BY and the rows come as the table yields them. -/
def includedRouteStops (s : Store) (routeId : Nat) : List (RouteStop × Option BusStop) :=
  (s.routeStops.filter (fun rs => decide (rs.routeId = routeId))).map
    (fun rs => (rs, s.stops.find? (fun st => decide (st.id = rs.stopId))))

/-- An element of `outboundStops` / `inboundStops`: the attributes
id, name, coordinates, address of the stop, then the fields of the link. -/
structure StopEntry where
  id : Nat
  name : String
  coordinates : Point
  address : Option String
  stopOrder : Int
  averageArrivalTime : Option Int
  distanceFromPrevious : Option Int
  latitude : Option Int
  longitude : Option Int
  deriving DecidableEq, Repr

/-- The object built by the `map` callback; `rs.stop.toJSON()` throws when
the joined stop is missing. -/
def stopEntry (rs : RouteStop) (stop : Option BusStop) : Option StopEntry :=
  match stop with
  | none => none
  | some st =>
    some { id := st.id, name := st.name, coordinates := st.coordinates, address := st.address,
           stopOrder := rs.stopOrder, averageArrivalTime := rs.averageArrivalTime,
           distanceFromPrevious := rs.distanceFromPrevious,
           latitude := st.coordinates.coordinates[1]?,
           longitude := st.coordinates.coordinates[0]? }

/-- The `map` over the filtered rows; `none` when the callback throws. -/
def mapEntries : List (RouteStop × Option BusStop) → Option (List StopEntry)
  | [] => some []
  | r :: rest =>
    match stopEntry r.1 r.2, mapEntries rest with
    | some e, some es => some (e :: es)
    | _, _ => none

/-- The expression `route.routeStops.filter(rs => rs.direction === d).map(...)`. -/
def directionStops (rows : List (RouteStop × Option BusStop)) (d : Direction) :
    Option (List StopEntry) :=
  mapEntries (rows.filter (fun r => decide (r.1.direction = d)))

/-! ### JavaScript numbers

The handler turns each distance into a JavaScript number with `parseFloat`
and adds the numbers with `+`. A JavaScript number is an IEEE 754 binary64
value; the ones met here are finite, and each is kept as the exact rational
it stands for. A `DECIMAL(8,2)` distance is below one million in magnitude,
so no sum of distances comes near the overflow threshold `2 ^ 1024`. -/

/-- A finite IEEE 754 double: the number `num / 2 ^ exp`, in lowest terms
(`num` is odd or `exp` is 0). The sign of a zero is not kept. -/
structure Double where
  num : Int
  exp : Nat
  deriving DecidableEq, Repr

/-- The number 0. -/
def Double.zero : Double :=
  { num := 0, exp := 0 }

/-- The fraction `num / 2 ^ exp` brought to lowest terms. -/
def Double.normalize (num : Int) : Nat → Double
  | 0 => { num := num, exp := 0 }
  | k + 1 => if num % 2 = 0 then Double.normalize (num / 2) k else { num := num, exp := k + 1 }

/-- The number of binary digits of `n`, for `n` below `2 ^ fuel`. -/
def bitLength : Nat → Nat → Nat
  | 0, _ => 0
  | fuel + 1, n => if n = 0 then 0 else bitLength fuel (n / 2) + 1

/-- The fraction `(a / d) / 2 ^ e` as a numerator and a denominator. -/
def scaleByPowerOfTwo (a d : Nat) (e : Int) : Nat × Nat :=
  if 0 ≤ e then (a, d * 2 ^ e.toNat) else (a * 2 ^ (-e).toNat, d)

/-- The integer `c` with `2 ^ c ≤ a / d < 2 ^ (c + 1)`, for positive `a`, `d`. -/
def floorLog2 (a d : Nat) : Int :=
  let c : Int := (bitLength a a : Int) - (bitLength d d : Int)
  let p := scaleByPowerOfTwo a d c
  if p.2 ≤ p.1 then c else c - 1

/-- The integer nearest to `x / y`, a tie going to the even one. -/
def roundHalfEven (x y : Nat) : Nat :=
  let q := x / y
  let r := x % y
  if 2 * r < y then q else if y < 2 * r then q + 1 else if q % 2 = 0 then q else q + 1

/-- The double nearest to the fraction `n / d` (`d` positive), ties to
even: the rounding of IEEE 754 in its default mode. A double has 53
significant binary digits, so a value between `2 ^ c` and `2 ^ (c + 1)` is
rounded to a multiple of `2 ^ (c - 52)`, and never to anything finer than
the subnormal step `2 ^ (-1074)`. -/
def Double.round (n : Int) (d : Nat) : Double :=
  if n = 0 then Double.zero
  else
    let a := n.natAbs
    let e : Int := max (floorLog2 a d - 52) (-1074)
    let p := scaleByPowerOfTwo a d e
    let m : Int := roundHalfEven p.1 p.2
    let signed : Int := if n < 0 then -m else m
    if 0 ≤ e then { num := signed * 2 ^ e.toNat, exp := 0 }
    else Double.normalize signed (-e).toNat

/-- The JavaScript `a + b` on two numbers: the exact sum, rounded. -/
def Double.add (a b : Double) : Double :=
  Double.round (a.num * 2 ^ b.exp + b.num * 2 ^ a.exp) (2 ^ (a.exp + b.exp))

/-- The function `parseFloat` on a `DECIMAL(8,2)` value, which Sequelize hands
over as a decimal string such as "0.10", or as null: the double nearest to
the decimal, and NaN (`none`) for null. -/
def parseFloat (x : Option Int) : Option Double :=
  match x with
  | none => none
  | some hundredths => some (Double.round hundredths 100)

/-- The JavaScript `x || 0` on a number: NaN and 0 are falsy. -/
def orZero (x : Option Double) : Double :=
  match x with
  | none => Double.zero
  | some v => if v = Double.zero then Double.zero else v

/-- Whether a double is exactly the decimal of that many hundredths. -/
def Double.isHundredths (x : Double) (hundredths : Int) : Prop :=
  x.num * 100 = hundredths * 2 ^ x.exp

/-- The expression
`stops.reduce((sum, stop) => sum + (parseFloat(stop.distanceFromPrevious) || 0), 0)`. -/
def sumDistance (stops : List StopEntry) : Double :=
  stops.foldl (fun sum stop => Double.add sum (orZero (parseFloat stop.distanceFromPrevious)))
    Double.zero

/-- The field `totalDistance` of the route detail. -/
structure TotalDistance where
  outbound : Double
  inbound : Double
  deriving DecidableEq, Repr

/-- The JSON answer of the route detail. -/
structure RouteDetail where
  route : BusRoute
  routeStops : List (RouteStop × Option BusStop)
  outboundStops : List StopEntry
  inboundStops : List StopEntry
  totalDistance : TotalDistance
  deriving DecidableEq, Repr

/-- The answer of `GET /:id`: 200 with the detail, 404, or 500. -/
inductive RouteDetailResponse where
  | ok (detail : RouteDetail)
  | notFound
  | serverError
  deriving DecidableEq, Repr

/-- The handler of `GET /:id`. -/
def routeDetail (s : Store) (id : Nat) : RouteDetailResponse :=
  match BusRoute.findByPk s (some id) with
  | none => .notFound
  | some route =>
    let routeStops := includedRouteStops s route.id
    match directionStops routeStops Direction.outbound,
          directionStops routeStops Direction.inbound with
    | some outboundStops, some inboundStops =>
      .ok { route := route, routeStops := routeStops,
            outboundStops := outboundStops, inboundStops := inboundStops,
            totalDistance := { outbound := sumDistance outboundStops,
                               inbound := sumDistance inboundStops } }
    | _, _ => .serverError

/-- The links of a route in one direction, in table order. -/
def directionLinks (s : Store) (routeId : Nat) (d : Direction) : List RouteStop :=
  s.routeStops.filter (fun rs => decide (rs.routeId = routeId ∧ rs.direction = d))

/-- The sum of `distanceFromPrevious` over the links of a route in one
direction as a decimal, in hundredths, an absent distance counting as 0. -/
def linkDistanceSum (s : Store) (routeId : Nat) (d : Direction) : Int :=
  ((directionLinks s routeId d).map (fun rs => rs.distanceFromPrevious.getD 0)).sum

/-- The sum of a list of distances in JavaScript numbers: each distance is
read by `parseFloat`, an absent one counts as 0, and the numbers are added
one after the other to 0, every addition rounded to the nearest double. -/
def doubleSum (distances : List (Option Int)) : Double :=
  distances.foldl (fun sum x => Double.add sum (orZero (parseFloat x))) Double.zero

/-! ## Lists (`GET /` of both routers) -/

/-- The rows Sequelize keeps when it builds the array of an included
association: one per primary key, the first that the query returned. -/
def uniqueById {α : Type} (key : α → Nat) : List α → List α
  | [] => []
  | x :: xs => x :: (uniqueById key xs).filter (fun y => !decide (key y = key x))

/-- The attributes `['id', 'name', 'code', 'color']` of an included route. -/
structure IncludedRoute where
  id : Nat
  name : String
  code : String
  color : String
  deriving DecidableEq, Repr

/-- The array `stop.routes` of the include `as: 'routes'` through
`RouteStop`: the links of the stop joined to their routes, one element per
route. -/
def includedRoutes (s : Store) (stop : BusStop) : List IncludedRoute :=
  uniqueById (fun r => r.id)
    ((s.routeStops.filter (fun rs => decide (rs.stopId = stop.id))).filterMap (fun rs =>
      (s.routes.find? (fun r => decide (r.id = rs.routeId))).map (fun r =>
        { id := r.id, name := r.name, code := r.code, color := r.color })))

/-- An element of the stop list. -/
structure StopListEntry where
  stop : BusStop
  routes : List IncludedRoute
  latitude : Option Int
  longitude : Option Int
  routeCount : Nat
  deriving DecidableEq, Repr

/-- The handler of `GET /` of the stops router, on success. -/
def stopList (s : Store) : List StopListEntry :=
  s.stops.map (fun stop =>
    { stop := stop, routes := includedRoutes s stop,
      latitude := stop.coordinates.coordinates[1]?,
      longitude := stop.coordinates.coordinates[0]?,
      routeCount := (includedRoutes s stop).length })

/-- The attributes `['stopOrder', 'direction', 'distanceFromPrevious']` of
the through row. -/
structure ThroughFields where
  stopOrder : Int
  direction : Direction
  distanceFromPrevious : Option Int
  deriving DecidableEq, Repr

/-- The attributes `['id', 'name']` of an included stop, with the through row. -/
structure IncludedStop where
  id : Nat
  name : String
  RouteStop : ThroughFields
  deriving DecidableEq, Repr

/-- The attributes `['id', 'plateNumber', 'status']` of an included bus. -/
structure IncludedBus where
  id : Nat
  plateNumber : String
  status : BusStatus
  deriving DecidableEq, Repr

/-- The array `route.stops` of the include `as: 'stops'` through
`RouteStop`: the links of the route joined to their stops, one element per
stop. -/
def includedStops (s : Store) (route : BusRoute) : List IncludedStop :=
  uniqueById (fun st => st.id)
    ((s.routeStops.filter (fun rs => decide (rs.routeId = route.id))).filterMap (fun rs =>
      (s.stops.find? (fun st => decide (st.id = rs.stopId))).map (fun st =>
        { id := st.id, name := st.name,
          RouteStop := { stopOrder := rs.stopOrder, direction := rs.direction,
                         distanceFromPrevious := rs.distanceFromPrevious } })))

/-- The array `route.buses` of the include `as: 'buses'`. -/
def includedBuses (s : Store) (route : BusRoute) : List IncludedBus :=
  uniqueById (fun b => b.id)
    ((s.buses.filter (fun b => decide (b.routeId = route.id))).map (fun b =>
      { id := b.id, plateNumber := b.plateNumber, status := b.status }))

/-- Whether a list of characters comes before or equals another, character
by character. -/
def charsLe : List Char → List Char → Bool
  | [], _ => true
  | _ :: _, [] => false
  | a :: as, b :: bs => decide (a.toNat < b.toNat) || (a.toNat == b.toNat && charsLe as bs)

/-- The rows of `BusRoute.findAll({ order: [['name', 'ASC']] })`; names are
compared character by character, where the database uses its collation. -/
def routesByName (s : Store) : List BusRoute :=
  s.routes.insertionSort (fun a b => charsLe a.name.toList b.name.toList = true)

/-- An element of the route list. -/
structure RouteListEntry where
  route : BusRoute
  stops : List IncludedStop
  buses : List IncludedBus
  totalStops : Nat
  activeBuses : Nat
  deriving DecidableEq, Repr

/-- The handler of `GET /` of the routes router, on success. -/
def routeList (s : Store) : List RouteListEntry :=
  (routesByName s).map (fun route =>
    { route := route, stops := includedStops s route, buses := includedBuses s route,
      totalStops := (includedStops s route).length,
      activeBuses :=
        ((includedBuses s route).filter (fun bus => decide (bus.status = BusStatus.active))).length })

/-- The number of distinct stops among the links of a route. -/
def routeStopCount (s : Store) (routeId : Nat) : Nat :=
  ((s.routeStops.filter (fun rs => decide (rs.routeId = routeId))).map
    (fun rs => rs.stopId)).dedup.length

/-- Every link names a route of the store. -/
def RoutesIntact (s : Store) : Prop :=
  ∀ rs ∈ s.routeStops, ∃ r ∈ s.routes, r.id = rs.routeId

/-- Invariant I3: no two stops share a name and no two routes share a code. -/
def NaturalKeysUnique (s : Store) : Prop :=
  (s.stops.map (fun st => st.name)).Nodup ∧ (s.routes.map (fun r => r.code)).Nodup

/-! ## System overview (`backend/routes/analyticsRoutes.js`) -/

/-- The subquery
`SELECT COUNT(DISTINCT route_id) AS route_count FROM route_stops GROUP BY stop_id`:
one count for each stop_id value that occurs in `route_stops`. -/
def stopRoutes (s : Store) : List Nat :=
  (s.routeStops.map (fun rs => rs.stopId)).dedup.map (fun sid =>
    ((s.routeStops.filter (fun rs => decide (rs.stopId = sid))).map
      (fun rs => rs.routeId)).dedup.length)

/-- The aggregate `ROUND(AVG(x)::numeric, 2)` over counts, in hundredths:
null on no rows, halves rounded up. -/
def roundAvg2 (total count : Nat) : Option Nat :=
  if count = 0 then none else some ((200 * total + count) / (2 * count))

/-- The aggregate `ROUND(SUM(distance_from_previous)::numeric, 2)`, in hundredths:
null values are skipped, and the sum of no value is null. -/
def sumDistanceColumn (s : Store) : Option Int :=
  match s.routeStops.filterMap (fun rs => rs.distanceFromPrevious) with
  | [] => none
  | ds => some ds.sum

/-- The row returned by the overview query. -/
structure SystemOverview where
  total_stops : Nat
  total_routes : Nat
  total_buses : Nat
  avg_routes_per_stop : Option Nat
  total_network_distance : Option Int
  deriving DecidableEq, Repr

/-- The query of `GET /system-overview`. -/
def systemOverview (s : Store) : SystemOverview :=
  { total_stops := (s.stops.filter (fun st => decide (st.status = StopStatus.active))).length,
    total_routes := (s.routes.filter (fun r => decide (r.status = RouteStatus.active))).length,
    total_buses := (s.buses.filter (fun b => decide (b.status = BusStatus.active))).length,
    avg_routes_per_stop := roundAvg2 (stopRoutes s).sum (stopRoutes s).length,
    total_network_distance := sumDistanceColumn s }

/-- The number of distinct routes that have a link on a stop. -/
def stopRouteCount (s : Store) (stopId : Nat) : Nat :=
  ((s.routeStops.filter (fun rs => decide (rs.stopId = stopId))).map
    (fun rs => rs.routeId)).dedup.length

/-- A value `v`, in hundredths, is the mean of `stopRouteCount` over all
the stops of the store. -/
def IsMeanOverAllStops (s : Store) (v : Nat) : Prop :=
  s.stops ≠ [] ∧ v * s.stops.length = 100 * (s.stops.map (fun st => stopRouteCount s st.id)).sum

/-- The stops that have at least one link. -/
def linkedStops (s : Store) : List BusStop :=
  s.stops.filter (fun st => s.routeStops.any (fun rs => decide (rs.stopId = st.id)))

/-- Every link names a stop of the store, and stop ids are distinct. -/
def StopsIntact (s : Store) : Prop :=
  (∀ rs ∈ s.routeStops, ∃ st ∈ s.stops, st.id = rs.stopId) ∧ (s.stops.map (fun st => st.id)).Nodup

/-- The sum of `distanceFromPrevious` over every link of the store, a
link without a distance adding nothing. -/
def linkDistanceTotal (s : Store) : Int :=
  (s.routeStops.map (fun rs => rs.distanceFromPrevious.getD 0)).sum

/-- The sum, over the routes of the store, of the outbound and the inbound
decimal sums of `distanceFromPrevious`. -/
def directionSumsTotal (s : Store) : Int :=
  (s.routes.map (fun r =>
    linkDistanceSum s r.id Direction.outbound + linkDistanceSum s r.id Direction.inbound)).sum

/-! ## Example data -/

/-- The stop "Plaza Central", stored with id 1. -/
def plazaCentral : BusStop :=
  { id := 1, name := "Plaza Central", description := none,
    coordinates := { coordinates := [-79534, 8983] }, address := none, landmarks := none,
    status := StopStatus.active }

/-- The stop "Mercado", stored with id 2. -/
def mercado : BusStop :=
  { id := 2, name := "Mercado", description := none,
    coordinates := { coordinates := [-79520, 8990] }, address := none, landmarks := none,
    status := StopStatus.active }

/-- The route with code R1, stored with id 1. -/
def routeR1 : BusRoute :=
  { id := 1, name := "Ruta 1", code := "R1", color := "#3498db", description := none,
    operatingHours := none, farePrice := none, status := RouteStatus.active }

/-- A store with route R1 and the single stop "Plaza Central". -/
def storeR1Plaza : Store :=
  { stops := [plazaCentral], routes := [routeR1], routeStops := [], buses := [],
    stopSeq := 1, routeSeq := 1, routeStopSeq := 0 }

/-- The link record (R1, Plaza Central, outbound, 1). -/
def linkPlaza : LinkRecord :=
  { routeCode := some "R1", stopName := some "Plaza Central", direction := some "outbound",
    stopOrder := some 1, distanceFromPrevious := none, averageArrivalTime := none }

/-- The link record (R1, Unknown Stop, outbound, 2). -/
def linkUnknown : LinkRecord :=
  { routeCode := some "R1", stopName := some "Unknown Stop", direction := some "outbound",
    stopOrder := some 2, distanceFromPrevious := none, averageArrivalTime := none }

/-- A store with route R1, two stops, and "Plaza Central" linked as the
first outbound stop of R1. -/
def storeLinked : Store :=
  { stops := [plazaCentral, mercado], routes := [routeR1],
    routeStops := [{ id := 1, routeId := 1, stopId := 1, stopOrder := 1,
                     direction := Direction.outbound, averageArrivalTime := none,
                     distanceFromPrevious := none }],
    buses := [], stopSeq := 2, routeSeq := 1, routeStopSeq := 1 }

/-- The link record (R1, Mercado, outbound, 1): another stop at a taken position. -/
def linkMercadoFirst : LinkRecord :=
  { routeCode := some "R1", stopName := some "Mercado", direction := some "outbound",
    stopOrder := some 1, distanceFromPrevious := none, averageArrivalTime := none }

/-- A request body naming stop 2 and nothing else: order and direction take
their defaults 1 and outbound. -/
def bodyMercado : AddStopBody :=
  { stopId := some 2, stopOrder := none, direction := none, distanceFromPrevious := none,
    averageArrivalTime := none }

/-- A stop record without a name. -/
def stopNoName : StopRecord :=
  { name := none, description := none, latitude := 8983, longitude := -79534,
    address := none, landmarks := none }

/-- A route record with a code and no name. -/
def routeNoName : BusRouteValues :=
  { name := none, code := some "R9", color := none, description := none,
    operatingHours := none, farePrice := none }

/-- The stop record of "Plaza Central". -/
def recordPlaza : StopRecord :=
  { name := some "Plaza Central", description := none, latitude := 8983, longitude := -79534,
    address := none, landmarks := none }

/-- The stop record of "Mercado". -/
def recordMercado : StopRecord :=
  { name := some "Mercado", description := none, latitude := 8990, longitude := -79520,
    address := none, landmarks := none }

instance (s : Store) (v : Nat) : Decidable (IsMeanOverAllStops s v) := by
  unfold IsMeanOverAllStops; infer_instance

/-- The stop "Terminal", stored with id 3. -/
def terminal : BusStop :=
  { id := 3, name := "Terminal", description := none,
    coordinates := { coordinates := [-79510, 8995] }, address := none, landmarks := none,
    status := StopStatus.active }

/-- The stop "Parque", stored with id 4. -/
def parque : BusStop :=
  { id := 4, name := "Parque", description := none,
    coordinates := { coordinates := [-79500, 9001] }, address := none, landmarks := none,
    status := StopStatus.active }

/-- The route with code R2, stored with id 2. -/
def routeR2 : BusRoute :=
  { id := 2, name := "Ruta 2", code := "R2", color := "#e74c3c", description := none,
    operatingHours := none, farePrice := none, status := RouteStatus.active }

/-- A store with four stops and two routes: "Plaza Central" is on R1 and
R2, "Mercado" and "Terminal" are on R1, and "Parque" is on no route. -/
def storeNetwork : Store :=
  { stops := [plazaCentral, mercado, terminal, parque], routes := [routeR1, routeR2],
    routeStops :=
      [{ id := 1, routeId := 1, stopId := 1, stopOrder := 1, direction := Direction.outbound,
         averageArrivalTime := none, distanceFromPrevious := some 0 },
       { id := 2, routeId := 1, stopId := 2, stopOrder := 2, direction := Direction.outbound,
         averageArrivalTime := some 4, distanceFromPrevious := some 150 },
       { id := 3, routeId := 1, stopId := 3, stopOrder := 3, direction := Direction.outbound,
         averageArrivalTime := none, distanceFromPrevious := none },
       { id := 4, routeId := 2, stopId := 1, stopOrder := 1, direction := Direction.inbound,
         averageArrivalTime := none, distanceFromPrevious := some 275 }],
    buses := [], stopSeq := 4, routeSeq := 2, routeStopSeq := 4 }

/-- The route record of R1. -/
def recordR1 : BusRouteValues :=
  { name := some "Ruta 1", code := some "R1", color := none, description := none,
    operatingHours := none, farePrice := none }

/-- The store after importing two stops and route R1 into the empty store
and then adding, by two add-stop-to-route requests, "Plaza Central" as
outbound stop 2 and after it "Mercado" as outbound stop 1. -/
def storeLateFirstStop : Store :=
  runOps Store.empty
    [Op.importStops [recordPlaza, recordMercado],
     Op.importRoutes [recordR1],
     Op.addStopToRoute 1 { stopId := some 1, stopOrder := some 2, direction := some "outbound",
                           distanceFromPrevious := some 120, averageArrivalTime := none },
     Op.addStopToRoute 1 { stopId := some 2, stopOrder := some 1, direction := some "outbound",
                           distanceFromPrevious := none, averageArrivalTime := none }]

/-- A store with the stops and routes of `storeNetwork`, no link, and two
buses on route R1. -/
def storeWithBuses : Store :=
  { stops := [plazaCentral, mercado], routes := [routeR1, routeR2],
    routeStops :=
      [{ id := 1, routeId := 1, stopId := 1, stopOrder := 1, direction := Direction.outbound,
         averageArrivalTime := none, distanceFromPrevious := none }],
    buses :=
      [{ id := 1, plateNumber := "AB1234", routeId := 1, capacity := some 40,
         busType := BusType.standard, status := BusStatus.active, lastKnownPosition := none },
       { id := 2, plateNumber := "CD5678", routeId := 1, capacity := none,
         busType := BusType.minibus, status := BusStatus.maintenance,
         lastKnownPosition := none }],
    stopSeq := 2, routeSeq := 2, routeStopSeq := 1 }

/-- A create-stop body for a second "Plaza Central". -/
def bodyPlazaAgain : CreateStopBody :=
  { name := some "Plaza Central", description := none, latitude := some 9000,
    longitude := some (-79500), address := none, landmarks := none }

/-- A create-route body for a second route with code R1. -/
def bodyR1Again : BusRouteValues :=
  { name := some "Ruta 1 bis", code := some "R1", color := some "#00ff00", description := none,
    operatingHours := none, farePrice := some 35 }

/-- An add-stop-to-route body naming a stop that is not stored. -/
def bodyUnknownStop : AddStopBody :=
  { stopId := some 99, stopOrder := some 2, direction := some "outbound",
    distanceFromPrevious := none, averageArrivalTime := none }

/-- An add-stop-to-route body for "Mercado" as outbound stop 2. -/
def bodyMercadoSecond : AddStopBody :=
  { stopId := some 2, stopOrder := some 2, direction := some "outbound",
    distanceFromPrevious := some 150, averageArrivalTime := none }

/-- A name of 256 characters. -/
def longName : String :=
  String.mk (List.replicate 256 'a')

/-- A create-stop body with a name of 256 characters and coordinates in range. -/
def bodyLongName : CreateStopBody :=
  { name := some longName, description := none, latitude := some 8983,
    longitude := some (-79534), address := none, landmarks := none }

/-- A create-stop body for "Mercado" at latitude 8.990, longitude -79.520. -/
def bodyNewStop : CreateStopBody :=
  { name := some "Mercado", description := none, latitude := some 8990,
    longitude := some (-79520), address := none, landmarks := none }

/-- A create-stop body at latitude 95. -/
def bodyLatitude95 : CreateStopBody :=
  { name := some "Polo", description := none, latitude := some 95000,
    longitude := some 0, address := none, landmarks := none }

/-- A stop record at latitude 95, longitude 200. -/
def recordOffMap : StopRecord :=
  { name := some "Polo", description := none, latitude := 95000, longitude := 200000,
    address := none, landmarks := none }

/-- The same values as `recordOffMap`, as a create-stop body. -/
def bodyOffMap : CreateStopBody :=
  { name := some "Polo", description := none, latitude := some 95000,
    longitude := some 200000, address := none, landmarks := none }

/-- An add-stop-to-route body with stopOrder -1. -/
def bodyOrderMinusOne : AddStopBody :=
  { stopId := some 1, stopOrder := some (-1), direction := some "outbound",
    distanceFromPrevious := none, averageArrivalTime := none }

/-- The link record (R1, Plaza Central, outbound, 0). -/
def linkOrderZero : LinkRecord :=
  { routeCode := some "R1", stopName := some "Plaza Central", direction := some "outbound",
    stopOrder := some 0, distanceFromPrevious := none, averageArrivalTime := none }

/-- A create-route body with a fare of 1000.00. -/
def bodyFare1000 : BusRouteValues :=
  { name := some "Ruta 3", code := some "R3", color := some "#3498db", description := none,
    operatingHours := some { start := some "05:30", «end» := some "23:00", days := ["Mon"] },
    farePrice := some 100000 }

/-- A create-route body with a code of 51 characters. -/
def bodyLongCode : BusRouteValues :=
  { name := some "Ruta 3", code := some (String.mk (List.replicate 51 'R')), color := none,
    description := none, operatingHours := none, farePrice := none }

/-- A valid create-route body for route R3. -/
def bodyR3 : BusRouteValues :=
  { name := some "Ruta 3", code := some "R3", color := some "#3498DB", description := none,
    operatingHours := some { start := some "5:30", «end» := some "23:59", days := ["Mon", "Tue"] },
    farePrice := some 99999 }

/-- A store where route R1 serves "Plaza Central" outbound as stop 1 and
inbound as stop 2, and "Mercado" outbound as stop 2; route R2 has no link. -/
def storeBothWays : Store :=
  { stops := [plazaCentral, mercado], routes := [routeR2, routeR1],
    routeStops :=
      [{ id := 1, routeId := 1, stopId := 1, stopOrder := 1, direction := Direction.outbound,
         averageArrivalTime := none, distanceFromPrevious := none },
       { id := 2, routeId := 1, stopId := 2, stopOrder := 2, direction := Direction.outbound,
         averageArrivalTime := none, distanceFromPrevious := some 150 },
       { id := 3, routeId := 1, stopId := 1, stopOrder := 2, direction := Direction.inbound,
         averageArrivalTime := none, distanceFromPrevious := some 150 }],
    buses := [], stopSeq := 2, routeSeq := 2, routeStopSeq := 3 }

instance (s : Store) : Decidable (RoutesIntact s) := by
  unfold RoutesIntact; infer_instance

instance (s : Store) : Decidable (StopsIntact s) := by
  unfold StopsIntact; infer_instance

/-- A stop record named "Plaza Central" with other coordinates, address
and landmarks than the stored stop. -/
def recordPlazaMoved : StopRecord :=
  { name := some "Plaza Central", description := some "moved", latitude := 9100,
    longitude := -79400, address := some "Calle 50", landmarks := some "fountain" }

/-- The stop record of "Terminal" at latitude 8.995, longitude -79.510. -/
def recordTerminal : StopRecord :=
  { name := some "Terminal", description := none, latitude := 8995, longitude := -79510,
    address := none, landmarks := none }

/-- The link record (R1, Mercado, outbound, 2). -/
def linkMercadoSecond : LinkRecord :=
  { routeCode := some "R1", stopName := some "Mercado", direction := some "outbound",
    stopOrder := some 2, distanceFromPrevious := some 150, averageArrivalTime := none }

/-- The link record (R1, Terminal, inbound, 1). -/
def linkTerminalBack : LinkRecord :=
  { routeCode := some "R1", stopName := some "Terminal", direction := some "inbound",
    stopOrder := some 1, distanceFromPrevious := none, averageArrivalTime := none }

/-- The store with route R1 and "Plaza Central" after "Mercado" is created
by a create-stop request, "Terminal" is imported, and the three stops are
linked to R1. -/
def storeRoundTrip : Store :=
  runOps storeR1Plaza
    [Op.createStop bodyNewStop,
     Op.importStops [recordTerminal],
     Op.importRouteStops [linkPlaza, linkMercadoSecond, linkTerminalBack]]

/-- A second record named "Mercado", with other coordinates. -/
def recordMercadoAgain : StopRecord :=
  { name := some "Mercado", description := some "second", latitude := 1, longitude := 2,
    address := none, landmarks := none }

/-- A create-stop body with a new name, coordinates in range and an
address of 256 characters. -/
def bodyLongAddress : CreateStopBody :=
  { name := some "Mercado", description := none, latitude := some 8990,
    longitude := some (-79520), address := some longName, landmarks := none }

/-- A code of 26 characters outside the Basic Multilingual Plane (U+1F68C),
which are 52 UTF-16 code units. -/
def astralCode : String :=
  String.mk (List.replicate 26 (Char.ofNat 128652))

/-- A create-route body whose only fault is the code `astralCode`. -/
def bodyAstralCode : BusRouteValues :=
  { name := some "Ruta 3", code := some astralCode, color := none,
    description := none, operatingHours := none, farePrice := none }

instance (x : Double) (hundredths : Int) : Decidable (x.isHundredths hundredths) := by
  unfold Double.isHundredths; infer_instance

/-- The body that adds stop 1 to a route as outbound stop 1, 0.10 after the
previous stop. -/
def bodyTenth : AddStopBody :=
  { stopId := some 1, stopOrder := some 1, direction := none,
    distanceFromPrevious := some 10, averageArrivalTime := none }

/-- The body that adds stop 2 to a route as outbound stop 2, 0.20 after the
previous stop. -/
def bodyTwoTenths : AddStopBody :=
  { stopId := some 2, stopOrder := some 2, direction := none,
    distanceFromPrevious := some 20, averageArrivalTime := none }

/-- R1 with two outbound links, of 0.10 and of 0.20. -/
def storeTenths : Store :=
  { stops := [plazaCentral, mercado], routes := [routeR1],
    routeStops :=
      [{ id := 1, routeId := 1, stopId := 1, stopOrder := 1, direction := Direction.outbound,
         averageArrivalTime := none, distanceFromPrevious := some 10 },
       { id := 2, routeId := 1, stopId := 2, stopOrder := 2, direction := Direction.outbound,
         averageArrivalTime := none, distanceFromPrevious := some 20 }],
    buses := [], stopSeq := 2, routeSeq := 1, routeStopSeq := 2 }

/-! ## Facts about the inserts -/

theorem routeStop_create_ok {s s' : Store} {v : RouteStopValues} {row : RouteStop}
    (h : RouteStop.create s v = .ok (s', row)) :
    s'.routeStops = s.routeStops ++ [row] ∧ s'.stops = s.stops ∧ s'.routes = s.routes
      ∧ s'.buses = s.buses ∧ row.orderKey ∉ s.routeStops.map RouteStop.orderKey
      ∧ row.routeId = v.routeId ∧ row.stopId = v.stopId := by
  unfold RouteStop.create at h
  split at h
  · split at h
    · cases h
    · split at h
      · cases h
      · split at h
        · cases h
        · rename_i o dstr _ _ d _ hfk huniq
          injection h with h
          injection h with h1 h2
          subst h1 h2
          refine ⟨rfl, rfl, rfl, rfl, ?_, rfl, rfl⟩
          intro hmem
          apply huniq
          rw [List.mem_map] at hmem
          obtain ⟨r, hr, hk⟩ := hmem
          rw [List.any_eq_true]
          refine ⟨r, hr, ?_⟩
          simp only [RouteStop.orderKey, Prod.mk.injEq] at hk
          simp [hk.1, hk.2.1, hk.2.2]
  · cases h

theorem routeStop_create_dup {s : Store} {v : RouteStopValues} {o : Int} {d : Direction}
    (ho : v.stopOrder = some o) (hd : v.direction.bind Direction.ofString = some d)
    (hdup : (v.routeId, d, o) ∈ s.routeStops.map RouteStop.orderKey) :
    ∃ e, RouteStop.create s v = .error e := by
  rw [List.mem_map] at hdup
  obtain ⟨r, hr, hk⟩ := hdup
  simp only [RouteStop.orderKey, Prod.mk.injEq] at hk
  have hany : s.routeStops.any (fun rs =>
      decide (rs.routeId = v.routeId ∧ rs.direction = d ∧ rs.stopOrder = o)) = true := by
    rw [List.any_eq_true]
    exact ⟨r, hr, by simp [hk.1, hk.2.1, hk.2.2]⟩
  cases hdir : v.direction with
  | none => simp [hdir] at hd
  | some dstr =>
    simp only [hdir, Option.some_bind] at hd
    unfold RouteStop.create
    simp only [ho, hdir, hd]
    split
    · exact ⟨_, rfl⟩
    · exact ⟨_, rfl⟩

theorem busStop_create_ok {s s' : Store} {v : BusStopValues} {row : BusStop}
    (h : BusStop.create s v = .ok (s', row)) :
    s'.stops = s.stops ++ [row] ∧ s'.routes = s.routes ∧ s'.routeStops = s.routeStops
      ∧ s'.buses = s.buses ∧ v.name = some row.name
      ∧ s.stops.any (fun st => decide (st.name = row.name)) = false := by
  unfold BusStop.create at h
  split at h
  · cases h
  · split at h
    · cases h
    · split at h
      · rename_i n hn huniq _
        injection h with h
        injection h with h1 h2
        subst h1 h2
        exact ⟨rfl, rfl, rfl, rfl, hn, by simpa using huniq⟩
      · cases h

theorem busRoute_create_ok {s s' : Store} {v : BusRouteValues} {row : BusRoute}
    (h : BusRoute.create s v = .ok (s', row)) :
    s'.routes = s.routes ++ [row] ∧ s'.stops = s.stops ∧ s'.routeStops = s.routeStops
      ∧ s'.buses = s.buses ∧ v.code = some row.code := by
  unfold BusRoute.create at h
  split at h
  · split at h
    · cases h
    · split at h
      · split at h
        · rename_i n c hn hc huniq _ _
          injection h with h
          injection h with h1 h2
          subst h1 h2
          exact ⟨rfl, rfl, rfl, rfl, hc⟩
        · cases h
      · cases h
  · cases h

/-- An insert of a stop with a new name whose name and address fit their
columns succeeds and appends the row. -/
theorem busStop_create_new (s : Store) (v : BusStopValues) (n : String)
    (hn : v.name = some n) (hf : ∀ st ∈ s.stops, st.name ≠ n)
    (hname : fitsVarchar v.name 255 = true) (haddr : fitsVarchar v.address 255 = true) :
    ∃ s' row, BusStop.create s v = .ok (s', row) ∧ s'.stops = s.stops ++ [row]
      ∧ row.name = n ∧ row.coordinates = v.coordinates := by
  have hany : s.stops.any (fun st => decide (st.name = n)) = false := by
    rw [List.any_eq_false]
    intro st hst
    simpa using hf st hst
  rw [hn] at hname
  unfold BusStop.create
  simp only [hn, hany, hname, haddr, Bool.and_self, Bool.false_eq_true, if_false, if_true]
  exact ⟨_, _, rfl, rfl, rfl, rfl⟩

/-- An insert of a route with a new code whose values fit their columns
succeeds and appends the row. -/
theorem busRoute_create_new (s : Store) (v : BusRouteValues) (n c : String)
    (hn : v.name = some n) (hc : v.code = some c) (hf : ∀ r ∈ s.routes, r.code ≠ c)
    (hname : fitsVarchar v.name 255 = true) (hcode : fitsVarchar v.code 255 = true)
    (hcolor : fitsVarchar v.color 7 = true) (hfare : fitsDecimal52 v.farePrice = true) :
    ∃ s' row, BusRoute.create s v = .ok (s', row) ∧ s'.routes = s.routes ++ [row]
      ∧ row.name = n ∧ row.code = c ∧ row.farePrice = v.farePrice
      ∧ row.operatingHours = v.operatingHours := by
  have hany : s.routes.any (fun r => decide (r.code = c)) = false := by
    rw [List.any_eq_false]
    intro r hr
    simpa using hf r hr
  rw [hn] at hname
  rw [hc] at hcode
  unfold BusRoute.create
  simp only [hn, hc, hany, hname, hcode, hcolor, hfare, Bool.and_self, Bool.false_eq_true,
    if_false, if_true]
  exact ⟨_, _, rfl, rfl, rfl, rfl, rfl, rfl⟩

/-! ## Facts about the link stage -/

/-- One record of the link stage either appends one row that is new for
the unique index, or leaves the store as it is. -/
theorem importRouteStopsBody_cases (s : Store) (rs : LinkRecord) :
    ((importRouteStopsBody s rs).2 = .created ∧
      ∃ row, (importRouteStopsBody s rs).1.routeStops = s.routeStops ++ [row]
        ∧ row.orderKey ∉ s.routeStops.map RouteStop.orderKey
        ∧ (importRouteStopsBody s rs).1.stops = s.stops
        ∧ (importRouteStopsBody s rs).1.routes = s.routes
        ∧ (importRouteStopsBody s rs).1.buses = s.buses)
    ∨ ((importRouteStopsBody s rs).2 ≠ .created ∧ (importRouteStopsBody s rs).1 = s) := by
  unfold importRouteStopsBody
  split
  · exact Or.inr ⟨by simp, rfl⟩
  · exact Or.inr ⟨by simp, rfl⟩
  · split
    · exact Or.inr ⟨by simp, rfl⟩
    · split
      · rename_i s' row hc
        obtain ⟨h1, h2, h3, h4, h5, _, _⟩ := routeStop_create_ok hc
        exact Or.inl ⟨rfl, row, h1, h5, h2, h3, h4⟩
      · exact Or.inr ⟨by simp, rfl⟩

theorem importRouteStopsBody_stops (s : Store) (rs : LinkRecord) :
    (importRouteStopsBody s rs).1.stops = s.stops := by
  rcases importRouteStopsBody_cases s rs with ⟨_, _, _, _, h, _, _⟩ | ⟨_, h⟩
  · exact h
  · rw [h]

theorem importRouteStopsBody_routes (s : Store) (rs : LinkRecord) :
    (importRouteStopsBody s rs).1.routes = s.routes := by
  rcases importRouteStopsBody_cases s rs with ⟨_, _, _, _, _, h, _⟩ | ⟨_, h⟩
  · exact h
  · rw [h]

theorem importRouteStopsBody_orderUnique (s : Store) (rs : LinkRecord) (h : OrderUnique s) :
    OrderUnique (importRouteStopsBody s rs).1 := by
  rcases importRouteStopsBody_cases s rs with ⟨_, row, h1, h2, _, _, _⟩ | ⟨_, h1⟩
  · unfold OrderUnique at *
    rw [h1, List.map_append, List.map_singleton]
    exact List.Nodup.append h (List.nodup_singleton _) (by simpa using h2)
  · rw [h1]; exact h

theorem linkCounts_bump_comm (c : LinkCounts) (a b : Outcome) :
    (c.bump a).bump b = (c.bump b).bump a := by
  cases a <;> cases b <;> rfl

theorem importRouteStopsLoop_bump (s : Store) (c : LinkCounts) (o : Outcome)
    (data : List LinkRecord) :
    importRouteStopsLoop s (c.bump o) data
      = ((importRouteStopsLoop s c data).1, (importRouteStopsLoop s c data).2.bump o) := by
  induction data generalizing s c with
  | nil => rfl
  | cons rs rest ih =>
    simp only [importRouteStopsLoop]
    rw [linkCounts_bump_comm, ih]

theorem importRouteStopsLoop_append (s : Store) (c : LinkCounts) (xs ys : List LinkRecord) :
    importRouteStopsLoop s c (xs ++ ys)
      = importRouteStopsLoop (importRouteStopsLoop s c xs).1 (importRouteStopsLoop s c xs).2 ys := by
  induction xs generalizing s c with
  | nil => rfl
  | cons rs rest ih => exact ih _ _

theorem importRouteStopsLoop_stops (s : Store) (c : LinkCounts) (data : List LinkRecord) :
    (importRouteStopsLoop s c data).1.stops = s.stops
      ∧ (importRouteStopsLoop s c data).1.routes = s.routes := by
  induction data generalizing s c with
  | nil => exact ⟨rfl, rfl⟩
  | cons rs rest ih =>
    simp only [importRouteStopsLoop]
    obtain ⟨h1, h2⟩ := ih (importRouteStopsBody s rs).1 (c.bump (importRouteStopsBody s rs).2)
    exact ⟨h1.trans (importRouteStopsBody_stops s rs), h2.trans (importRouteStopsBody_routes s rs)⟩

theorem importRouteStopsLoop_orderUnique (s : Store) (c : LinkCounts) (data : List LinkRecord)
    (h : OrderUnique s) : OrderUnique (importRouteStopsLoop s c data).1 := by
  induction data generalizing s c with
  | nil => exact h
  | cons rs rest ih =>
    simp only [importRouteStopsLoop]
    exact ih _ _ (importRouteStopsBody_orderUnique s rs h)

theorem importRouteStopsLoop_counts (s : Store) (c : LinkCounts) (data : List LinkRecord) :
    (importRouteStopsLoop s c data).2.created + (importRouteStopsLoop s c data).2.skipped
        + (importRouteStopsLoop s c data).2.errors
      = c.created + c.skipped + c.errors + data.length
    ∧ (importRouteStopsLoop s c data).1.routeStops.length + c.created
      = s.routeStops.length + (importRouteStopsLoop s c data).2.created := by
  induction data generalizing s c with
  | nil => exact ⟨by simp [importRouteStopsLoop], by simp [importRouteStopsLoop]⟩
  | cons rs rest ih =>
    simp only [importRouteStopsLoop, List.length_cons]
    have hc := importRouteStopsBody_cases s rs
    rcases hb : importRouteStopsBody s rs with ⟨s1, o⟩
    rw [hb] at hc
    simp only at hc ⊢
    obtain ⟨h1, h2⟩ := ih s1 (c.bump o)
    have e1 : (c.bump o).created + (c.bump o).skipped + (c.bump o).errors
        = c.created + c.skipped + c.errors + 1 := by
      cases o <;> simp only [LinkCounts.bump] <;> omega
    rcases hc with ⟨rfl, row, hr, _⟩ | ⟨ho, rfl⟩
    · have e2 : (c.bump Outcome.created).created = c.created + 1 := rfl
      rw [hr] at h2
      simp only [List.length_append, List.length_singleton] at h2
      constructor <;> omega
    · have e2 : (c.bump o).created = c.created := by
        cases o with
        | created => exact absurd rfl ho
        | skipped => rfl
        | error => rfl
      constructor <;> omega

/-! ## Facts about the stops and routes stages -/

/-- One record of the stops stage: a new row at the end of `bus_stops`, or
a skip on a name already stored, or an error; the last two leave the store
as it is. -/
theorem importStopsBody_cases (s : Store) (stop : StopRecord) :
    ((importStopsBody s stop).2 = .created ∧
      ∃ row, (importStopsBody s stop).1.stops = s.stops ++ [row]
        ∧ stop.name = some row.name
        ∧ (importStopsBody s stop).1.routes = s.routes
        ∧ (importStopsBody s stop).1.routeStops = s.routeStops
        ∧ (importStopsBody s stop).1.buses = s.buses)
    ∨ ((importStopsBody s stop).2 = .skipped ∧ (importStopsBody s stop).1 = s
        ∧ (BusStop.findOne s stop.name).isSome = true)
    ∨ ((importStopsBody s stop).2 = .error ∧ (importStopsBody s stop).1 = s) := by
  unfold importStopsBody
  split
  · rename_i st hf
    exact Or.inr (Or.inl ⟨rfl, rfl, by simp [hf]⟩)
  · split
    · rename_i s' row hc
      obtain ⟨h1, h2, h3, h4, h5, _⟩ := busStop_create_ok hc
      exact Or.inl ⟨rfl, row, h1, h5, h2, h3, h4⟩
    · exact Or.inr (Or.inr ⟨rfl, rfl⟩)

theorem importStopsBody_routeStops (s : Store) (stop : StopRecord) :
    (importStopsBody s stop).1.routeStops = s.routeStops := by
  rcases importStopsBody_cases s stop with ⟨_, _, _, _, _, h, _⟩ | ⟨_, h, _⟩ | ⟨_, h⟩
  · exact h
  · rw [h]
  · rw [h]

theorem importStopsLoop_routeStops (s : Store) (c : StageCounts) (data : List StopRecord) :
    (importStopsLoop s c data).1.routeStops = s.routeStops := by
  induction data generalizing s c with
  | nil => rfl
  | cons stop rest ih =>
    simp only [importStopsLoop]
    exact (ih _ _).trans (importStopsBody_routeStops s stop)

/-- One record of the routes stage: a new row at the end of `bus_routes`,
or the store as it is. -/
theorem importRoutesBody_cases (s : Store) (route : BusRouteValues) :
    ((importRoutesBody s route).2 = .created ∧
      ∃ row, (importRoutesBody s route).1.routes = s.routes ++ [row]
        ∧ route.code = some row.code
        ∧ (importRoutesBody s route).1.stops = s.stops
        ∧ (importRoutesBody s route).1.routeStops = s.routeStops
        ∧ (importRoutesBody s route).1.buses = s.buses)
    ∨ ((importRoutesBody s route).2 ≠ .created ∧ (importRoutesBody s route).1 = s) := by
  unfold importRoutesBody
  split
  · exact Or.inr ⟨by simp, rfl⟩
  · split
    · rename_i s' row hc
      obtain ⟨h1, h2, h3, h4, h5⟩ := busRoute_create_ok hc
      exact Or.inl ⟨rfl, row, h1, h5, h2, h3, h4⟩
    · exact Or.inr ⟨by simp, rfl⟩

theorem importRoutesBody_routeStops (s : Store) (route : BusRouteValues) :
    (importRoutesBody s route).1.routeStops = s.routeStops := by
  rcases importRoutesBody_cases s route with ⟨_, _, _, _, _, h, _⟩ | ⟨_, h⟩
  · exact h
  · rw [h]

theorem importRoutesLoop_routeStops (s : Store) (c : StageCounts) (data : List BusRouteValues) :
    (importRoutesLoop s c data).1.routeStops = s.routeStops := by
  induction data generalizing s c with
  | nil => rfl
  | cons route rest ih =>
    simp only [importRoutesLoop]
    exact (ih _ _).trans (importRoutesBody_routeStops s route)

/-! ## Facts about the create endpoints -/

/-- The create-stop request either appends one row with a new name, built
from the body, and answers 201, or leaves the store as it is and answers
400 or 500. -/
theorem createStop_cases (s : Store) (b : CreateStopBody) :
    ((createStop s b).2.status = 201 ∧ createStopSchema b = true ∧
      ∃ row lat lon, (createStop s b).1.stops = s.stops ++ [row]
        ∧ b.name = some row.name ∧ b.latitude = some lat ∧ b.longitude = some lon
        ∧ row.coordinates = { coordinates := [lon, lat] }
        ∧ s.stops.any (fun st => decide (st.name = row.name)) = false
        ∧ (createStop s b).1.routes = s.routes
        ∧ (createStop s b).1.routeStops = s.routeStops
        ∧ (createStop s b).1.buses = s.buses
        ∧ (createStop s b).2.body = some { stop := row, latitude := lat, longitude := lon })
    ∨ (((createStop s b).2.status = 400 ∨ (createStop s b).2.status = 500)
        ∧ (createStop s b).1 = s ∧ (createStop s b).2.body = none) := by
  unfold createStop
  split
  · rename_i lat lon hv hlat hlon
    split
    · rename_i s' row hc
      have hrow : row.coordinates = { coordinates := [lon, lat] } := by
        unfold BusStop.create at hc
        split at hc
        · cases hc
        · split at hc
          · cases hc
          · split at hc
            · injection hc with hc
              injection hc with h1 h2
              subst h2
              rfl
            · cases hc
      obtain ⟨h1, h2, h3, h4, h5, h6⟩ := busStop_create_ok hc
      exact Or.inl ⟨rfl, hv, row, lat, lon, h1, h5, hlat, hlon, hrow, h6, h2, h3, h4, rfl⟩
    · split
      · exact Or.inr ⟨Or.inl rfl, rfl, rfl⟩
      · exact Or.inr ⟨Or.inr rfl, rfl, rfl⟩
  · exact Or.inr ⟨Or.inl rfl, rfl, rfl⟩

theorem busRoute_create_fresh {s s' : Store} {v : BusRouteValues} {row : BusRoute}
    (h : BusRoute.create s v = .ok (s', row)) :
    s.routes.any (fun r => decide (r.code = row.code)) = false := by
  unfold BusRoute.create at h
  split at h
  · split at h
    · cases h
    · split at h
      · split at h
        · rename_i huniq _ _
          injection h with h
          injection h with h1 h2
          subst h2
          simpa using huniq
        · cases h
      · cases h
  · cases h

/-- The create-route request either appends one row with a new code and
answers 201, or leaves the store as it is and answers 400 or 500. -/
theorem createRoute_cases (s : Store) (b : BusRouteValues) :
    ((createRoute s b).2.status = 201 ∧ createRouteSchema b = true ∧
      ∃ row, (createRoute s b).1.routes = s.routes ++ [row]
        ∧ b.code = some row.code
        ∧ s.routes.any (fun r => decide (r.code = row.code)) = false
        ∧ (createRoute s b).1.stops = s.stops
        ∧ (createRoute s b).1.routeStops = s.routeStops
        ∧ (createRoute s b).1.buses = s.buses
        ∧ (createRoute s b).2.body = some row)
    ∨ (((createRoute s b).2.status = 400 ∨ (createRoute s b).2.status = 500)
        ∧ (createRoute s b).1 = s ∧ (createRoute s b).2.body = none) := by
  unfold createRoute
  split
  · rename_i hv
    split
    · rename_i s' row hc
      obtain ⟨h1, h2, h3, h4, h5⟩ := busRoute_create_ok hc
      exact Or.inl ⟨rfl, hv, row, h1, h5, busRoute_create_fresh hc, h2, h3, h4, rfl⟩
    · split
      · exact Or.inr ⟨Or.inl rfl, rfl, rfl⟩
      · exact Or.inr ⟨Or.inr rfl, rfl, rfl⟩
  · exact Or.inr ⟨Or.inl rfl, rfl, rfl⟩

theorem createStop_routeStops (s : Store) (b : CreateStopBody) :
    (createStop s b).1.routeStops = s.routeStops := by
  rcases createStop_cases s b with ⟨_, _, _, _, _, _, _, _, _, _, _, _, h, _⟩ | ⟨_, h, _⟩
  · exact h
  · rw [h]

theorem createRoute_routeStops (s : Store) (b : BusRouteValues) :
    (createRoute s b).1.routeStops = s.routeStops := by
  rcases createRoute_cases s b with ⟨_, _, _, _, _, _, _, h, _⟩ | ⟨_, h, _⟩
  · exact h
  · rw [h]

/-! ## Facts about add-stop-to-route -/

/-- The request either appends one row that is new for the unique index
and answers 201, or leaves the store as it is and answers 404 or 500. -/
theorem addStopToRoute_cases (s : Store) (routeId : Nat) (b : AddStopBody) :
    ((addStopToRoute s routeId b).2.status = 201 ∧
      ∃ row, (addStopToRoute s routeId b).1.routeStops = s.routeStops ++ [row]
        ∧ row.orderKey ∉ s.routeStops.map RouteStop.orderKey
        ∧ (addStopToRoute s routeId b).2.body = some row)
    ∨ ((addStopToRoute s routeId b).2.status ≠ 201 ∧ (addStopToRoute s routeId b).1 = s
        ∧ (addStopToRoute s routeId b).2.body = none) := by
  unfold addStopToRoute
  split
  · split
    · rename_i s' row hc
      obtain ⟨h1, _, _, _, h5, _, _⟩ := routeStop_create_ok hc
      exact Or.inl ⟨rfl, row, h1, h5, rfl⟩
    · exact Or.inr ⟨by simp, rfl, rfl⟩
  · exact Or.inr ⟨by simp, rfl, rfl⟩

theorem addStopToRoute_orderUnique (s : Store) (routeId : Nat) (b : AddStopBody)
    (h : OrderUnique s) : OrderUnique (addStopToRoute s routeId b).1 := by
  rcases addStopToRoute_cases s routeId b with ⟨_, row, h1, h2, _⟩ | ⟨_, h1, _⟩
  · unfold OrderUnique at *
    rw [h1, List.map_append, List.map_singleton]
    exact List.Nodup.append h (List.nodup_singleton _) (by simpa using h2)
  · rw [h1]; exact h

theorem op_run_orderUnique (s : Store) (op : Op) (h : OrderUnique s) :
    OrderUnique (Op.run s op) := by
  cases op with
  | importStops data =>
    show OrderUnique (importStopsLoop s _ data).1
    unfold OrderUnique at *
    rw [importStopsLoop_routeStops]; exact h
  | importRoutes data =>
    show OrderUnique (importRoutesLoop s _ data).1
    unfold OrderUnique at *
    rw [importRoutesLoop_routeStops]; exact h
  | importRouteStops data => exact importRouteStopsLoop_orderUnique s _ data h
  | addStopToRoute routeId body => exact addStopToRoute_orderUnique s routeId body h
  | createStop body =>
    show OrderUnique (createStop s body).1
    unfold OrderUnique at *
    rw [createStop_routeStops]; exact h
  | createRoute body =>
    show OrderUnique (createRoute s body).1
    unfold OrderUnique at *
    rw [createRoute_routeStops]; exact h

theorem runOps_orderUnique (ops : List Op) (s : Store) (h : OrderUnique s) :
    OrderUnique (runOps s ops) := by
  induction ops generalizing s with
  | nil => exact h
  | cons op rest ih => exact ih _ (op_run_orderUnique s op h)

/-! ## The claims -/

/-- C1. Invariant I1 holds in every store reached from the empty store by a
sequence of importer runs (stops, routes, links) and add-stop-to-route
requests: no two rows of `route_stops` agree on (routeId, direction, stopOrder). -/
theorem c1_order_unique_reachable (ops : List Op) :
    OrderUnique (runOps Store.empty ops) :=
  runOps_orderUnique ops Store.empty (by simp [OrderUnique, Store.empty])

/-- C2. A link whose (routeId, direction, stopOrder) is already stored is
not created: in the link stage the record is skipped or counted as an error,
the add-stop-to-route request answers without a created row, and both leave
the store, hence the stored row and the number of rows of that triple, as
they were. -/
theorem c2_duplicate_order_rejected (s : Store) :
    (∀ (rs : LinkRecord) (route : BusRoute) (d : Direction) (o : Int),
        BusRoute.findOne s rs.routeCode = some route →
        rs.direction.bind Direction.ofString = some d →
        rs.stopOrder = some o →
        (route.id, d, o) ∈ s.routeStops.map RouteStop.orderKey →
        (importRouteStopsBody s rs).1 = s ∧ (importRouteStopsBody s rs).2 ≠ Outcome.created)
    ∧ (∀ (routeId : Nat) (b : AddStopBody) (d : Direction),
        Direction.ofString (orDefaultStr b.direction "outbound") = some d →
        (routeId, d, orDefault b.stopOrder 1) ∈ s.routeStops.map RouteStop.orderKey →
        (addStopToRoute s routeId b).1 = s ∧ (addStopToRoute s routeId b).2.status ≠ 201
          ∧ (addStopToRoute s routeId b).2.body = none) := by
  constructor
  · intro rs route d o hroute hd ho hdup
    rcases importRouteStopsBody_cases s rs with ⟨hcr, _⟩ | ⟨hne, hs⟩
    · exfalso
      unfold importRouteStopsBody at hcr
      rw [hroute] at hcr
      split at hcr
      · simp at hcr
      · simp at hcr
      · rename_i route' stop hr' _
        cases hr'
        split at hcr
        · simp at hcr
        · obtain ⟨e, he⟩ := routeStop_create_dup (s := s)
            (v := { routeId := route.id, stopId := stop.id, stopOrder := rs.stopOrder,
                    direction := rs.direction,
                    distanceFromPrevious := rs.distanceFromPrevious,
                    averageArrivalTime := rs.averageArrivalTime }) ho hd hdup
          rw [he] at hcr
          simp at hcr
    · exact ⟨hs, hne⟩
  · intro routeId b d hd hdup
    rcases addStopToRoute_cases s routeId b with ⟨hcr, _⟩ | ⟨hne, hs, hb⟩
    · exfalso
      unfold addStopToRoute at hcr
      split at hcr
      · rename_i route stop _ _
        obtain ⟨e, he⟩ := routeStop_create_dup (s := s)
          (v := { routeId := routeId, stopId := stop.id,
                  stopOrder := some (orDefault b.stopOrder 1),
                  direction := some (orDefaultStr b.direction "outbound"),
                  distanceFromPrevious := some (orDefault b.distanceFromPrevious 0),
                  averageArrivalTime := b.averageArrivalTime })
          (o := orDefault b.stopOrder 1) (d := d) rfl (by simpa using hd) hdup
        rw [he] at hcr
        simp at hcr
      · simp at hcr
    · exact ⟨hs, hne, hb⟩

theorem c2_duplicate_order_rejected_witness :
    (BusRoute.findOne storeLinked linkMercadoFirst.routeCode = some routeR1
      ∧ (routeR1.id, Direction.outbound, (1 : Int))
          ∈ storeLinked.routeStops.map RouteStop.orderKey)
    ∧ ((importRouteStopsBody storeLinked linkMercadoFirst).1 = storeLinked
      ∧ (importRouteStopsBody storeLinked linkMercadoFirst).2 ≠ Outcome.created)
    ∧ ((addStopToRoute storeLinked 1 bodyMercado).1 = storeLinked
      ∧ (addStopToRoute storeLinked 1 bodyMercado).2.status ≠ 201
      ∧ (addStopToRoute storeLinked 1 bodyMercado).2.body = none) :=
  ⟨⟨by decide, by decide⟩,
   (c2_duplicate_order_rejected storeLinked).1 linkMercadoFirst routeR1 Direction.outbound 1
      (by decide) (by decide) (by decide) (by decide),
   (c2_duplicate_order_rejected storeLinked).2 1 bodyMercado Direction.outbound
      (by decide) (by decide)⟩

/-- C3. In the link stage a record whose routeCode or stopName does not
resolve is an error for that record only: the body leaves the store as it
is, and a run over `pre ++ r :: post` ends in the same store, with the same
created and skipped counts and one more error, as the run over `pre ++ post`. On a store with route R1 and only the stop
Plaza Central, the records (R1, Plaza Central, outbound, 1),
(R1, Unknown Stop, outbound, 2) give created 1, skipped 0, errors 1. -/
theorem c3_unresolved_link_is_error (s : Store) (pre post : List LinkRecord) (r : LinkRecord)
    (h : BusRoute.findOne s r.routeCode = none ∨ BusStop.findOne s r.stopName = none) :
    importRouteStopsBody (importRouteStops s pre).1 r = ((importRouteStops s pre).1, Outcome.error)
    ∧ (importRouteStops s (pre ++ r :: post)).1 = (importRouteStops s (pre ++ post)).1
    ∧ (importRouteStops s (pre ++ r :: post)).2.created
        = (importRouteStops s (pre ++ post)).2.created
    ∧ (importRouteStops s (pre ++ r :: post)).2.skipped
        = (importRouteStops s (pre ++ post)).2.skipped
    ∧ (importRouteStops s (pre ++ r :: post)).2.errors
        = (importRouteStops s (pre ++ post)).2.errors + 1
    ∧ (importRouteStops storeR1Plaza [linkPlaza, linkUnknown]).2
        = { created := 1, skipped := 0, errors := 1 } := by
  have hbody : importRouteStopsBody (importRouteStops s pre).1 r
      = ((importRouteStops s pre).1, Outcome.error) := by
    obtain ⟨hs, hr⟩ := importRouteStopsLoop_stops s { created := 0, skipped := 0, errors := 0 } pre
    have h' : BusRoute.findOne (importRouteStops s pre).1 r.routeCode = none
        ∨ BusStop.findOne (importRouteStops s pre).1 r.stopName = none := by
      unfold BusRoute.findOne BusStop.findOne importRouteStops
      rw [hs, hr]
      exact h
    unfold importRouteStopsBody
    rcases h' with h1 | h1
    · rw [h1]
    · rw [h1]
      split <;> first | rfl | simp_all
  have hrun : importRouteStops s (pre ++ r :: post)
      = ((importRouteStops s (pre ++ post)).1,
         (importRouteStops s (pre ++ post)).2.bump Outcome.error) := by
    unfold importRouteStops at hbody ⊢
    rw [importRouteStopsLoop_append, importRouteStopsLoop_append]
    simp only [importRouteStopsLoop]
    rw [hbody]
    exact importRouteStopsLoop_bump _ _ _ _
  refine ⟨hbody, ?_, ?_, ?_, ?_, by decide⟩ <;> rw [hrun] <;> rfl

theorem c3_unresolved_link_is_error_witness :
    (BusRoute.findOne storeR1Plaza linkUnknown.routeCode = none
      ∨ BusStop.findOne storeR1Plaza linkUnknown.stopName = none)
    ∧ (importRouteStops storeR1Plaza ([linkPlaza] ++ linkUnknown :: [])).2.errors
        = (importRouteStops storeR1Plaza ([linkPlaza] ++ [])).2.errors + 1
    ∧ (importRouteStops storeR1Plaza [linkPlaza, linkUnknown]).2
        = { created := 1, skipped := 0, errors := 1 } :=
  ⟨by decide,
   (c3_unresolved_link_is_error storeR1Plaza [linkPlaza] [] linkUnknown (by decide)).2.2.2.2.1,
   by decide⟩

/-- C7. The link stage puts every record in exactly one of created, skipped
and errors: the three counters add up to the number of records, and
`route_stops` grows by exactly the number created. -/
theorem c7_link_counts_partition (s : Store) (data : List LinkRecord) :
    (importRouteStops s data).2.created + (importRouteStops s data).2.skipped
        + (importRouteStops s data).2.errors = data.length
    ∧ (importRouteStops s data).1.routeStops.length
        = s.routeStops.length + (importRouteStops s data).2.created := by
  obtain ⟨h1, h2⟩ := importRouteStopsLoop_counts s { created := 0, skipped := 0, errors := 0 } data
  unfold importRouteStops
  simp only at h1 h2
  constructor <;> omega

/-! ## More facts about the stops and routes stages -/

theorem stageCounts_bump_comm (c : StageCounts) (a b : Outcome) :
    (c.bump a).bump b = (c.bump b).bump a := by
  cases a <;> cases b <;> rfl

theorem importStopsLoop_bump (s : Store) (c : StageCounts) (o : Outcome)
    (data : List StopRecord) :
    importStopsLoop s (c.bump o) data
      = ((importStopsLoop s c data).1, (importStopsLoop s c data).2.bump o) := by
  induction data generalizing s c with
  | nil => rfl
  | cons stop rest ih =>
    simp only [importStopsLoop]
    rw [stageCounts_bump_comm, ih]

theorem importStopsLoop_append (s : Store) (c : StageCounts) (xs ys : List StopRecord) :
    importStopsLoop s c (xs ++ ys)
      = importStopsLoop (importStopsLoop s c xs).1 (importStopsLoop s c xs).2 ys := by
  induction xs generalizing s c with
  | nil => rfl
  | cons stop rest ih => exact ih _ _

/-- The store a stops run ends in does not depend on the starting counters. -/
theorem importStopsLoop_fst (s : Store) (c c' : StageCounts) (data : List StopRecord) :
    (importStopsLoop s c data).1 = (importStopsLoop s c' data).1 := by
  induction data generalizing s c c' with
  | nil => rfl
  | cons stop rest ih => exact ih _ _ _

theorem importStopsOutcomes_append (s : Store) (c : StageCounts) (xs ys : List StopRecord) :
    importStopsOutcomes s (xs ++ ys)
      = importStopsOutcomes s xs ++ importStopsOutcomes (importStopsLoop s c xs).1 ys := by
  induction xs generalizing s c with
  | nil => rfl
  | cons stop rest ih =>
    simp only [List.cons_append, importStopsOutcomes, importStopsLoop]
    exact congrArg _ (ih _ (c.bump (importStopsBody s stop).2))

/-- The counters of a stops run count the created and the skipped records. -/
theorem importStopsLoop_counts (s : Store) (c : StageCounts) (data : List StopRecord) :
    (importStopsLoop s c data).2.created
        = c.created + (importStopsOutcomes s data).count Outcome.created
    ∧ (importStopsLoop s c data).2.skipped
        = c.skipped + (importStopsOutcomes s data).count Outcome.skipped
    ∧ (importStopsOutcomes s data).length = data.length := by
  induction data generalizing s c with
  | nil => simp [importStopsLoop, importStopsOutcomes]
  | cons stop rest ih =>
    simp only [importStopsLoop, importStopsOutcomes, List.length_cons]
    obtain ⟨h1, h2, h3⟩ := ih (importStopsBody s stop).1 (c.bump (importStopsBody s stop).2)
    rw [h1, h2, h3]
    cases (importStopsBody s stop).2 <;> simp [StageCounts.bump] <;> omega

/-- The counters of a routes run count the created and the skipped records. -/
theorem importRoutesLoop_counts (s : Store) (c : StageCounts) (data : List BusRouteValues) :
    (importRoutesLoop s c data).2.created
        = c.created + (importRoutesOutcomes s data).count Outcome.created
    ∧ (importRoutesLoop s c data).2.skipped
        = c.skipped + (importRoutesOutcomes s data).count Outcome.skipped
    ∧ (importRoutesOutcomes s data).length = data.length := by
  induction data generalizing s c with
  | nil => simp [importRoutesLoop, importRoutesOutcomes]
  | cons route rest ih =>
    simp only [importRoutesLoop, importRoutesOutcomes, List.length_cons]
    obtain ⟨h1, h2, h3⟩ := ih (importRoutesBody s route).1 (c.bump (importRoutesBody s route).2)
    rw [h1, h2, h3]
    cases (importRoutesBody s route).2 <;> simp [StageCounts.bump] <;> omega

/-- Every outcome is one of the three, so the three counts of a list of
outcomes add up to its length. -/
theorem outcome_count_total (os : List Outcome) :
    os.count Outcome.created + os.count Outcome.skipped + os.count Outcome.error = os.length := by
  induction os with
  | nil => rfl
  | cons o rest ih => cases o <;> simp [List.count_cons] <;> omega

/-- A stop name is stored when `BusStop.findOne` finds a row for it. -/
theorem busStop_findOne_isSome (s : Store) (name : Option String) :
    (BusStop.findOne s name).isSome = true
      ↔ ∃ n, name = some n ∧ ∃ st ∈ s.stops, st.name = n := by
  cases name with
  | none => simp [BusStop.findOne]
  | some n => simp [BusStop.findOne, List.find?_isSome]

theorem importStopsBody_keeps_name (s : Store) (stop : StopRecord) (name : Option String)
    (h : (BusStop.findOne s name).isSome = true) :
    (BusStop.findOne (importStopsBody s stop).1 name).isSome = true := by
  rcases importStopsBody_cases s stop with ⟨_, row, hr, _⟩ | ⟨_, hs, _⟩ | ⟨_, hs⟩
  · rw [busStop_findOne_isSome] at h ⊢
    obtain ⟨n, hn, st, hst, hname⟩ := h
    exact ⟨n, hn, st, by rw [hr]; exact List.mem_append_left _ hst, hname⟩
  · rw [hs]; exact h
  · rw [hs]; exact h

theorem importStopsBody_stores_name (s : Store) (stop : StopRecord)
    (h : (importStopsBody s stop).2 ≠ Outcome.error) :
    (BusStop.findOne (importStopsBody s stop).1 stop.name).isSome = true := by
  rcases importStopsBody_cases s stop with ⟨_, row, hr, hn, _⟩ | ⟨_, hs, hf⟩ | ⟨he, _⟩
  · rw [busStop_findOne_isSome]
    exact ⟨row.name, hn, row, by rw [hr]; simp, rfl⟩
  · rw [hs]; exact hf
  · exact absurd he h

theorem importStopsLoop_keeps_name (s : Store) (c : StageCounts) (data : List StopRecord)
    (name : Option String) (h : (BusStop.findOne s name).isSome = true) :
    (BusStop.findOne (importStopsLoop s c data).1 name).isSome = true := by
  induction data generalizing s c with
  | nil => exact h
  | cons stop rest ih => exact ih _ _ (importStopsBody_keeps_name s stop name h)

theorem importStopsBody_of_stored (s : Store) (stop : StopRecord)
    (h : (BusStop.findOne s stop.name).isSome = true) :
    importStopsBody s stop = (s, Outcome.skipped) := by
  unfold importStopsBody
  cases hf : BusStop.findOne s stop.name with
  | none => rw [hf] at h; simp at h
  | some st => rfl

/-- On a store that holds every name of the input, a stops run skips every
record and leaves the store as it is. -/
theorem importStopsLoop_all_stored (s : Store) (c : StageCounts) (data : List StopRecord)
    (h : ∀ r ∈ data, (BusStop.findOne s r.name).isSome = true) :
    importStopsLoop s c data
      = (s, { created := c.created, skipped := c.skipped + data.length }) := by
  induction data generalizing c with
  | nil => rfl
  | cons stop rest ih =>
    simp only [importStopsLoop]
    rw [importStopsBody_of_stored s stop (h stop (List.mem_cons_self _ _))]
    simp only
    rw [ih _ (fun r hr => h r (List.mem_cons_of_mem _ hr))]
    simp only [StageCounts.bump, List.length_cons]
    congr 2
    omega

/-- After a stops run without an error, the store holds every name of the
input. -/
theorem importStopsLoop_stores_names (s : Store) (c : StageCounts) (data : List StopRecord)
    (h : ∀ o ∈ importStopsOutcomes s data, o ≠ Outcome.error) :
    ∀ r ∈ data, (BusStop.findOne (importStopsLoop s c data).1 r.name).isSome = true := by
  induction data generalizing s c with
  | nil => intro r hr; cases hr
  | cons stop rest ih =>
    intro r hr
    simp only [importStopsOutcomes, List.mem_cons, forall_eq_or_imp] at h
    simp only [importStopsLoop]
    rcases List.mem_cons.mp hr with rfl | hr
    · exact importStopsLoop_keeps_name _ _ _ _ (importStopsBody_stores_name s r h.1)
    · exact ih _ _ h.2 r hr

theorem importStopsBody_of_new (s : Store) (stop : StopRecord) (n : String)
    (hn : stop.name = some n) (hf : BusStop.findOne s stop.name = none)
    (hname : fitsVarchar stop.name 255 = true) (haddr : fitsVarchar stop.address 255 = true) :
    (importStopsBody s stop).2 = Outcome.created := by
  have hfresh : ∀ st ∈ s.stops, st.name ≠ n := by
    rw [hn] at hf
    simp only [BusStop.findOne, List.find?_eq_none] at hf
    intro st hst
    simpa using hf st hst
  obtain ⟨s', row, hc, _⟩ := busStop_create_new s
    { name := stop.name, description := stop.description,
      coordinates := { coordinates := [stop.longitude, stop.latitude] },
      address := stop.address, landmarks := stop.landmarks } n hn hfresh hname haddr
  unfold importStopsBody
  rw [hf]
  simp only [hc]

/-! ## The claims on the stops and routes stages -/

/-- C4. The stops stage is idempotent: when no record of the first run is
an error, a second run on the same input creates nothing, skips every
record and leaves the store, hence the stops and their number, as the first
run left it. For one record with a name the store does not hold, whose name
and address fit their `VARCHAR(255)` columns so that the insert succeeds,
the first run returns created 1, skipped 0 and the second created 0,
skipped 1. -/
theorem c4_import_stops_idempotent (s : Store) (data : List StopRecord) :
    ((∀ o ∈ importStopsOutcomes s data, o ≠ Outcome.error) →
      importStops (importStops s data).1 data
        = ((importStops s data).1, { created := 0, skipped := data.length }))
    ∧ (∀ (stop : StopRecord) (n : String),
        stop.name = some n → BusStop.findOne s stop.name = none →
        fitsVarchar stop.name 255 = true → fitsVarchar stop.address 255 = true →
        (importStops s [stop]).2 = { created := 1, skipped := 0 }
        ∧ (importStops (importStops s [stop]).1 [stop]).2 = { created := 0, skipped := 1 }
        ∧ (importStops (importStops s [stop]).1 [stop]).1.stops = (importStops s [stop]).1.stops
        ∧ (importStops s [stop]).1.stops.length = s.stops.length + 1) := by
  have key : ∀ (t : Store) (xs : List StopRecord),
      (∀ o ∈ importStopsOutcomes t xs, o ≠ Outcome.error) →
      importStops (importStops t xs).1 xs
        = ((importStops t xs).1, { created := 0, skipped := xs.length }) := by
    intro t xs h
    have hs := importStopsLoop_stores_names t { created := 0, skipped := 0 } xs h
    unfold importStops
    rw [importStopsLoop_all_stored _ _ xs hs]
    simp
  refine ⟨key s data, ?_⟩
  intro stop n hn hf hname haddr
  have hc := importStopsBody_of_new s stop n hn hf hname haddr
  have h2 := key s [stop] (by simp [importStopsOutcomes, hc])
  refine ⟨?_, by rw [h2]; rfl, by rw [h2], ?_⟩
  · simp [importStops, importStopsLoop, hc, StageCounts.bump]
  · rcases importStopsBody_cases s stop with ⟨_, row, hr, _⟩ | ⟨ho, _⟩ | ⟨ho, _⟩
    · simp [importStops, importStopsLoop, hr]
    · rw [hc] at ho; cases ho
    · rw [hc] at ho; cases ho

theorem c4_import_stops_idempotent_witness :
    (∀ o ∈ importStopsOutcomes storeR1Plaza [recordPlaza, recordMercado], o ≠ Outcome.error)
    ∧ importStops (importStops storeR1Plaza [recordPlaza, recordMercado]).1
          [recordPlaza, recordMercado]
        = ((importStops storeR1Plaza [recordPlaza, recordMercado]).1,
            { created := 0, skipped := 2 })
    ∧ (importStops storeR1Plaza [recordMercado]).2 = { created := 1, skipped := 0 }
    ∧ (importStops (importStops storeR1Plaza [recordMercado]).1 [recordMercado]).2
        = { created := 0, skipped := 1 } :=
  ⟨by decide,
   (c4_import_stops_idempotent storeR1Plaza [recordPlaza, recordMercado]).1 (by decide),
   ((c4_import_stops_idempotent storeR1Plaza []).2 recordMercado "Mercado" rfl (by decide)
      (by decide) (by decide)).1,
   ((c4_import_stops_idempotent storeR1Plaza []).2 recordMercado "Mercado" rfl (by decide)
      (by decide) (by decide)).2.1⟩

/-- The stops and routes stages return the two counters created and
skipped; a record whose creation fails is counted in neither, so
created + skipped + the number of failed records is the number of input
records. -/
theorem stage_counts_leave_out_errors (s : Store) (stops : List StopRecord)
    (routes : List BusRouteValues) :
    ((importStops s stops).2.created + (importStops s stops).2.skipped
        + (importStopsOutcomes s stops).count Outcome.error = stops.length)
    ∧ ((importRoutes s routes).2.created + (importRoutes s routes).2.skipped
        + (importRoutesOutcomes s routes).count Outcome.error = routes.length) := by
  obtain ⟨h1, h2, h3⟩ := importStopsLoop_counts s { created := 0, skipped := 0 } stops
  obtain ⟨k1, k2, k3⟩ := importRoutesLoop_counts s { created := 0, skipped := 0 } routes
  have t1 := outcome_count_total (importStopsOutcomes s stops)
  have t2 := outcome_count_total (importRoutesOutcomes s routes)
  unfold importStops importRoutes
  simp only at h1 h2 k1 k2
  constructor <;> omega

/-- C6, on the failing input. A stop record without a name and a route
record without a name both fail; each stage returns created 0, skipped 0 and
no error counter for its one record, so the returned counters do not add up
to the number of records. The link stage counts its failing record: a link
record that names an unknown stop comes back as errors 1. -/
theorem c6_failed_record_not_counted :
    importStopsOutcomes Store.empty [stopNoName] = [Outcome.error]
    ∧ (importStops Store.empty [stopNoName]).2 = { created := 0, skipped := 0 }
    ∧ (importStops Store.empty [stopNoName]).2.created
        + (importStops Store.empty [stopNoName]).2.skipped ≠ [stopNoName].length
    ∧ importRoutesOutcomes Store.empty [routeNoName] = [Outcome.error]
    ∧ (importRoutes Store.empty [routeNoName]).2 = { created := 0, skipped := 0 }
    ∧ (importRoutes Store.empty [routeNoName]).2.created
        + (importRoutes Store.empty [routeNoName]).2.skipped ≠ [routeNoName].length
    ∧ (importRouteStops storeR1Plaza [linkUnknown]).2
        = { created := 0, skipped := 0, errors := 1 } := by
  decide

/-- C8. A failing record of the stops stage changes nothing for the
others: when the record `bad` fails after `xs`, the run over
`xs ++ [bad] ++ ys` ends in the same store and returns the same counters as
the run over `xs ++ ys`, and the records of `xs` and of `ys` get the same
outcomes in both runs. -/
theorem c8_failed_stop_isolated (s : Store) (xs ys : List StopRecord) (bad : StopRecord)
    (h : (importStopsBody (importStops s xs).1 bad).2 = Outcome.error) :
    importStops s (xs ++ [bad] ++ ys) = importStops s (xs ++ ys)
    ∧ importStopsOutcomes s (xs ++ [bad] ++ ys)
        = importStopsOutcomes s xs ++ [Outcome.error]
            ++ importStopsOutcomes (importStops s xs).1 ys
    ∧ importStopsOutcomes s (xs ++ ys)
        = importStopsOutcomes s xs ++ importStopsOutcomes (importStops s xs).1 ys := by
  have hbody : importStopsBody (importStops s xs).1 bad = ((importStops s xs).1, Outcome.error) := by
    rcases importStopsBody_cases (importStops s xs).1 bad with ⟨ho, _⟩ | ⟨ho, _⟩ | ⟨ho, hs⟩
    · rw [h] at ho; cases ho
    · rw [h] at ho; cases ho
    · exact Prod.ext hs ho
  refine ⟨?_, ?_, ?_⟩
  · unfold importStops at hbody ⊢
    rw [List.append_assoc, importStopsLoop_append s _ xs ([bad] ++ ys),
      importStopsLoop_append s _ xs ys]
    simp only [List.singleton_append, importStopsLoop]
    rw [hbody]
    rfl
  · unfold importStops at hbody ⊢
    rw [List.append_assoc, importStopsOutcomes_append s { created := 0, skipped := 0 }]
    simp only [List.singleton_append, importStopsOutcomes, List.append_assoc]
    rw [hbody]
    rfl
  · exact importStopsOutcomes_append s _ xs ys

theorem c8_failed_stop_isolated_witness :
    (importStopsBody (importStops storeR1Plaza [recordPlaza]).1 stopNoName).2 = Outcome.error
    ∧ importStops storeR1Plaza ([recordPlaza] ++ [stopNoName] ++ [recordMercado])
        = importStops storeR1Plaza ([recordPlaza] ++ [recordMercado])
    ∧ importStopsOutcomes storeR1Plaza ([recordPlaza] ++ [stopNoName] ++ [recordMercado])
        = [Outcome.skipped, Outcome.error, Outcome.created] :=
  ⟨by decide,
   (c8_failed_stop_isolated storeR1Plaza [recordPlaza] [recordMercado] stopNoName
      (by decide)).1,
   by decide⟩

/-! ## Facts about the route detail -/

theorem busRoute_findByPk_some {s : Store} {id : Nat} {route : BusRoute}
    (h : BusRoute.findByPk s (some id) = some route) : route.id = id := by
  unfold BusRoute.findByPk at h
  simpa using List.find?_some h

theorem sumDistance_eq (es : List StopEntry) :
    sumDistance es = doubleSum (es.map (fun e => e.distanceFromPrevious)) := by
  unfold sumDistance doubleSum
  rw [List.foldl_map]

/-- When every row has its joined stop, the `map` succeeds and every entry
carries the link fields of its own row, in the order of the rows. -/
theorem mapEntries_of_joined (rows : List (RouteStop × Option BusStop))
    (h : ∀ r ∈ rows, r.2.isSome = true) :
    ∃ es, mapEntries rows = some es
      ∧ es.map (fun e => e.distanceFromPrevious) = rows.map (fun r => r.1.distanceFromPrevious)
      ∧ es.map (fun e => e.stopOrder) = rows.map (fun r => r.1.stopOrder) := by
  induction rows with
  | nil => exact ⟨[], rfl, rfl, rfl⟩
  | cons r rest ih =>
    obtain ⟨es, he, hd, ho⟩ := ih (fun x hx => h x (List.mem_cons_of_mem _ hx))
    have hr := h r (List.mem_cons_self _ _)
    obtain ⟨rs, stop⟩ := r
    cases stop with
    | none => simp at hr
    | some st =>
      have hent : ∃ e, stopEntry rs (some st) = some e
          ∧ e.distanceFromPrevious = rs.distanceFromPrevious ∧ e.stopOrder = rs.stopOrder :=
        ⟨_, rfl, rfl, rfl⟩
      obtain ⟨e, hentry, hed, heo⟩ := hent
      refine ⟨e :: es, ?_, ?_, ?_⟩
      · simp only [mapEntries, hentry, he]
      · simp only [List.map_cons, hd, hed]
      · simp only [List.map_cons, ho, heo]

theorem includedRouteStops_joined (s : Store) (id : Nat)
    (h : ∀ rs ∈ s.routeStops, rs.routeId = id → ∃ st ∈ s.stops, st.id = rs.stopId) :
    ∀ r ∈ includedRouteStops s id, r.2.isSome = true := by
  intro r hr
  unfold includedRouteStops at hr
  rw [List.mem_map] at hr
  obtain ⟨rs, hrs, rfl⟩ := hr
  rw [List.mem_filter] at hrs
  obtain ⟨st, hst, hid⟩ := h rs hrs.1 (by simpa using hrs.2)
  rw [List.find?_isSome]
  exact ⟨st, hst, by simp [hid]⟩

theorem includedRouteStops_direction (s : Store) (id : Nat) (d : Direction) :
    ((includedRouteStops s id).filter (fun r => decide (r.1.direction = d))).map
        (fun r => r.1)
      = s.routeStops.filter (fun rs => decide (rs.routeId = id ∧ rs.direction = d)) := by
  unfold includedRouteStops
  induction s.routeStops with
  | nil => rfl
  | cons rs rest ih =>
    by_cases h1 : rs.routeId = id <;> by_cases h2 : rs.direction = d <;>
      simp [List.filter_cons, h1, h2] <;> simpa using ih

/-- With every joined stop present, the stops of a direction are built and
their total is the double-precision sum over the links of that direction,
in table order. -/
theorem directionStops_total (s : Store) (id : Nat) (d : Direction)
    (h : ∀ rs ∈ s.routeStops, rs.routeId = id → ∃ st ∈ s.stops, st.id = rs.stopId) :
    ∃ es, directionStops (includedRouteStops s id) d = some es
      ∧ sumDistance es
          = doubleSum ((directionLinks s id d).map (fun rs => rs.distanceFromPrevious)) := by
  obtain ⟨es, he, hd, _⟩ := mapEntries_of_joined
    ((includedRouteStops s id).filter (fun r => decide (r.1.direction = d)))
    (fun r hr => includedRouteStops_joined s id h r (List.mem_filter.mp hr).1)
  refine ⟨es, he, ?_⟩
  rw [sumDistance_eq, hd]
  unfold directionLinks
  rw [← includedRouteStops_direction, List.map_map]
  rfl

/-- The route detail of a stored route whose links have their stops: 200
with the two double-precision sums as totals. -/
theorem routeDetail_totals (s : Store) (id : Nat) (route : BusRoute)
    (hroute : BusRoute.findByPk s (some id) = some route)
    (hstops : ∀ rs ∈ s.routeStops, rs.routeId = id → ∃ st ∈ s.stops, st.id = rs.stopId) :
    ∃ detail, routeDetail s id = RouteDetailResponse.ok detail
      ∧ detail.totalDistance.outbound
          = doubleSum ((directionLinks s id Direction.outbound).map
              (fun rs => rs.distanceFromPrevious))
      ∧ detail.totalDistance.inbound
          = doubleSum ((directionLinks s id Direction.inbound).map
              (fun rs => rs.distanceFromPrevious)) := by
  have hid := busRoute_findByPk_some hroute
  obtain ⟨ob, hob, hsumo⟩ := directionStops_total s id Direction.outbound hstops
  obtain ⟨ib, hib, hsumi⟩ := directionStops_total s id Direction.inbound hstops
  refine ⟨{ route := route, routeStops := includedRouteStops s id,
             outboundStops := ob, inboundStops := ib,
             totalDistance := { outbound := sumDistance ob, inbound := sumDistance ib } },
    ?_, hsumo, hsumi⟩
  unfold routeDetail
  rw [hroute]
  simp only [hid, hob, hib]

/-! ## The claims on the route detail -/

/-- What the handler computes. For a stored route whose links have their
stops, the route detail answers 200 and its `totalDistance` of each
direction is the sum of `distanceFromPrevious` over the links of the route
in that direction computed in JavaScript numbers: each distance read as the
nearest double, an absent distance counting as 0, the numbers added to 0 one
after the other in table order and every addition rounded; a direction
without links has total 0. -/
theorem routeDetail_total_is_double_sum (s : Store) (id : Nat) (route : BusRoute)
    (hroute : BusRoute.findByPk s (some id) = some route)
    (hstops : ∀ rs ∈ s.routeStops, rs.routeId = id → ∃ st ∈ s.stops, st.id = rs.stopId) :
    ∃ detail, routeDetail s id = RouteDetailResponse.ok detail
      ∧ detail.totalDistance.outbound
          = doubleSum ((directionLinks s id Direction.outbound).map
              (fun rs => rs.distanceFromPrevious))
      ∧ detail.totalDistance.inbound
          = doubleSum ((directionLinks s id Direction.inbound).map
              (fun rs => rs.distanceFromPrevious))
      ∧ ((∀ rs ∈ s.routeStops, rs.routeId = id → rs.direction ≠ Direction.outbound) →
          detail.totalDistance.outbound = Double.zero)
      ∧ ((∀ rs ∈ s.routeStops, rs.routeId = id → rs.direction ≠ Direction.inbound) →
          detail.totalDistance.inbound = Double.zero) := by
  obtain ⟨detail, hd, ho, hi⟩ := routeDetail_totals s id route hroute hstops
  have hnil : ∀ d : Direction, (∀ rs ∈ s.routeStops, rs.routeId = id → rs.direction ≠ d) →
      directionLinks s id d = [] := by
    intro d hd
    unfold directionLinks
    rw [List.filter_eq_nil_iff]
    intro rs hrs
    simp only [decide_eq_true_eq, not_and]
    exact fun h1 => hd rs hrs h1
  refine ⟨detail, hd, ho, hi, ?_, ?_⟩
  · intro h
    rw [ho, hnil _ h]
    rfl
  · intro h
    rw [hi, hnil _ h]
    rfl

set_option maxRecDepth 100000 in
/-- C9, on the failing input. After an import of two stops and of route R1
and two add-stop requests, R1 has two outbound links, of 0.10 and of 0.20,
and no inbound link; the sum of the outbound distances is 0.30. The
handler reads 0.10 as the double 3602879701896397 / 2 ^ 55 and 0.20 as
3602879701896397 / 2 ^ 54, and their rounded sum, the outbound total of the
answer, is 1351079888211149 / 2 ^ 52, the number that prints as
0.30000000000000004: it is not 0.30, and it is not the double nearest to
0.30 either. The inbound total is 0, and two distances that doubles hold
exactly, 1.50 and 2.75, add up to 4.25. -/
theorem c9_tenths_do_not_add_up :
    runOps Store.empty
        [Op.importStops [recordPlaza, recordMercado], Op.importRoutes [recordR1],
         Op.addStopToRoute 1 bodyTenth, Op.addStopToRoute 1 bodyTwoTenths] = storeTenths
    ∧ directionLinks storeTenths 1 Direction.outbound = storeTenths.routeStops
    ∧ linkDistanceSum storeTenths 1 Direction.outbound = 30
    ∧ parseFloat (some 10) = some { num := 3602879701896397, exp := 55 }
    ∧ parseFloat (some 20) = some { num := 3602879701896397, exp := 54 }
    ∧ parseFloat (some 30) = some { num := 5404319552844595, exp := 54 }
    ∧ (∃ detail, routeDetail storeTenths 1 = RouteDetailResponse.ok detail
      ∧ detail.outboundStops.map (fun e => e.distanceFromPrevious) = [some 10, some 20]
      ∧ detail.totalDistance.outbound = { num := 1351079888211149, exp := 52 }
      ∧ ¬ detail.totalDistance.outbound.isHundredths
            (linkDistanceSum storeTenths 1 Direction.outbound)
      ∧ some detail.totalDistance.outbound ≠ parseFloat (some 30)
      ∧ detail.inboundStops = []
      ∧ detail.totalDistance.inbound = Double.zero)
    ∧ doubleSum [some 150, some 275] = { num := 17, exp := 2 }
    ∧ (doubleSum [some 150, some 275]).isHundredths 425 := by
  refine ⟨by decide, by decide, by decide, by decide, by decide, by decide,
    ⟨_, rfl, ?_, ?_, ?_, ?_, ?_, ?_⟩, by decide, by decide⟩ <;> decide

/-- C10, on the failing store: "Plaza Central" was linked as outbound stop 2
before "Mercado" was linked as outbound stop 1; the route detail answers 200
with the outbound stops in the order of the table, stop 2 first, which is
not ascending, and with no inbound stops. -/
theorem c10_outbound_stops_in_table_order :
    ∃ detail, routeDetail storeLateFirstStop 1 = RouteDetailResponse.ok detail
      ∧ detail.outboundStops.map (fun e => (e.name, e.stopOrder))
          = [("Plaza Central", 2), ("Mercado", 1)]
      ∧ ¬ (detail.outboundStops.map (fun e => e.stopOrder)).Sorted (· ≤ ·)
      ∧ detail.inboundStops = [] := by
  refine ⟨_, rfl, ?_, ?_, ?_⟩ <;> decide

/-! ## The claim on the system overview -/

/-- With intact stop references, the stop_id groups of `route_stops` are,
up to order, the ids of the stops that have a link. -/
theorem linkedStops_perm (s : Store) (h : StopsIntact s) :
    ((linkedStops s).map (fun st => st.id)).Perm
      (s.routeStops.map (fun rs => rs.stopId)).dedup := by
  obtain ⟨hfk, hnd⟩ := h
  rw [List.perm_ext_iff_of_nodup _ (List.nodup_dedup _)]
  · intro x
    simp only [linkedStops, List.mem_map, List.mem_filter, List.any_eq_true, decide_eq_true_eq,
      List.mem_dedup]
    constructor
    · rintro ⟨st, ⟨_, rs, hrs, hid⟩, rfl⟩
      exact ⟨rs, hrs, hid⟩
    · rintro ⟨rs, hrs, rfl⟩
      obtain ⟨st, hst, hid⟩ := hfk rs hrs
      exact ⟨st, ⟨hst, rs, hrs, hid.symm⟩, hid⟩
  · exact hnd.sublist ((List.filter_sublist _).map _)

/-- C5, as the code has it. With intact stop references, the overview
reports the mean of the number of distinct routes per stop taken over the
stops that have at least one link, rounded to two decimals (halves up) and
null when no stop has a link; stops without links do not enter the mean. -/
theorem c5_avg_over_linked_stops (s : Store) (h : StopsIntact s) :
    (systemOverview s).avg_routes_per_stop
      = roundAvg2 ((linkedStops s).map (fun st => stopRouteCount s st.id)).sum
          (linkedStops s).length := by
  have hp := linkedStops_perm s h
  have hmap : ((linkedStops s).map (fun st => stopRouteCount s st.id)).Perm (stopRoutes s) := by
    have := hp.map (fun sid => stopRouteCount s sid)
    rw [List.map_map] at this
    exact this
  show roundAvg2 (stopRoutes s).sum (stopRoutes s).length = _
  have hlen : (linkedStops s).length = (stopRoutes s).length := by
    rw [← hmap.length_eq, List.length_map]
  rw [hmap.sum_eq, hlen]

theorem c5_avg_over_linked_stops_witness :
    StopsIntact storeNetwork
    ∧ (systemOverview storeNetwork).avg_routes_per_stop
        = roundAvg2 ((linkedStops storeNetwork).map
            (fun st => stopRouteCount storeNetwork st.id)).sum (linkedStops storeNetwork).length
    ∧ (linkedStops storeNetwork).map (fun st => st.name)
        = ["Plaza Central", "Mercado", "Terminal"]
    ∧ (systemOverview storeNetwork).avg_routes_per_stop = some 133 :=
  ⟨by unfold StopsIntact; decide,
   c5_avg_over_linked_stops storeNetwork (by unfold StopsIntact; decide),
   by decide, by decide⟩

/-- C5, refuted as stated. In a store of four stops where one stop is on
two routes, two stops are on one route and one stop is on none, the overview
reports 1.33, the mean 4/3 over the three linked stops rounded to two
decimals; the mean over all four stops is 1. -/
theorem c5_unlinked_stop_left_out :
    (systemOverview storeNetwork).avg_routes_per_stop = some 133
    ∧ ¬ IsMeanOverAllStops storeNetwork 133
    ∧ IsMeanOverAllStops storeNetwork 100 := by
  decide

/-! ## The claim on clearing -/

/-- C11. `clearAllData` ends without an error on every store: it empties
`route_stops`, then deletes the routes, the delete cascading to the buses
(and links) that refer to them, then deletes the stops; stops, routes and
links are all empty afterwards, whatever buses referred to the routes. On a
store with two buses on route R1 the run ends with all four tables empty;
under NO ACTION the same delete of the routes would be refused. -/
theorem c11_clear_all_data (s : Store) :
    ∃ s2 s3, BusRoute.destroy (RouteStop.destroy s) = .ok s2
      ∧ BusStop.destroy s2 = .ok s3
      ∧ clearAllData s = .ok s3
      ∧ (RouteStop.destroy s).routeStops = [] ∧ (RouteStop.destroy s).routes = s.routes
      ∧ (RouteStop.destroy s).stops = s.stops
      ∧ s2.routeStops = [] ∧ s2.routes = [] ∧ s2.stops = s.stops
      ∧ s3.routeStops = [] ∧ s3.routes = [] ∧ s3.stops = []
      ∧ s3.buses = s.buses.filter (fun b => !s.routes.any (fun r => decide (r.id = b.routeId)))
      ∧ clearAllData storeWithBuses
          = .ok { stops := [], routes := [], routeStops := [], buses := [],
                  stopSeq := 2, routeSeq := 2, routeStopSeq := 1 }
      ∧ onParentDelete ReferentialAction.noAction
          (fun (b : Bus) => storeWithBuses.routes.any (fun r => decide (r.id = b.routeId)))
          storeWithBuses.buses = .error SequelizeError.foreignKeyConstraint := by
  exact ⟨_, _, rfl, rfl, rfl, rfl, rfl, rfl, rfl, rfl, rfl, rfl, rfl, rfl, rfl, rfl, rfl⟩

/-! ## The claims on the natural keys and on add-stop-to-route -/

theorem busStop_create_taken (s : Store) (v : BusStopValues) (n : String)
    (hn : v.name = some n) (ht : ∃ st ∈ s.stops, st.name = n) :
    BusStop.create s v = .error SequelizeError.uniqueConstraint := by
  obtain ⟨st, hst, hname⟩ := ht
  have hany : s.stops.any (fun st => decide (st.name = n)) = true := by
    rw [List.any_eq_true]; exact ⟨st, hst, by simp [hname]⟩
  unfold BusStop.create
  simp only [hn, hany, if_true]

theorem busRoute_create_taken (s : Store) (v : BusRouteValues) (n c : String)
    (hn : v.name = some n) (hc : v.code = some c) (ht : ∃ r ∈ s.routes, r.code = c) :
    BusRoute.create s v = .error SequelizeError.uniqueConstraint := by
  obtain ⟨r, hr, hcode⟩ := ht
  have hany : s.routes.any (fun r => decide (r.code = c)) = true := by
    rw [List.any_eq_true]; exact ⟨r, hr, by simp [hcode]⟩
  unfold BusRoute.create
  simp only [hn, hc, hany, if_true]

theorem nodup_append_fresh {α β : Type} [DecidableEq β] (key : α → β) (l : List α) (row : α)
    (h : (l.map key).Nodup) (hf : l.any (fun x => decide (key x = key row)) = false) :
    ((l ++ [row]).map key).Nodup := by
  rw [List.map_append, List.map_singleton]
  refine List.Nodup.append h (List.nodup_singleton _) ?_
  rw [List.disjoint_singleton]
  intro hmem
  rw [List.mem_map] at hmem
  obtain ⟨x, hx, hk⟩ := hmem
  rw [List.any_eq_false] at hf
  exact hf x hx (by simp [hk])

theorem importStopsBody_keys (s : Store) (stop : StopRecord) (h : NaturalKeysUnique s) :
    NaturalKeysUnique (importStopsBody s stop).1 := by
  unfold importStopsBody
  split
  · exact h
  · split
    · rename_i s' row hc
      obtain ⟨h1, h2, _, _, _, h6⟩ := busStop_create_ok hc
      exact ⟨by rw [h1]; exact nodup_append_fresh _ _ _ h.1 h6, by rw [h2]; exact h.2⟩
    · exact h

theorem importRoutesBody_keys (s : Store) (route : BusRouteValues) (h : NaturalKeysUnique s) :
    NaturalKeysUnique (importRoutesBody s route).1 := by
  unfold importRoutesBody
  split
  · exact h
  · split
    · rename_i s' row hc
      obtain ⟨h1, h2, _, _, _⟩ := busRoute_create_ok hc
      exact ⟨by rw [h2]; exact h.1,
        by rw [h1]; exact nodup_append_fresh _ _ _ h.2 (busRoute_create_fresh hc)⟩
    · exact h

theorem importStopsLoop_keys (s : Store) (c : StageCounts) (data : List StopRecord)
    (h : NaturalKeysUnique s) : NaturalKeysUnique (importStopsLoop s c data).1 := by
  induction data generalizing s c with
  | nil => exact h
  | cons stop rest ih => exact ih _ _ (importStopsBody_keys s stop h)

theorem importRoutesLoop_keys (s : Store) (c : StageCounts) (data : List BusRouteValues)
    (h : NaturalKeysUnique s) : NaturalKeysUnique (importRoutesLoop s c data).1 := by
  induction data generalizing s c with
  | nil => exact h
  | cons route rest ih => exact ih _ _ (importRoutesBody_keys s route h)

theorem addStopToRoute_stops (s : Store) (routeId : Nat) (b : AddStopBody) :
    (addStopToRoute s routeId b).1.stops = s.stops
      ∧ (addStopToRoute s routeId b).1.routes = s.routes := by
  unfold addStopToRoute
  split
  · split
    · rename_i s' row hc
      obtain ⟨_, h2, h3, _⟩ := routeStop_create_ok hc
      exact ⟨h2, h3⟩
    · exact ⟨rfl, rfl⟩
  · exact ⟨rfl, rfl⟩

theorem op_run_keys (s : Store) (op : Op) (h : NaturalKeysUnique s) :
    NaturalKeysUnique (Op.run s op) := by
  cases op with
  | importStops data => exact importStopsLoop_keys s _ data h
  | importRoutes data => exact importRoutesLoop_keys s _ data h
  | importRouteStops data =>
    obtain ⟨h1, h2⟩ := importRouteStopsLoop_stops s { created := 0, skipped := 0, errors := 0 } data
    show NaturalKeysUnique (importRouteStopsLoop s _ data).1
    unfold NaturalKeysUnique
    rw [h1, h2]; exact h
  | addStopToRoute routeId body =>
    obtain ⟨h1, h2⟩ := addStopToRoute_stops s routeId body
    show NaturalKeysUnique (addStopToRoute s routeId body).1
    unfold NaturalKeysUnique
    rw [h1, h2]; exact h
  | createStop body =>
    show NaturalKeysUnique (createStop s body).1
    rcases createStop_cases s body with ⟨_, _, row, _, _, h1, _, _, _, _, h6, h7, _⟩ | ⟨_, hs, _⟩
    · exact ⟨by rw [h1]; exact nodup_append_fresh _ _ _ h.1 h6, by rw [h7]; exact h.2⟩
    · rw [hs]; exact h
  | createRoute body =>
    show NaturalKeysUnique (createRoute s body).1
    rcases createRoute_cases s body with ⟨_, _, row, h1, _, h3, h4, _⟩ | ⟨_, hs, _⟩
    · exact ⟨by rw [h4]; exact h.1, by rw [h1]; exact nodup_append_fresh _ _ _ h.2 h3⟩
    · rw [hs]; exact h

theorem runOps_keys (ops : List Op) (s : Store) (h : NaturalKeysUnique s) :
    NaturalKeysUnique (runOps s ops) := by
  induction ops generalizing s with
  | nil => exact h
  | cons op rest ih => exact ih _ (op_run_keys s op h)

/-- C12. Invariant I3 holds in every store reached from the empty store by
importer runs and requests: no two stops share a name, no two routes share a
code. A create with a taken name or code is refused by the unique
constraint, and the create-stop and create-route requests then answer 400
and leave the store as it was. -/
theorem c12_natural_keys_unique (ops : List Op) :
    NaturalKeysUnique (runOps Store.empty ops)
    ∧ (∀ (s : Store) (b : CreateStopBody) (n : String),
        b.name = some n → (∃ st ∈ s.stops, st.name = n) →
        (∀ v : BusStopValues, v.name = some n →
          BusStop.create s v = .error SequelizeError.uniqueConstraint)
        ∧ createStop s b = (s, { status := 400, body := none }))
    ∧ (∀ (s : Store) (b : BusRouteValues) (c : String),
        b.code = some c → (∃ r ∈ s.routes, r.code = c) →
        (∃ e, BusRoute.create s b = .error e)
        ∧ createRoute s b = (s, { status := 400, body := none })) := by
  refine ⟨runOps_keys ops Store.empty ⟨by simp [Store.empty], by simp [Store.empty]⟩, ?_, ?_⟩
  · intro s b n hn ht
    refine ⟨fun v hv => busStop_create_taken s v n hv ht, ?_⟩
    unfold createStop
    split
    · rw [busStop_create_taken s _ n hn ht]
      rfl
    · rfl
  · intro s b c hc ht
    cases hname : b.name with
    | none =>
      have hcr : BusRoute.create s b = .error SequelizeError.notNullViolation := by
        unfold BusRoute.create
        simp only [hname]
      have hv : createRouteSchema b = false := by
        simp [createRouteSchema, requiredStringMax, hname]
      exact ⟨⟨_, hcr⟩, by simp [createRoute, hv]⟩
    | some n =>
      have hcr := busRoute_create_taken s b n c hname hc ht
      refine ⟨⟨_, hcr⟩, ?_⟩
      unfold createRoute
      rw [hcr]
      split <;> rfl

theorem c12_natural_keys_unique_witness :
    (∃ st ∈ storeR1Plaza.stops, st.name = "Plaza Central")
    ∧ createStop storeR1Plaza bodyPlazaAgain = (storeR1Plaza, { status := 400, body := none })
    ∧ (∃ r ∈ storeR1Plaza.routes, r.code = "R1")
    ∧ createRoute storeR1Plaza bodyR1Again = (storeR1Plaza, { status := 400, body := none })
    ∧ createRouteSchema bodyR1Again = true ∧ createStopSchema bodyPlazaAgain = true :=
  ⟨by decide,
   ((c12_natural_keys_unique []).2.1 storeR1Plaza bodyPlazaAgain "Plaza Central" rfl
      (by decide)).2,
   by decide,
   ((c12_natural_keys_unique []).2.2 storeR1Plaza bodyR1Again "R1" rfl (by decide)).2,
   by decide, by decide⟩

/-- C13. Add-stop-to-route changes the store only by a committed insert:
an unresolved route or stop gives 404 and a failed insert gives 500, both
with the store exactly as it was; whenever the answer is not 201 the store
is as it was; and when it is 201 both references resolved, the insert
succeeded, and the store is the one the insert returned, with the new row
at the end of `route_stops`. -/
theorem c13_add_stop_atomic (s : Store) (routeId : Nat) (b : AddStopBody) :
    ((BusRoute.findByPk s (some routeId) = none ∨ BusStop.findByPk s b.stopId = none) →
      addStopToRoute s routeId b = (s, { status := 404, body := none }))
    ∧ (∀ (route : BusRoute) (stop : BusStop) (e : SequelizeError),
        BusRoute.findByPk s (some routeId) = some route →
        BusStop.findByPk s b.stopId = some stop →
        RouteStop.create s
          { routeId := routeId, stopId := stop.id,
            stopOrder := some (orDefault b.stopOrder 1),
            direction := some (orDefaultStr b.direction "outbound"),
            distanceFromPrevious := some (orDefault b.distanceFromPrevious 0),
            averageArrivalTime := b.averageArrivalTime } = .error e →
        addStopToRoute s routeId b = (s, { status := 500, body := none }))
    ∧ ((addStopToRoute s routeId b).2.status ≠ 201 → (addStopToRoute s routeId b).1 = s)
    ∧ ((addStopToRoute s routeId b).2.status = 201 →
        ∃ (route : BusRoute) (stop : BusStop) (row : RouteStop),
          BusRoute.findByPk s (some routeId) = some route
          ∧ BusStop.findByPk s b.stopId = some stop
          ∧ RouteStop.create s
              { routeId := routeId, stopId := stop.id,
                stopOrder := some (orDefault b.stopOrder 1),
                direction := some (orDefaultStr b.direction "outbound"),
                distanceFromPrevious := some (orDefault b.distanceFromPrevious 0),
                averageArrivalTime := b.averageArrivalTime }
              = .ok ((addStopToRoute s routeId b).1, row)
          ∧ (addStopToRoute s routeId b).1.routeStops = s.routeStops ++ [row]
          ∧ (addStopToRoute s routeId b).2.body = some row) := by
  refine ⟨?_, ?_, ?_, ?_⟩
  · intro h
    unfold addStopToRoute
    rcases h with h | h <;> rw [h]
    split <;> simp_all
  · intro route stop e hr hs he
    unfold addStopToRoute
    rw [hr, hs]
    simp only [he]
  · intro h
    rcases addStopToRoute_cases s routeId b with ⟨h1, _⟩ | ⟨_, h2, _⟩
    · exact absurd h1 h
    · exact h2
  · intro h
    cases hr : BusRoute.findByPk s (some routeId) with
    | none => exfalso; simp [addStopToRoute, hr] at h
    | some route =>
      cases hs : BusStop.findByPk s b.stopId with
      | none => exfalso; simp [addStopToRoute, hr, hs] at h
      | some stop =>
        cases hc : RouteStop.create s
            { routeId := routeId, stopId := stop.id,
              stopOrder := some (orDefault b.stopOrder 1),
              direction := some (orDefaultStr b.direction "outbound"),
              distanceFromPrevious := some (orDefault b.distanceFromPrevious 0),
              averageArrivalTime := b.averageArrivalTime } with
        | error e => exfalso; simp [addStopToRoute, hr, hs, hc] at h
        | ok p =>
          obtain ⟨s', row⟩ := p
          obtain ⟨h1, _⟩ := routeStop_create_ok hc
          refine ⟨route, stop, row, rfl, rfl, ?_, ?_, ?_⟩
          · simp [addStopToRoute, hr, hs, hc]
          · simp [addStopToRoute, hr, hs, hc, h1]
          · simp [addStopToRoute, hr, hs, hc]

theorem c13_add_stop_atomic_witness :
    BusStop.findByPk storeLinked bodyUnknownStop.stopId = none
    ∧ addStopToRoute storeLinked 1 bodyUnknownStop = (storeLinked, { status := 404, body := none })
    ∧ addStopToRoute storeLinked 1 bodyMercado = (storeLinked, { status := 500, body := none })
    ∧ (addStopToRoute storeLinked 1 bodyMercadoSecond).2.status = 201
    ∧ (∃ row, (addStopToRoute storeLinked 1 bodyMercadoSecond).1.routeStops
          = storeLinked.routeStops ++ [row]) := by
  have h := c13_add_stop_atomic storeLinked 1 bodyUnknownStop
  have h2 := c13_add_stop_atomic storeLinked 1 bodyMercado
  have h3 := c13_add_stop_atomic storeLinked 1 bodyMercadoSecond
  refine ⟨by decide, h.1 (Or.inr (by decide)), ?_, by decide, ?_⟩
  · exact h2.2.1 routeR1 mercado SequelizeError.uniqueConstraint (by decide) (by decide) rfl
  · obtain ⟨_, _, row, _, _, _, hrow, _⟩ := h3.2.2.2 (by decide)
    exact ⟨row, hrow⟩

/-! ## The claims on the create endpoints -/

theorem addStopToRoute_unresolved (s : Store) (routeId : Nat) (b : AddStopBody)
    (h : BusRoute.findByPk s (some routeId) = none ∨ BusStop.findByPk s b.stopId = none) :
    addStopToRoute s routeId b = (s, { status := 404, body := none }) := by
  unfold addStopToRoute
  rcases h with h | h <;> rw [h]
  split <;> simp_all

/-- C14, as the code has it. The create-stop and create-route requests
answer 400 when the body fails the schema and, when the insert fails, 400
for a unique-constraint error (a taken stop name or route code) and 500 for
any other error; the add-stop-to-route request checks no body and answers
404 exactly when the route or the stop is not found. -/
theorem c14_create_status_codes (s : Store) :
    (∀ b : CreateStopBody, createStopSchema b = false →
        createStop s b = (s, { status := 400, body := none }))
    ∧ (∀ (b : CreateStopBody) (lat lon : Int) (e : SequelizeError),
        createStopSchema b = true → b.latitude = some lat → b.longitude = some lon →
        BusStop.create s
          { name := b.name, description := b.description,
            coordinates := { coordinates := [lon, lat] },
            address := b.address, landmarks := b.landmarks } = .error e →
        createStop s b
          = (s, { status := if e = SequelizeError.uniqueConstraint then 400 else 500,
                  body := none }))
    ∧ (∀ b : BusRouteValues, createRouteSchema b = false →
        createRoute s b = (s, { status := 400, body := none }))
    ∧ (∀ (b : BusRouteValues) (e : SequelizeError),
        createRouteSchema b = true → BusRoute.create s b = .error e →
        createRoute s b
          = (s, { status := if e = SequelizeError.uniqueConstraint then 400 else 500,
                  body := none }))
    ∧ (∀ (routeId : Nat) (b : AddStopBody),
        (addStopToRoute s routeId b).2.status = 404
          ↔ (BusRoute.findByPk s (some routeId) = none ∨ BusStop.findByPk s b.stopId = none)) := by
  refine ⟨?_, ?_, ?_, ?_, ?_⟩
  · intro b hv
    simp [createStop, hv]
  · intro b lat lon e hv hlat hlon he
    unfold createStop
    rw [hv, hlat, hlon]
    simp only [he]
    split <;> rfl
  · intro b hv
    simp [createRoute, hv]
  · intro b e hv he
    unfold createRoute
    rw [hv]
    simp only [he, if_true]
    split <;> rfl
  · intro routeId b
    constructor
    · intro h
      by_contra hne
      rw [not_or] at hne
      obtain ⟨route, hr⟩ := Option.ne_none_iff_exists'.mp hne.1
      obtain ⟨stop, hs⟩ := Option.ne_none_iff_exists'.mp hne.2
      unfold addStopToRoute at h
      rw [hr, hs] at h
      simp only at h
      split at h <;> simp at h
    · intro h
      rw [(addStopToRoute_unresolved s routeId b h)]

theorem c14_create_status_codes_witness :
    createStopSchema bodyLatitude95 = false
    ∧ createStop storeR1Plaza bodyLatitude95 = (storeR1Plaza, { status := 400, body := none })
    ∧ createStopSchema bodyPlazaAgain = true
    ∧ createStop storeR1Plaza bodyPlazaAgain = (storeR1Plaza, { status := 400, body := none })
    ∧ createRoute storeR1Plaza bodyFare1000 = (storeR1Plaza, { status := 400, body := none })
    ∧ createRoute storeR1Plaza bodyR1Again = (storeR1Plaza, { status := 400, body := none }) :=
  ⟨by decide,
   (c14_create_status_codes storeR1Plaza).1 bodyLatitude95 (by decide),
   by decide,
   (c14_create_status_codes storeR1Plaza).2.1 bodyPlazaAgain 9000 (-79500)
     SequelizeError.uniqueConstraint (by decide) rfl rfl rfl,
   (c14_create_status_codes storeR1Plaza).2.2.1 bodyFare1000 (by decide),
   (c14_create_status_codes storeR1Plaza).2.2.2.1 bodyR1Again
     SequelizeError.uniqueConstraint (by decide) rfl⟩

/-- C14, refuted as stated. The add-stop-to-route request answers 404, not
400, for a stop that does not exist, and 500, not 400, when the insert is
refused for a taken (route, direction, order). -/
theorem c14_link_endpoint_404_and_500 :
    BusStop.findByPk storeLinked bodyUnknownStop.stopId = none
    ∧ (addStopToRoute storeLinked 1 bodyUnknownStop).2.status = 404
    ∧ RouteStop.create storeLinked
        { routeId := 1, stopId := 2, stopOrder := some 1, direction := some "outbound",
          distanceFromPrevious := some 0, averageArrivalTime := none }
        = .error SequelizeError.uniqueConstraint
    ∧ (addStopToRoute storeLinked 1 bodyMercado).2.status = 500 :=
  ⟨by decide, by decide, rfl, by decide⟩

theorem requiredNumberWithin_iff (x : Option Int) (b : Int) :
    requiredNumberWithin x b = true ↔ ∃ v, x = some v ∧ -(b * 1000) ≤ v ∧ v ≤ b * 1000 := by
  cases x with
  | none => simp [requiredNumberWithin]
  | some v => simp [requiredNumberWithin]

theorem requiredStringMax_iff (x : Option String) (n : Nat) :
    requiredStringMax x n = true ↔ ∃ v, x = some v ∧ v ≠ "" ∧ jsLength v ≤ n := by
  cases x with
  | none => simp [requiredStringMax]
  | some v => simp [requiredStringMax]

/-- A string has at most as many characters as UTF-16 code units. -/
theorem length_le_jsLength (v : String) : v.length ≤ jsLength v := by
  obtain ⟨l⟩ := v
  show l.length ≤ (l.map utf16Units).sum
  induction l with
  | nil => simp
  | cons c rest ih =>
    have hc : 1 ≤ utf16Units c := by
      unfold utf16Units
      split <;> omega
    simp only [List.length_cons, List.map_cons, List.sum_cons]
    omega

/-- A value that passes `max(n)` with `n` at most 255 fits a `VARCHAR(255)`. -/
theorem fitsVarchar_of_jsLength (x : Option String) (v : String) (n : Nat) (hx : x = some v)
    (h : jsLength v ≤ n) (hn : n ≤ 255) : fitsVarchar x 255 = true := by
  have := length_le_jsLength v
  rw [hx]
  simp only [fitsVarchar, decide_eq_true_eq]
  omega

/-- A string of the colour pattern has 7 characters. -/
theorem matchesColor_length (x : String) (h : matchesColor x = true) : x.length = 7 := by
  obtain ⟨l⟩ := x
  unfold matchesColor at h
  show l.length = 7
  simp only [String.toList] at h
  split at h
  · rename_i rest
    simp only [Bool.and_eq_true, beq_iff_eq] at h
    rw [List.length_cons, h.1]
  · cases h

/-- C15, as the code has it. The create-stop request answers 400 and
creates no stop when latitude is outside [-90, 90] or longitude is outside
[-180, 180]; with both in range, bounds included, a name that is not empty
and has a JavaScript length of at most 255, an address, when one is given,
of at most 255 characters, and no stop of that name in the store, it
answers 201 and appends the stop, stored with that name and the point
[longitude, latitude]. -/
theorem c15_create_stop_range (s : Store) (b : CreateStopBody) :
    (∀ lat : Int, b.latitude = some lat → (lat < -90000 ∨ 90000 < lat) →
        createStop s b = (s, { status := 400, body := none }))
    ∧ (∀ lon : Int, b.longitude = some lon → (lon < -180000 ∨ 180000 < lon) →
        createStop s b = (s, { status := 400, body := none }))
    ∧ (∀ (n : String) (lat lon : Int),
        b.name = some n → n ≠ "" → jsLength n ≤ 255 →
        (∀ a, b.address = some a → a.length ≤ 255) →
        b.latitude = some lat → -90000 ≤ lat → lat ≤ 90000 →
        b.longitude = some lon → -180000 ≤ lon → lon ≤ 180000 →
        (∀ st ∈ s.stops, st.name ≠ n) →
        ∃ row, (createStop s b).2
            = { status := 201, body := some { stop := row, latitude := lat, longitude := lon } }
          ∧ (createStop s b).1.stops = s.stops ++ [row]
          ∧ row.name = n ∧ row.coordinates = { coordinates := [lon, lat] }) := by
  refine ⟨?_, ?_, ?_⟩
  · intro lat hlat hout
    have hv : createStopSchema b = false := by
      have : requiredNumberWithin b.latitude 90 = false := by
        rw [hlat]
        simp only [requiredNumberWithin, Bool.and_eq_false_iff, decide_eq_false_iff_not]
        omega
      simp [createStopSchema, this]
    simp [createStop, hv]
  · intro lon hlon hout
    have hv : createStopSchema b = false := by
      have : requiredNumberWithin b.longitude 180 = false := by
        rw [hlon]
        simp only [requiredNumberWithin, Bool.and_eq_false_iff, decide_eq_false_iff_not]
        omega
      simp [createStopSchema, this]
    simp [createStop, hv]
  · intro n lat lon hn hne hlen haddr hlat hlat1 hlat2 hlon hlon1 hlon2 hfresh
    have hfit : fitsVarchar b.address 255 = true := by
      cases ha : b.address with
      | none => rfl
      | some a => simpa [fitsVarchar] using haddr a ha
    have hv : createStopSchema b = true := by
      have h1 : requiredStringMax b.name 255 = true :=
        (requiredStringMax_iff _ _).2 ⟨n, hn, hne, hlen⟩
      have h2 : requiredNumberWithin b.latitude 90 = true :=
        (requiredNumberWithin_iff _ _).2 ⟨lat, hlat, by omega, by omega⟩
      have h3 : requiredNumberWithin b.longitude 180 = true :=
        (requiredNumberWithin_iff _ _).2 ⟨lon, hlon, by omega, by omega⟩
      simp [createStopSchema, h1, h2, h3]
    obtain ⟨s', row, hc, hstops, hname, hcoord⟩ := busStop_create_new s
      { name := b.name, description := b.description,
        coordinates := { coordinates := [lon, lat] },
        address := b.address, landmarks := b.landmarks } n hn hfresh
      (fitsVarchar_of_jsLength _ n 255 hn hlen (le_refl _)) hfit
    refine ⟨row, ?_, ?_, hname, hcoord⟩
    · unfold createStop
      rw [hv, hlat, hlon]
      simp only [hc]
    · unfold createStop
      rw [hv, hlat, hlon]
      simp only [hc]
      exact hstops

theorem c15_create_stop_range_witness :
    createStop storeR1Plaza bodyLatitude95 = (storeR1Plaza, { status := 400, body := none })
    ∧ createStop storeR1Plaza bodyOffMap = (storeR1Plaza, { status := 400, body := none })
    ∧ (∀ st ∈ storeR1Plaza.stops, st.name ≠ "Mercado")
    ∧ (∃ row, (createStop storeR1Plaza bodyNewStop).2
          = { status := 201,
              body := some { stop := row, latitude := 8990, longitude := -79520 } }
        ∧ (createStop storeR1Plaza bodyNewStop).1.stops = storeR1Plaza.stops ++ [row]
        ∧ row.name = "Mercado" ∧ row.coordinates = { coordinates := [-79520, 8990] }) :=
  ⟨(c15_create_stop_range storeR1Plaza bodyLatitude95).1 95000 rfl (by decide),
   (c15_create_stop_range storeR1Plaza bodyOffMap).2.1 200000 rfl (by decide),
   by decide,
   (c15_create_stop_range storeR1Plaza bodyNewStop).2.2 "Mercado" 8990 (-79520) rfl
     (by decide) (by decide) (by decide) rfl (by decide) (by decide) rfl (by decide)
     (by decide) (by decide)⟩

set_option maxRecDepth 20000 in
/-- C15, refuted as stated. A body with latitude and longitude in range and
a name of 256 characters that no stop has is answered 400, and no stop is
created; a body with latitude and longitude in range, a name that no stop
has and an address of 256 characters passes the schema, is refused by the
`VARCHAR(255)` column and is answered 500, and no stop is created. -/
theorem c15_long_name_refused :
    bodyLongName.name = some longName
    ∧ longName.length = 256 ∧ jsLength longName = 256
    ∧ createStop Store.empty bodyLongName = (Store.empty, { status := 400, body := none })
    ∧ bodyLongAddress.address = some longName
    ∧ createStopSchema bodyLongAddress = true
    ∧ createStop Store.empty bodyLongAddress
        = (Store.empty, { status := 500, body := none }) := by
  have hv : createStopSchema bodyLongName = false := by decide
  have hv2 : createStopSchema bodyLongAddress = true := by decide
  have hc : BusStop.create Store.empty
      { name := bodyLongAddress.name, description := bodyLongAddress.description,
        coordinates := { coordinates := [-79520, 8990] },
        address := bodyLongAddress.address, landmarks := bodyLongAddress.landmarks }
      = .error SequelizeError.valueTooLong := by
    have hfit : fitsVarchar (some longName) 255 = false := by decide
    simp [BusStop.create, bodyLongAddress, Store.empty, hfit]
  refine ⟨rfl, by decide, by decide, by simp [createStop, hv], rfl, hv2, ?_⟩
  unfold createStop
  rw [hv2]
  simp only [bodyLongAddress, hc]
  rfl

/-- C16, on the failing input. `importStops` stores the record at latitude
95, longitude 200 as it is, while the create-stop request refuses the same
values with 400. -/
theorem c16_import_stores_off_range :
    (importStops Store.empty [recordOffMap]).2 = { created := 1, skipped := 0 }
    ∧ (importStops Store.empty [recordOffMap]).1.stops.map (fun st => (st.name, st.coordinates))
        = [("Polo", { coordinates := [200000, 95000] })]
    ∧ createStop Store.empty bodyOffMap = (Store.empty, { status := 400, body := none }) := by
  decide

/-! ## The claims on stopOrder and on create-route -/

/-- A created link row carries the values handed to `RouteStop.create`. -/
theorem routeStop_create_fields {s s' : Store} {v : RouteStopValues} {row : RouteStop}
    (h : RouteStop.create s v = .ok (s', row)) :
    v.stopOrder = some row.stopOrder
      ∧ v.direction.bind Direction.ofString = some row.direction
      ∧ row.distanceFromPrevious = v.distanceFromPrevious
      ∧ row.averageArrivalTime = v.averageArrivalTime
      ∧ row.routeId = v.routeId ∧ row.stopId = v.stopId := by
  unfold RouteStop.create at h
  split at h
  · rename_i o dstr ho hd
    split at h
    · cases h
    · rename_i d hdir
      split at h
      · cases h
      · split at h
        · cases h
        · injection h with h
          injection h with h1 h2
          subst h2
          exact ⟨ho, by simp [hd, hdir], rfl, rfl, rfl, rfl⟩
  · cases h

theorem orDefault_one_ne_zero (x : Option Int) : orDefault x 1 ≠ 0 := by
  cases x with
  | none => simp [orDefault]
  | some v =>
    simp only [orDefault]
    split
    · decide
    · assumption

/-- What an answer 201 of add-stop-to-route tells. -/
theorem addStopToRoute_created (s : Store) (routeId : Nat) (b : AddStopBody)
    (h : (addStopToRoute s routeId b).2.status = 201) :
    ∃ (stop : BusStop) (row : RouteStop),
      BusStop.findByPk s b.stopId = some stop
      ∧ RouteStop.create s
          { routeId := routeId, stopId := stop.id,
            stopOrder := some (orDefault b.stopOrder 1),
            direction := some (orDefaultStr b.direction "outbound"),
            distanceFromPrevious := some (orDefault b.distanceFromPrevious 0),
            averageArrivalTime := b.averageArrivalTime }
          = .ok ((addStopToRoute s routeId b).1, row)
      ∧ (addStopToRoute s routeId b).1.routeStops = s.routeStops ++ [row]
      ∧ (addStopToRoute s routeId b).2.body = some row := by
  cases hr : BusRoute.findByPk s (some routeId) with
  | none => exfalso; simp [addStopToRoute, hr] at h
  | some route =>
    cases hs : BusStop.findByPk s b.stopId with
    | none => exfalso; simp [addStopToRoute, hr, hs] at h
    | some stop =>
      cases hc : RouteStop.create s
          { routeId := routeId, stopId := stop.id,
            stopOrder := some (orDefault b.stopOrder 1),
            direction := some (orDefaultStr b.direction "outbound"),
            distanceFromPrevious := some (orDefault b.distanceFromPrevious 0),
            averageArrivalTime := b.averageArrivalTime } with
      | error e => exfalso; simp [addStopToRoute, hr, hs, hc] at h
      | ok p =>
        obtain ⟨s', row⟩ := p
        obtain ⟨h1, _⟩ := routeStop_create_ok hc
        refine ⟨stop, row, rfl, ?_, ?_, ?_⟩
        · simp [addStopToRoute, hr, hs, hc]
        · simp [addStopToRoute, hr, hs, hc, h1]
        · simp [addStopToRoute, hr, hs, hc]

/-- C17, as the code has it. A row created by add-stop-to-route has the
stopOrder of the request, or 1 when the request gives none or gives 0, so it
is never 0; a row created by `importRouteStops` has the stopOrder of its
record. Neither checks a lower bound. -/
theorem c17_stop_order_of_created_row (s : Store) :
    (∀ (routeId : Nat) (b : AddStopBody), (addStopToRoute s routeId b).2.status = 201 →
        ∃ row, (addStopToRoute s routeId b).2.body = some row
          ∧ (addStopToRoute s routeId b).1.routeStops = s.routeStops ++ [row]
          ∧ row.stopOrder = orDefault b.stopOrder 1
          ∧ row.stopOrder ≠ 0
          ∧ (b.stopOrder = none ∨ b.stopOrder = some 0 → row.stopOrder = 1)
          ∧ (∀ o : Int, b.stopOrder = some o → o ≠ 0 → row.stopOrder = o))
    ∧ (∀ rs : LinkRecord, (importRouteStopsBody s rs).2 = Outcome.created →
        ∃ row, (importRouteStopsBody s rs).1.routeStops = s.routeStops ++ [row]
          ∧ rs.stopOrder = some row.stopOrder) := by
  constructor
  · intro routeId b h
    obtain ⟨stop, row, _, hc, hrows, hbody⟩ := addStopToRoute_created s routeId b h
    have hf := (routeStop_create_fields hc).1
    simp only [Option.some.injEq] at hf
    refine ⟨row, hbody, hrows, hf.symm, ?_, ?_, ?_⟩
    · rw [← hf]; exact orDefault_one_ne_zero _
    · intro h0
      rw [← hf]
      rcases h0 with h0 | h0 <;> rw [h0] <;> rfl
    · intro o ho hne
      rw [← hf, ho]
      simp [orDefault, hne]
  · intro rs h
    unfold importRouteStopsBody at h ⊢
    split
    · rename_i hr; rw [hr] at h; simp at h
    · rename_i hr hs; rw [hr, hs] at h; simp at h
    · rename_i route stop hr hs
      rw [hr, hs] at h
      simp only at h
      split
      · rename_i hf; rw [hf] at h; simp at h
      · rename_i hf
        rw [hf] at h
        simp only at h
        split
        · rename_i s' row hc
          exact ⟨row, (routeStop_create_ok hc).1, (routeStop_create_fields hc).1⟩
        · rename_i e hc
          rw [hc] at h
          simp at h

theorem c17_stop_order_of_created_row_witness :
    (addStopToRoute storeR1Plaza 1 bodyOrderMinusOne).2.status = 201
    ∧ (∃ row, (addStopToRoute storeR1Plaza 1 bodyOrderMinusOne).2.body = some row
        ∧ row.stopOrder = -1)
    ∧ (importRouteStopsBody storeR1Plaza linkOrderZero).2 = Outcome.created
    ∧ (∃ row, (importRouteStopsBody storeR1Plaza linkOrderZero).1.routeStops
          = storeR1Plaza.routeStops ++ [row]
        ∧ linkOrderZero.stopOrder = some row.stopOrder) := by
  obtain ⟨row, hbody, _, horder, _⟩ :=
    (c17_stop_order_of_created_row storeR1Plaza).1 1 bodyOrderMinusOne (by decide)
  exact ⟨by decide, ⟨row, hbody, by rw [horder]; decide⟩, by decide,
    (c17_stop_order_of_created_row storeR1Plaza).2 linkOrderZero (by decide)⟩

/-- C17, refuted as stated. A request with stopOrder -1 is answered 201
with a row of stopOrder -1, and a link record with stopOrder 0 is created
with stopOrder 0. -/
theorem c17_order_below_one_created :
    (addStopToRoute storeR1Plaza 1 bodyOrderMinusOne).2.status = 201
    ∧ (addStopToRoute storeR1Plaza 1 bodyOrderMinusOne).1.routeStops.map
        (fun rs => rs.stopOrder) = [-1]
    ∧ (importRouteStops storeR1Plaza [linkOrderZero]).2
        = { created := 1, skipped := 0, errors := 0 }
    ∧ (importRouteStops storeR1Plaza [linkOrderZero]).1.routeStops.map
        (fun rs => rs.stopOrder) = [0] := by
  decide

theorem optionalKey_iff {α : Type} (x : Option α) (rule : α → Bool) :
    optionalKey x rule = true ↔ ∀ v, x = some v → rule v = true := by
  cases x with
  | none => simp [optionalKey]
  | some v => simp [optionalKey]

/-- C18, as the code has it. The create-route request answers 400 and
creates no route when color is not # followed by six hex digits, when a
start or end of the operating hours is not a time of the pattern (hour 0 to
23 in one or two digits, minute 00 to 59), or when farePrice is negative or
above 999.99; with a name that is not empty and has a JavaScript length of
at most 255, a code that no route has, is not empty and has a JavaScript
length of at most 50, and every given color, time, day and fare valid, it
answers 201 and appends the route. -/
theorem c18_create_route_validation (s : Store) (b : BusRouteValues) :
    (∀ c : String, b.color = some c → matchesColor c = false →
        createRoute s b = (s, { status := 400, body := none }))
    ∧ (∀ (h : OperatingHours) (x : String), b.operatingHours = some h →
        (h.start = some x ∨ h.«end» = some x) → matchesTime x = false →
        createRoute s b = (s, { status := 400, body := none }))
    ∧ (∀ p : Int, b.farePrice = some p → (p < 0 ∨ 99999 < p) →
        createRoute s b = (s, { status := 400, body := none }))
    ∧ (∀ (n c : String),
        b.name = some n → n ≠ "" → jsLength n ≤ 255 →
        b.code = some c → c ≠ "" → jsLength c ≤ 50 →
        (∀ r ∈ s.routes, r.code ≠ c) →
        (∀ x, b.color = some x → matchesColor x = true) →
        (∀ h, b.operatingHours = some h →
          (∀ x, h.start = some x → matchesTime x = true)
          ∧ (∀ x, h.«end» = some x → matchesTime x = true)
          ∧ (∀ d ∈ h.days, d ≠ "")) →
        (∀ p, b.farePrice = some p → 0 ≤ p ∧ p ≤ 99999) →
        ∃ row, (createRoute s b).2 = { status := 201, body := some row }
          ∧ (createRoute s b).1.routes = s.routes ++ [row]
          ∧ row.name = n ∧ row.code = c ∧ row.farePrice = b.farePrice
          ∧ row.operatingHours = b.operatingHours) := by
  refine ⟨?_, ?_, ?_, ?_⟩
  · intro c hc hm
    have hv : createRouteSchema b = false := by
      simp [createRouteSchema, optionalKey, hc, hm]
    simp [createRoute, hv]
  · intro h x hh hx hm
    have hhv : operatingHoursValid h = false := by
      rcases hx with hx | hx <;> simp [operatingHoursValid, optionalKey, hx, hm]
    have hv : createRouteSchema b = false := by
      simp [createRouteSchema, optionalKey, hh, hhv]
    simp [createRoute, hv]
  · intro p hp hout
    have hv : createRouteSchema b = false := by
      have : (decide (0 ≤ p) && decide (p ≤ 99999)) = false := by
        simp only [Bool.and_eq_false_iff, decide_eq_false_iff_not]
        omega
      simp only [createRouteSchema, optionalKey, hp, this, Bool.and_false]
    simp [createRoute, hv]
  · intro n c hn hne hlen hc hcne hclen hfresh hcolor hhours hfare
    have hv : createRouteSchema b = true := by
      have h1 : requiredStringMax b.name 255 = true :=
        (requiredStringMax_iff _ _).2 ⟨n, hn, hne, hlen⟩
      have h2 : requiredStringMax b.code 50 = true :=
        (requiredStringMax_iff _ _).2 ⟨c, hc, hcne, hclen⟩
      have h3 : optionalKey b.color matchesColor = true :=
        (optionalKey_iff _ _).2 hcolor
      have h4 : optionalKey b.operatingHours operatingHoursValid = true := by
        rw [optionalKey_iff]
        intro h hh
        obtain ⟨k1, k2, k3⟩ := hhours h hh
        have e1 := (optionalKey_iff h.start matchesTime).2 k1
        have e2 := (optionalKey_iff h.«end» matchesTime).2 k2
        have e3 : h.days.all (fun d => d != "") = true := by
          rw [List.all_eq_true]
          intro d hd
          simpa using k3 d hd
        simp [operatingHoursValid, e1, e2, e3]
      have h5 : optionalKey b.farePrice
          (fun p => decide (0 ≤ p) && decide (p ≤ 99999)) = true := by
        rw [optionalKey_iff]
        intro p hp
        obtain ⟨k1, k2⟩ := hfare p hp
        simp [k1, k2]
      simp only [createRouteSchema, h1, h2, h3, h4, h5, Bool.and_self]
    have hfitColor : fitsVarchar b.color 7 = true := by
      cases hx : b.color with
      | none => rfl
      | some x =>
        have := matchesColor_length x (hcolor x hx)
        simp only [fitsVarchar, decide_eq_true_eq]
        omega
    have hfitFare : fitsDecimal52 b.farePrice = true := by
      cases hp : b.farePrice with
      | none => rfl
      | some p =>
        obtain ⟨k1, k2⟩ := hfare p hp
        simp only [fitsDecimal52, Bool.and_eq_true, decide_eq_true_eq]
        omega
    obtain ⟨s', row, hcr, hroutes, hname, hcode, hfarePrice, hours⟩ :=
      busRoute_create_new s b n c hn hc hfresh
        (fitsVarchar_of_jsLength _ n 255 hn hlen (le_refl _))
        (fitsVarchar_of_jsLength _ c 50 hc hclen (by omega)) hfitColor hfitFare
    refine ⟨row, ?_, ?_, hname, hcode, hfarePrice, hours⟩
    · unfold createRoute
      rw [hv]
      simp only [hcr, if_true]
    · unfold createRoute
      rw [hv]
      simp only [hcr, if_true]
      exact hroutes

theorem c18_create_route_validation_witness :
    (matchesColor "3498db" = false ∧ matchesColor "#3498dg" = false
      ∧ matchesColor "#3498DB" = true)
    ∧ (matchesTime "24:00" = false ∧ matchesTime "12:60" = false
      ∧ matchesTime "5:30" = true ∧ matchesTime "23:59" = true)
    ∧ createRoute storeR1Plaza bodyFare1000 = (storeR1Plaza, { status := 400, body := none })
    ∧ (∀ r ∈ storeR1Plaza.routes, r.code ≠ "R3")
    ∧ (∃ row, (createRoute storeR1Plaza bodyR3).2 = { status := 201, body := some row }
        ∧ (createRoute storeR1Plaza bodyR3).1.routes = storeR1Plaza.routes ++ [row]
        ∧ row.name = "Ruta 3" ∧ row.code = "R3") := by
  obtain ⟨row, h1, h2, h3, h4, _⟩ :=
    (c18_create_route_validation storeR1Plaza bodyR3).2.2.2 "Ruta 3" "R3" rfl (by decide)
      (by decide) rfl (by decide) (by decide) (by decide) (by decide) (by decide) (by decide)
  exact ⟨by decide, by decide,
    (c18_create_route_validation storeR1Plaza bodyFare1000).2.2.1 100000 rfl (by decide),
    by decide, row, h1, h2, h3, h4⟩

/-- C18, refuted as stated. A body with a name, an unused code, a valid
color, valid hours and the non-negative fare 1000.00 is answered 400, and so
is a body whose only fault is a code of 51 characters, and one whose only
fault is a code of 26 characters that are 52 UTF-16 code units; no route is
created. -/
theorem c18_valid_looking_route_refused :
    bodyFare1000.farePrice = some 100000
    ∧ createRoute Store.empty bodyFare1000 = (Store.empty, { status := 400, body := none })
    ∧ createRoute Store.empty bodyLongCode = (Store.empty, { status := 400, body := none })
    ∧ astralCode.length = 26 ∧ jsLength astralCode = 52
    ∧ createRoute Store.empty bodyAstralCode
        = (Store.empty, { status := 400, body := none }) := by
  decide

/-! ## Facts about the lists -/

theorem uniqueById_mem_keys {α : Type} (key : α → Nat) (l : List α) (k : Nat) :
    k ∈ (uniqueById key l).map key ↔ k ∈ l.map key := by
  induction l with
  | nil => simp [uniqueById]
  | cons x xs ih =>
    simp only [uniqueById, List.map_cons, List.mem_cons]
    constructor
    · rintro (h | h)
      · exact Or.inl h
      · right
        rw [← ih]
        rw [List.mem_map] at h ⊢
        obtain ⟨y, hy, hk⟩ := h
        exact ⟨y, (List.mem_filter.mp hy).1, hk⟩
    · rintro (h | h)
      · exact Or.inl h
      · by_cases hk : k = key x
        · exact Or.inl hk
        · right
          rw [← ih] at h
          rw [List.mem_map] at h ⊢
          obtain ⟨y, hy, hyk⟩ := h
          refine ⟨y, List.mem_filter.mpr ⟨hy, ?_⟩, hyk⟩
          simp [hyk, hk]

theorem uniqueById_nodup {α : Type} (key : α → Nat) (l : List α) :
    ((uniqueById key l).map key).Nodup := by
  induction l with
  | nil => simp [uniqueById]
  | cons x xs ih =>
    simp only [uniqueById, List.map_cons, List.nodup_cons]
    constructor
    · intro h
      rw [List.mem_map] at h
      obtain ⟨y, hy, hk⟩ := h
      have := (List.mem_filter.mp hy).2
      simp [hk] at this
    · exact ih.sublist ((List.filter_sublist _).map _)

/-- The array built for an included association has as many elements as
the joined rows have distinct keys. -/
theorem uniqueById_length {α : Type} (key : α → Nat) (l : List α) :
    (uniqueById key l).length = (l.map key).dedup.length := by
  have hp : ((uniqueById key l).map key).Perm (l.map key).dedup := by
    rw [List.perm_ext_iff_of_nodup (uniqueById_nodup key l) (List.nodup_dedup _)]
    intro k
    rw [uniqueById_mem_keys, List.mem_dedup]
  rw [← hp.length_eq, List.length_map]

theorem joined_route_ids (s : Store) (rows : List RouteStop)
    (h : ∀ rs ∈ rows, ∃ r ∈ s.routes, r.id = rs.routeId) :
    (rows.filterMap (fun rs =>
        (s.routes.find? (fun r => decide (r.id = rs.routeId))).map (fun r =>
          ({ id := r.id, name := r.name, code := r.code, color := r.color } : IncludedRoute)))).map
        (fun r => r.id)
      = rows.map (fun rs => rs.routeId) := by
  induction rows with
  | nil => rfl
  | cons rs rest ih =>
    obtain ⟨r, hr, hid⟩ := h rs (List.mem_cons_self _ _)
    have hsome : (s.routes.find? (fun r => decide (r.id = rs.routeId))).isSome = true := by
      rw [List.find?_isSome]; exact ⟨r, hr, by simp [hid]⟩
    obtain ⟨r', hfind⟩ := Option.isSome_iff_exists.mp hsome
    have hid' : r'.id = rs.routeId := by simpa using List.find?_some hfind
    simp only [List.filterMap_cons, hfind, Option.map_some', List.map_cons, hid']
    rw [ih (fun x hx => h x (List.mem_cons_of_mem _ hx))]

theorem joined_stop_ids (s : Store) (rows : List RouteStop)
    (h : ∀ rs ∈ rows, ∃ st ∈ s.stops, st.id = rs.stopId) :
    (rows.filterMap (fun rs =>
        (s.stops.find? (fun st => decide (st.id = rs.stopId))).map (fun st =>
          ({ id := st.id, name := st.name,
             RouteStop := { stopOrder := rs.stopOrder, direction := rs.direction,
                            distanceFromPrevious := rs.distanceFromPrevious } } :
            IncludedStop)))).map (fun st => st.id)
      = rows.map (fun rs => rs.stopId) := by
  induction rows with
  | nil => rfl
  | cons rs rest ih =>
    obtain ⟨st, hst, hid⟩ := h rs (List.mem_cons_self _ _)
    have hsome : (s.stops.find? (fun st => decide (st.id = rs.stopId))).isSome = true := by
      rw [List.find?_isSome]; exact ⟨st, hst, by simp [hid]⟩
    obtain ⟨st', hfind⟩ := Option.isSome_iff_exists.mp hsome
    have hid' : st'.id = rs.stopId := by simpa using List.find?_some hfind
    simp only [List.filterMap_cons, hfind, Option.map_some', List.map_cons, hid']
    rw [ih (fun x hx => h x (List.mem_cons_of_mem _ hx))]

theorem includedRoutes_length (s : Store) (h : RoutesIntact s) (stop : BusStop) :
    (includedRoutes s stop).length = stopRouteCount s stop.id := by
  unfold includedRoutes stopRouteCount
  rw [uniqueById_length, joined_route_ids]
  intro rs hrs
  exact h rs (List.mem_filter.mp hrs).1

theorem includedStops_length (s : Store)
    (h : ∀ rs ∈ s.routeStops, ∃ st ∈ s.stops, st.id = rs.stopId) (route : BusRoute) :
    (includedStops s route).length = routeStopCount s route.id := by
  unfold includedStops routeStopCount
  rw [uniqueById_length, joined_stop_ids]
  intro rs hrs
  exact h rs (List.mem_filter.mp hrs).1

/-! ## The claims on the lists -/

/-- C19. When every link names a stored route, the stop list has one entry
per stop, in table order, and the `routeCount` of each is the number of
distinct routeId values among the links of that stop: a route with several
links on the stop is counted once. -/
theorem c19_route_count_distinct (s : Store) (h : RoutesIntact s) :
    (stopList s).map (fun e => (e.stop, e.routeCount))
        = s.stops.map (fun st => (st, stopRouteCount s st.id))
    ∧ (∀ e ∈ stopList s, e.routeCount = e.routes.length
        ∧ (e.routes.map (fun r => r.id)).Nodup) := by
  constructor
  · unfold stopList
    rw [List.map_map]
    apply List.map_congr_left
    intro st _
    simp only [Function.comp, includedRoutes_length s h st]
  · intro e he
    unfold stopList at he
    rw [List.mem_map] at he
    obtain ⟨st, _, rfl⟩ := he
    exact ⟨rfl, uniqueById_nodup _ _⟩

theorem c19_route_count_distinct_witness :
    RoutesIntact storeBothWays
    ∧ (stopList storeBothWays).map (fun e => (e.stop, e.routeCount))
        = storeBothWays.stops.map (fun st => (st, stopRouteCount storeBothWays st.id))
    ∧ (stopList storeBothWays).map (fun e => (e.stop.name, e.routeCount))
        = [("Plaza Central", 1), ("Mercado", 1)]
    ∧ (stopList storeNetwork).map (fun e => (e.stop.name, e.routeCount))
        = [("Plaza Central", 2), ("Mercado", 1), ("Terminal", 1), ("Parque", 0)] :=
  ⟨by decide, (c19_route_count_distinct storeBothWays (by decide)).1, by decide, by decide⟩

/-- C20. When every link names a stored stop, the route list has one entry
per route and the `totalStops` of each is the number of distinct stops
among the links of that route in both directions: a stop served outbound
and inbound is counted once, and a route without links has 0. -/
theorem c20_total_stops_distinct (s : Store)
    (h : ∀ rs ∈ s.routeStops, ∃ st ∈ s.stops, st.id = rs.stopId) :
    (∀ e ∈ routeList s, e.totalStops = routeStopCount s e.route.id
        ∧ e.totalStops = e.stops.length ∧ (e.stops.map (fun st => st.id)).Nodup)
    ∧ ((routeList s).map (fun e => e.route)).Perm s.routes
    ∧ (∀ routeId : Nat, (∀ rs ∈ s.routeStops, rs.routeId ≠ routeId) →
        routeStopCount s routeId = 0) := by
  refine ⟨?_, ?_, ?_⟩
  · intro e he
    unfold routeList at he
    rw [List.mem_map] at he
    obtain ⟨r, _, rfl⟩ := he
    exact ⟨includedStops_length s h r, rfl, uniqueById_nodup _ _⟩
  · unfold routeList
    rw [List.map_map]
    have : ((fun e : RouteListEntry => e.route) ∘ fun route =>
        ({ route := route, stops := includedStops s route, buses := includedBuses s route,
           totalStops := (includedStops s route).length,
           activeBuses := ((includedBuses s route).filter
             (fun bus => decide (bus.status = BusStatus.active))).length } : RouteListEntry))
        = id := rfl
    rw [this, List.map_id]
    exact List.perm_insertionSort _ _
  · intro routeId hno
    unfold routeStopCount
    have : s.routeStops.filter (fun rs => decide (rs.routeId = routeId)) = [] := by
      rw [List.filter_eq_nil_iff]
      intro rs hrs
      simpa using hno rs hrs
    rw [this]
    rfl

theorem c20_total_stops_distinct_witness :
    (∀ rs ∈ storeBothWays.routeStops, ∃ st ∈ storeBothWays.stops, st.id = rs.stopId)
    ∧ (∀ e ∈ routeList storeBothWays, e.totalStops = routeStopCount storeBothWays e.route.id)
    ∧ (routeList storeBothWays).map (fun e => (e.route.name, e.totalStops))
        = [("Ruta 1", 2), ("Ruta 2", 0)]
    ∧ (routeList storeNetwork).map (fun e => (e.route.code, e.totalStops))
        = [("R1", 3), ("R2", 1)] :=
  ⟨by decide,
   fun e he => ((c20_total_stops_distinct storeBothWays (by decide)).1 e he).1,
   by decide, by decide⟩

/-! ## The claim on the partition of the route detail -/

/-- When every row has its joined stop, every entry carries the stopOrder,
averageArrivalTime and distanceFromPrevious of its own row, in row order. -/
theorem mapEntries_fields (rows : List (RouteStop × Option BusStop))
    (h : ∀ r ∈ rows, r.2.isSome = true) :
    ∃ es, mapEntries rows = some es
      ∧ es.map (fun e => (e.stopOrder, e.averageArrivalTime, e.distanceFromPrevious))
          = rows.map (fun r => (r.1.stopOrder, r.1.averageArrivalTime, r.1.distanceFromPrevious)) := by
  induction rows with
  | nil => exact ⟨[], rfl, rfl⟩
  | cons r rest ih =>
    obtain ⟨es, he, hf⟩ := ih (fun x hx => h x (List.mem_cons_of_mem _ hx))
    have hr := h r (List.mem_cons_self _ _)
    obtain ⟨rs, stop⟩ := r
    cases stop with
    | none => simp at hr
    | some st =>
      have hent : ∃ e, stopEntry rs (some st) = some e
          ∧ (e.stopOrder, e.averageArrivalTime, e.distanceFromPrevious)
              = (rs.stopOrder, rs.averageArrivalTime, rs.distanceFromPrevious) :=
        ⟨_, rfl, rfl⟩
      obtain ⟨e, hentry, hfe⟩ := hent
      refine ⟨e :: es, ?_, ?_⟩
      · simp only [mapEntries, hentry, he]
      · simp only [List.map_cons, hf, hfe]

theorem directionStops_fields (s : Store) (id : Nat) (d : Direction)
    (h : ∀ rs ∈ s.routeStops, rs.routeId = id → ∃ st ∈ s.stops, st.id = rs.stopId) :
    ∃ es, directionStops (includedRouteStops s id) d = some es
      ∧ es.map (fun e => (e.stopOrder, e.averageArrivalTime, e.distanceFromPrevious))
          = (s.routeStops.filter (fun rs => decide (rs.routeId = id ∧ rs.direction = d))).map
              (fun rs => (rs.stopOrder, rs.averageArrivalTime, rs.distanceFromPrevious)) := by
  obtain ⟨es, he, hf⟩ := mapEntries_fields
    ((includedRouteStops s id).filter (fun r => decide (r.1.direction = d)))
    (fun r hr => includedRouteStops_joined s id h r (List.mem_filter.mp hr).1)
  refine ⟨es, he, ?_⟩
  rw [hf, ← includedRouteStops_direction, List.map_map]
  rfl

theorem filter_direction_length (rows : List RouteStop) (id : Nat) :
    (rows.filter (fun rs => decide (rs.routeId = id ∧ rs.direction = Direction.outbound))).length
      + (rows.filter (fun rs => decide (rs.routeId = id ∧ rs.direction = Direction.inbound))).length
      = (rows.filter (fun rs => decide (rs.routeId = id))).length := by
  induction rows with
  | nil => rfl
  | cons rs rest ih =>
    simp only [Bool.decide_and] at ih ⊢
    by_cases h1 : rs.routeId = id
    · cases hd : rs.direction <;> simp [List.filter_cons, h1, hd] <;> omega
    · simp [List.filter_cons, h1]
      exact ih

/-- C28. For a stored route whose links have their stops, the route detail
answers 200; `outboundStops` holds one entry per outbound link of the route
and `inboundStops` one per inbound link, in the order of the retrieved
rows, each with the stopOrder, averageArrivalTime and distanceFromPrevious
of its own link; the two lengths add up to the number of links of the route. -/
theorem c28_detail_partitions_by_direction (s : Store) (id : Nat) (route : BusRoute)
    (hroute : BusRoute.findByPk s (some id) = some route)
    (hstops : ∀ rs ∈ s.routeStops, rs.routeId = id → ∃ st ∈ s.stops, st.id = rs.stopId) :
    ∃ detail, routeDetail s id = RouteDetailResponse.ok detail
      ∧ detail.outboundStops.map
            (fun e => (e.stopOrder, e.averageArrivalTime, e.distanceFromPrevious))
          = (s.routeStops.filter
              (fun rs => decide (rs.routeId = id ∧ rs.direction = Direction.outbound))).map
              (fun rs => (rs.stopOrder, rs.averageArrivalTime, rs.distanceFromPrevious))
      ∧ detail.inboundStops.map
            (fun e => (e.stopOrder, e.averageArrivalTime, e.distanceFromPrevious))
          = (s.routeStops.filter
              (fun rs => decide (rs.routeId = id ∧ rs.direction = Direction.inbound))).map
              (fun rs => (rs.stopOrder, rs.averageArrivalTime, rs.distanceFromPrevious))
      ∧ detail.outboundStops.length + detail.inboundStops.length
          = (s.routeStops.filter (fun rs => decide (rs.routeId = id))).length
      ∧ detail.routeStops.map (fun r => r.1)
          = s.routeStops.filter (fun rs => decide (rs.routeId = id)) := by
  have hid := busRoute_findByPk_some hroute
  obtain ⟨ob, hob, hfo⟩ := directionStops_fields s id Direction.outbound hstops
  obtain ⟨ib, hib, hfi⟩ := directionStops_fields s id Direction.inbound hstops
  refine ⟨{ route := route, routeStops := includedRouteStops s id,
             outboundStops := ob, inboundStops := ib,
             totalDistance := { outbound := sumDistance ob, inbound := sumDistance ib } },
    ?_, hfo, hfi, ?_, ?_⟩
  · unfold routeDetail
    rw [hroute]
    simp only [hid, hob, hib]
  · have h1 := congrArg List.length hfo
    have h2 := congrArg List.length hfi
    simp only [List.length_map] at h1 h2
    simp only [h1, h2]
    exact filter_direction_length s.routeStops id
  · simp only [includedRouteStops, List.map_map]
    exact List.map_id _

theorem c28_detail_partitions_by_direction_witness :
    BusRoute.findByPk storeBothWays (some 1) = some routeR1
    ∧ ∃ detail, routeDetail storeBothWays 1 = RouteDetailResponse.ok detail
      ∧ detail.outboundStops.map
            (fun e => (e.stopOrder, e.averageArrivalTime, e.distanceFromPrevious))
          = [(1, none, none), (2, none, some 150)]
      ∧ detail.inboundStops.map
            (fun e => (e.stopOrder, e.averageArrivalTime, e.distanceFromPrevious))
          = [(2, none, some 150)]
      ∧ detail.outboundStops.length + detail.inboundStops.length = 3 := by
  obtain ⟨detail, h1, h2, h3, h4, _⟩ :=
    c28_detail_partitions_by_direction storeBothWays 1 routeR1 (by decide) (by decide)
  exact ⟨by decide, detail, h1, by rw [h2]; decide, by rw [h3]; decide, by rw [h4]; decide⟩

/-! ## The claims on skipping -/

theorem busRoute_findOne_isSome (s : Store) (code : Option String) :
    (BusRoute.findOne s code).isSome = true
      ↔ ∃ c, code = some c ∧ ∃ r ∈ s.routes, r.code = c := by
  cases code with
  | none => simp [BusRoute.findOne]
  | some c => simp [BusRoute.findOne, List.find?_isSome]

theorem importRoutesBody_of_stored (s : Store) (route : BusRouteValues)
    (h : (BusRoute.findOne s route.code).isSome = true) :
    importRoutesBody s route = (s, Outcome.skipped) := by
  unfold importRoutesBody
  cases hf : BusRoute.findOne s route.code with
  | none => rw [hf] at h; simp at h
  | some r => rfl

theorem importStopsLoop_prefix (s : Store) (c : StageCounts) (data : List StopRecord) :
    ∃ added, (importStopsLoop s c data).1.stops = s.stops ++ added
      ∧ (importStopsLoop s c data).1.routes = s.routes := by
  induction data generalizing s c with
  | nil => exact ⟨[], by simp [importStopsLoop], rfl⟩
  | cons stop rest ih =>
    obtain ⟨added, h1, h2⟩ := ih (importStopsBody s stop).1 (c.bump (importStopsBody s stop).2)
    simp only [importStopsLoop]
    rcases importStopsBody_cases s stop with ⟨_, row, hr, _, hroutes, _⟩ | ⟨_, hs, _⟩ | ⟨_, hs⟩
    · exact ⟨row :: added, by rw [h1, hr]; simp, by rw [h2, hroutes]⟩
    · exact ⟨added, by rw [h1, congrArg Store.stops hs], by rw [h2, congrArg Store.routes hs]⟩
    · exact ⟨added, by rw [h1, congrArg Store.stops hs], by rw [h2, congrArg Store.routes hs]⟩

theorem importRoutesLoop_prefix (s : Store) (c : StageCounts) (data : List BusRouteValues) :
    ∃ added, (importRoutesLoop s c data).1.routes = s.routes ++ added
      ∧ (importRoutesLoop s c data).1.stops = s.stops := by
  induction data generalizing s c with
  | nil => exact ⟨[], by simp [importRoutesLoop], rfl⟩
  | cons route rest ih =>
    obtain ⟨added, h1, h2⟩ := ih (importRoutesBody s route).1 (c.bump (importRoutesBody s route).2)
    simp only [importRoutesLoop]
    rcases importRoutesBody_cases s route with ⟨_, row, hr, _, hstops, _⟩ | ⟨_, hs⟩
    · exact ⟨row :: added, by rw [h1, hr]; simp, by rw [h2, hstops]⟩
    · exact ⟨added, by rw [h1, congrArg Store.routes hs], by rw [h2, congrArg Store.stops hs]⟩

/-- C25. A record whose name (code) is stored is skipped with the store
exactly as it was, whatever other values the record carries; over a whole
run of the stops (routes) stage the rows stored before stay as they are, in
place, and new rows only follow them. -/
theorem c25_skip_keeps_row (s : Store) :
    (∀ stop : StopRecord, (BusStop.findOne s stop.name).isSome = true →
        importStopsBody s stop = (s, Outcome.skipped))
    ∧ (∀ route : BusRouteValues, (BusRoute.findOne s route.code).isSome = true →
        importRoutesBody s route = (s, Outcome.skipped))
    ∧ (∀ data : List StopRecord, ∃ added, (importStops s data).1.stops = s.stops ++ added)
    ∧ (∀ data : List BusRouteValues, ∃ added,
        (importRoutes s data).1.routes = s.routes ++ added) := by
  refine ⟨importStopsBody_of_stored s, importRoutesBody_of_stored s, ?_, ?_⟩
  · intro data
    obtain ⟨added, h, _⟩ := importStopsLoop_prefix s { created := 0, skipped := 0 } data
    exact ⟨added, h⟩
  · intro data
    obtain ⟨added, h, _⟩ := importRoutesLoop_prefix s { created := 0, skipped := 0 } data
    exact ⟨added, h⟩

theorem c25_skip_keeps_row_witness :
    (BusStop.findOne storeR1Plaza recordPlazaMoved.name).isSome = true
    ∧ importStopsBody storeR1Plaza recordPlazaMoved = (storeR1Plaza, Outcome.skipped)
    ∧ (BusRoute.findOne storeR1Plaza bodyR1Again.code).isSome = true
    ∧ importRoutesBody storeR1Plaza bodyR1Again = (storeR1Plaza, Outcome.skipped)
    ∧ (importStops storeR1Plaza [recordPlazaMoved, recordMercado]).1.stops.map
        (fun st => (st.name, st.coordinates, st.address))
        = [("Plaza Central", { coordinates := [-79534, 8983] }, none),
           ("Mercado", { coordinates := [-79520, 8990] }, none)] :=
  ⟨by decide, (c25_skip_keeps_row storeR1Plaza).1 recordPlazaMoved (by decide),
   by decide, (c25_skip_keeps_row storeR1Plaza).2.1 bodyR1Again (by decide), by decide⟩

/-! ## The claim on the records of the link stage -/

theorem routeStop_findOne_isSome (s : Store) (routeId stopId : Nat)
    (direction : Option String) (stopOrder : Option Int) :
    (RouteStop.findOne s routeId stopId direction stopOrder).isSome = true
      ↔ ∃ row ∈ s.routeStops, row.routeId = routeId ∧ row.stopId = stopId
          ∧ direction.bind Direction.ofString = some row.direction
          ∧ stopOrder = some row.stopOrder := by
  unfold RouteStop.findOne
  cases hd : direction.bind Direction.ofString with
  | none => simp
  | some d =>
    cases ho : stopOrder with
    | none => simp
    | some o =>
      simp only [List.find?_isSome, decide_eq_true_eq, Option.some.injEq]
      constructor
      · rintro ⟨row, hrow, h1, h2, h3, h4⟩
        exact ⟨row, hrow, h1, h2, h3.symm, h4.symm⟩
      · rintro ⟨row, hrow, h1, h2, h3, h4⟩
        exact ⟨row, hrow, h1, h2, h3.symm, h4.symm⟩

/-- C22. For a link record whose route and stop resolve, the record is
skipped exactly when a link with the same routeId, stopId, direction and
stopOrder is stored, and then the store stays as it is; when none is
stored, `RouteStop.create` is called with the record's routeId, stopId,
stopOrder, direction, distanceFromPrevious and averageArrivalTime, and the
record is created, with the store the create returned, if the create
succeeds, and is an error, with the store as it was, if the create fails. -/
theorem c22_link_skip_or_create (s : Store) (rs : LinkRecord) (route : BusRoute)
    (stop : BusStop)
    (hr : BusRoute.findOne s rs.routeCode = some route)
    (hs : BusStop.findOne s rs.stopName = some stop) :
    ((importRouteStopsBody s rs).2 = Outcome.skipped
      ↔ ∃ row ∈ s.routeStops, row.routeId = route.id ∧ row.stopId = stop.id
          ∧ rs.direction.bind Direction.ofString = some row.direction
          ∧ rs.stopOrder = some row.stopOrder)
    ∧ ((importRouteStopsBody s rs).2 = Outcome.skipped → (importRouteStopsBody s rs).1 = s)
    ∧ ((¬ ∃ row ∈ s.routeStops, row.routeId = route.id ∧ row.stopId = stop.id
          ∧ rs.direction.bind Direction.ofString = some row.direction
          ∧ rs.stopOrder = some row.stopOrder) →
        (∀ (s' : Store) (row : RouteStop),
          RouteStop.create s
            { routeId := route.id, stopId := stop.id, stopOrder := rs.stopOrder,
              direction := rs.direction, distanceFromPrevious := rs.distanceFromPrevious,
              averageArrivalTime := rs.averageArrivalTime } = .ok (s', row) →
          importRouteStopsBody s rs = (s', Outcome.created))
        ∧ (∀ e : SequelizeError,
          RouteStop.create s
            { routeId := route.id, stopId := stop.id, stopOrder := rs.stopOrder,
              direction := rs.direction, distanceFromPrevious := rs.distanceFromPrevious,
              averageArrivalTime := rs.averageArrivalTime } = .error e →
          importRouteStopsBody s rs = (s, Outcome.error))) := by
  have hiff := routeStop_findOne_isSome s route.id stop.id rs.direction rs.stopOrder
  cases hf : RouteStop.findOne s route.id stop.id rs.direction rs.stopOrder with
  | some found =>
    have hbody : importRouteStopsBody s rs = (s, Outcome.skipped) := by
      unfold importRouteStopsBody
      rw [hr, hs]
      simp only [hf]
    have hex := hiff.mp (by rw [hf]; rfl)
    exact ⟨⟨fun _ => hex, fun _ => by rw [hbody]⟩, fun _ => by rw [hbody],
      fun hne => absurd hex hne⟩
  | none =>
    have hnex : ¬ ∃ row ∈ s.routeStops, row.routeId = route.id ∧ row.stopId = stop.id
          ∧ rs.direction.bind Direction.ofString = some row.direction
          ∧ rs.stopOrder = some row.stopOrder := by
      intro hex
      have := hiff.mpr hex
      rw [hf] at this
      simp at this
    have hok : ∀ (s' : Store) (row : RouteStop),
        RouteStop.create s
          { routeId := route.id, stopId := stop.id, stopOrder := rs.stopOrder,
            direction := rs.direction, distanceFromPrevious := rs.distanceFromPrevious,
            averageArrivalTime := rs.averageArrivalTime } = .ok (s', row) →
        importRouteStopsBody s rs = (s', Outcome.created) := by
      intro s' row hc
      unfold importRouteStopsBody
      rw [hr, hs]
      simp only [hf, hc]
    have herr : ∀ e : SequelizeError,
        RouteStop.create s
          { routeId := route.id, stopId := stop.id, stopOrder := rs.stopOrder,
            direction := rs.direction, distanceFromPrevious := rs.distanceFromPrevious,
            averageArrivalTime := rs.averageArrivalTime } = .error e →
        importRouteStopsBody s rs = (s, Outcome.error) := by
      intro e hc
      unfold importRouteStopsBody
      rw [hr, hs]
      simp only [hf, hc]
    have hnotskip : (importRouteStopsBody s rs).2 ≠ Outcome.skipped := by
      cases hc : RouteStop.create s
          { routeId := route.id, stopId := stop.id, stopOrder := rs.stopOrder,
            direction := rs.direction, distanceFromPrevious := rs.distanceFromPrevious,
            averageArrivalTime := rs.averageArrivalTime } with
      | error e => rw [herr e hc]; simp
      | ok p => rw [hok p.1 p.2 hc]; simp
    exact ⟨⟨fun h => absurd h hnotskip, fun h => absurd h hnex⟩,
      fun h => absurd h hnotskip, fun _ => ⟨hok, herr⟩⟩

theorem c22_link_skip_or_create_witness :
    BusRoute.findOne storeLinked linkPlaza.routeCode = some routeR1
    ∧ BusStop.findOne storeLinked linkPlaza.stopName = some plazaCentral
    ∧ importRouteStopsBody storeLinked linkPlaza = (storeLinked, Outcome.skipped)
    ∧ importRouteStopsBody storeLinked linkMercadoFirst = (storeLinked, Outcome.error)
    ∧ (importRouteStopsBody storeR1Plaza linkPlaza).2 = Outcome.created := by
  have h1 := c22_link_skip_or_create storeLinked linkPlaza routeR1 plazaCentral
    (by decide) (by decide)
  have h2 := c22_link_skip_or_create storeLinked linkMercadoFirst routeR1 mercado
    (by decide) (by decide)
  refine ⟨by decide, by decide, ?_, ?_, by decide⟩
  · have hsk : (importRouteStopsBody storeLinked linkPlaza).2 = Outcome.skipped :=
      h1.1.mpr (by decide)
    exact Prod.ext (h1.2.1 hsk) hsk
  · exact (h2.2.2 (by decide)).2 SequelizeError.uniqueConstraint rfl

/-! ## The claim on the network distance -/

theorem filterMap_distance_sum (rows : List RouteStop) :
    (rows.filterMap (fun rs => rs.distanceFromPrevious)).sum
      = (rows.map (fun rs => rs.distanceFromPrevious.getD 0)).sum := by
  induction rows with
  | nil => rfl
  | cons rs rest ih =>
    cases hd : rs.distanceFromPrevious with
    | none => simp [List.filterMap_cons, hd, ih]
    | some d => simp [List.filterMap_cons, hd, ih]

theorem sum_ite_absent (ids : List Nat) (k : Nat) (c : Int) (hk : k ∉ ids) :
    (ids.map (fun i => if k = i then c else 0)).sum = 0 := by
  induction ids with
  | nil => rfl
  | cons i rest ih =>
    have h1 : k ≠ i := fun h => hk (by simp [h])
    have h2 : k ∉ rest := fun h => hk (List.mem_cons_of_mem _ h)
    simp [h1, ih h2]

theorem sum_ite_unique (ids : List Nat) (k : Nat) (c : Int) (hnd : ids.Nodup) (hk : k ∈ ids) :
    (ids.map (fun i => if k = i then c else 0)).sum = c := by
  induction ids with
  | nil => cases hk
  | cons i rest ih =>
    rw [List.nodup_cons] at hnd
    by_cases h : k = i
    · subst h
      simp [sum_ite_absent rest k c hnd.1]
    · have hk' : k ∈ rest := by
        rcases List.mem_cons.mp hk with h' | h'
        · exact absurd h' h
        · exact h'
      simp [h, ih hnd.2 hk']

/-- Summing a value of the links route by route reaches every link once,
when the route ids are distinct and every link names one of them. -/
theorem sum_by_route (ids : List Nat) (rows : List RouteStop) (f : RouteStop → Int)
    (hnd : ids.Nodup) (h : ∀ rs ∈ rows, rs.routeId ∈ ids) :
    (ids.map (fun i => ((rows.filter (fun rs => decide (rs.routeId = i))).map f).sum)).sum
      = (rows.map f).sum := by
  induction rows with
  | nil => simp
  | cons x rest ih =>
    have hx := h x (List.mem_cons_self _ _)
    have hrest := ih (fun rs hrs => h rs (List.mem_cons_of_mem _ hrs))
    have hsplit : ∀ i : Nat,
        (((x :: rest).filter (fun rs => decide (rs.routeId = i))).map f).sum
          = (if x.routeId = i then f x else 0)
            + ((rest.filter (fun rs => decide (rs.routeId = i))).map f).sum := by
      intro i
      by_cases hi : x.routeId = i
      · simp [List.filter_cons, hi]
      · simp [List.filter_cons, hi]
    simp only [hsplit, List.sum_map_add, hrest, List.map_cons, List.sum_cons]
    rw [sum_ite_unique ids x.routeId (f x) hnd hx]

theorem linkDistanceSum_both (s : Store) (id : Nat) :
    linkDistanceSum s id Direction.outbound + linkDistanceSum s id Direction.inbound
      = ((s.routeStops.filter (fun rs => decide (rs.routeId = id))).map
          (fun rs => rs.distanceFromPrevious.getD 0)).sum := by
  unfold linkDistanceSum directionLinks
  induction s.routeStops with
  | nil => rfl
  | cons rs rest ih =>
    simp only [Bool.decide_and] at ih ⊢
    by_cases h1 : rs.routeId = id
    · cases hd : rs.direction <;> simp [List.filter_cons, h1, hd] <;> omega
    · simp [List.filter_cons, h1]
      exact ih

/-- C21, as the code has it. The overview reports null when no link has a
distance and otherwise the decimal sum of `distanceFromPrevious` over every
link, links without a distance adding nothing; when route ids are distinct
and every link names a stored route, that sum is the sum, over all routes
and both directions, of the decimal sum of `distanceFromPrevious` over the
links of the route in the direction. -/
theorem c21_network_distance (s : Store) :
    ((∀ rs ∈ s.routeStops, rs.distanceFromPrevious = none) →
        (systemOverview s).total_network_distance = none)
    ∧ ((∃ rs ∈ s.routeStops, rs.distanceFromPrevious ≠ none) →
        (systemOverview s).total_network_distance = some (linkDistanceTotal s))
    ∧ (RoutesIntact s → (s.routes.map (fun r => r.id)).Nodup →
        directionSumsTotal s = linkDistanceTotal s) := by
  refine ⟨?_, ?_, ?_⟩
  · intro h
    have : s.routeStops.filterMap (fun rs => rs.distanceFromPrevious) = [] := by
      rw [List.filterMap_eq_nil_iff]
      exact h
    show sumDistanceColumn s = none
    unfold sumDistanceColumn
    rw [this]
  · rintro ⟨rs, hrs, hne⟩
    obtain ⟨d, hd⟩ := Option.ne_none_iff_exists'.mp hne
    have hmem : d ∈ s.routeStops.filterMap (fun rs => rs.distanceFromPrevious) :=
      List.mem_filterMap.mpr ⟨rs, hrs, hd⟩
    show sumDistanceColumn s = some (linkDistanceTotal s)
    unfold sumDistanceColumn linkDistanceTotal
    rw [← filterMap_distance_sum]
    cases hl : s.routeStops.filterMap (fun rs => rs.distanceFromPrevious) with
    | nil => rw [hl] at hmem; cases hmem
    | cons x xs => rfl
  · intro hroutes hnd
    unfold directionSumsTotal linkDistanceTotal
    rw [List.map_congr_left (fun r _ => linkDistanceSum_both s r.id)]
    have := sum_by_route (s.routes.map (fun r => r.id)) s.routeStops
      (fun rs => rs.distanceFromPrevious.getD 0) hnd
      (fun rs hrs => by
        obtain ⟨r, hr, hid⟩ := hroutes rs hrs
        exact List.mem_map.mpr ⟨r, hr, hid⟩)
    rw [List.map_map] at this
    exact this

theorem c21_network_distance_witness :
    (∃ rs ∈ storeNetwork.routeStops, rs.distanceFromPrevious ≠ none)
    ∧ (systemOverview storeNetwork).total_network_distance = some 425
    ∧ RoutesIntact storeNetwork
    ∧ directionSumsTotal storeNetwork = 425
    ∧ (systemOverview Store.empty).total_network_distance = none := by
  have h := c21_network_distance storeNetwork
  have h0 := c21_network_distance Store.empty
  refine ⟨by decide, ?_, by decide, ?_, h0.1 (by decide)⟩
  · rw [h.2.1 (by decide)]; decide
  · rw [h.2.2 (by decide) (by decide)]; decide

set_option maxRecDepth 100000 in
/-- C21, refuted as stated. On a store whose only link has no distance,
and on a store without links, the sum over the links is 0 and the overview
reports null. On a store whose links are 0.10 and 0.20 outbound on R1, the
overview reports 0.30 while the totals that the route detail reports for
the two directions of its one route are 1351079888211149 / 2 ^ 52, which
prints as 0.30000000000000004, and 0: they do not add up to 0.30. -/
theorem c21_null_without_distance :
    storeLinked.routeStops.length = 1
    ∧ linkDistanceTotal storeLinked = 0
    ∧ (systemOverview storeLinked).total_network_distance = none
    ∧ (systemOverview storeLinked).total_network_distance ≠ some (linkDistanceTotal storeLinked)
    ∧ (systemOverview Store.empty).total_network_distance = none
    ∧ (systemOverview storeTenths).total_network_distance = some 30
    ∧ storeTenths.routes.map (fun r => r.id) = [1]
    ∧ ∃ detail, routeDetail storeTenths 1 = RouteDetailResponse.ok detail
      ∧ detail.totalDistance.inbound = Double.zero
      ∧ Double.add detail.totalDistance.outbound detail.totalDistance.inbound
          = { num := 1351079888211149, exp := 52 }
      ∧ ¬ (Double.add detail.totalDistance.outbound detail.totalDistance.inbound).isHundredths 30 := by
  refine ⟨by decide, by decide, by decide, by decide, by decide, by decide, by decide,
    _, rfl, ?_, ?_, ?_⟩ <;> decide

/-! ## Facts about re-running the link stage -/

theorem extends_refl (t : Store) : Store.Extends t t :=
  ⟨rfl, rfl, [], by simp⟩

theorem extends_trans {a b c : Store} (h1 : Store.Extends a b) (h2 : Store.Extends b c) :
    Store.Extends a c := by
  obtain ⟨hs1, hr1, e1, he1⟩ := h1
  obtain ⟨hs2, hr2, e2, he2⟩ := h2
  exact ⟨hs2.trans hs1, hr2.trans hr1, e1 ++ e2, by rw [he2, he1, List.append_assoc]⟩

theorem importRouteStopsBody_extends (s : Store) (rs : LinkRecord) :
    Store.Extends s (importRouteStopsBody s rs).1 := by
  rcases importRouteStopsBody_cases s rs with ⟨_, row, h1, _, h2, h3, _⟩ | ⟨_, h⟩
  · exact ⟨h2, h3, [row], h1⟩
  · rw [h]; exact extends_refl s

theorem importRouteStopsLoop_extends (s : Store) (c : LinkCounts) (data : List LinkRecord) :
    Store.Extends s (importRouteStopsLoop s c data).1 := by
  induction data generalizing s c with
  | nil => exact extends_refl s
  | cons rs rest ih => exact extends_trans (importRouteStopsBody_extends s rs) (ih _ _)

theorem extends_findOne {t t' : Store} (h : Store.Extends t t') (r : LinkRecord) :
    BusRoute.findOne t' r.routeCode = BusRoute.findOne t r.routeCode
      ∧ BusStop.findOne t' r.stopName = BusStop.findOne t r.stopName := by
  obtain ⟨hs, hr, _⟩ := h
  unfold BusRoute.findOne BusStop.findOne
  rw [hs, hr]
  exact ⟨rfl, rfl⟩

/-- A link found in a store is found in every store with more links. -/
theorem linkStored_extends {t t' : Store} (h : Store.Extends t t') (r : LinkRecord)
    (hst : LinkStored t r) : LinkStored t' r := by
  obtain ⟨route, stop, h1, h2, h3⟩ := hst
  obtain ⟨e1, e2⟩ := extends_findOne h r
  refine ⟨route, stop, e1.trans h1, e2.trans h2, ?_⟩
  rw [routeStop_findOne_isSome] at h3 ⊢
  obtain ⟨row, hrow, hrest⟩ := h3
  obtain ⟨_, _, extra, hx⟩ := h
  exact ⟨row, by rw [hx]; exact List.mem_append_left _ hrow, hrest⟩

/-- A record whose link is in the store is skipped. -/
theorem importRouteStopsBody_of_stored (t : Store) (r : LinkRecord) (h : LinkStored t r) :
    importRouteStopsBody t r = (t, Outcome.skipped) := by
  obtain ⟨route, stop, h1, h2, h3⟩ := h
  obtain ⟨found, hf⟩ := Option.isSome_iff_exists.mp h3
  unfold importRouteStopsBody
  rw [h1, h2]
  simp only [hf]

/-- What a created record tells: both lookups resolved, no link was found,
and the create succeeded. -/
theorem importRouteStopsBody_created (t : Store) (r : LinkRecord)
    (h : (importRouteStopsBody t r).2 = Outcome.created) :
    ∃ route stop s' row,
      BusRoute.findOne t r.routeCode = some route
      ∧ BusStop.findOne t r.stopName = some stop
      ∧ RouteStop.create t
          { routeId := route.id, stopId := stop.id, stopOrder := r.stopOrder,
            direction := r.direction, distanceFromPrevious := r.distanceFromPrevious,
            averageArrivalTime := r.averageArrivalTime } = .ok (s', row)
      ∧ (importRouteStopsBody t r).1 = s' := by
  cases hr : BusRoute.findOne t r.routeCode with
  | none => exfalso; simp [importRouteStopsBody, hr] at h
  | some route =>
    cases hs : BusStop.findOne t r.stopName with
    | none => exfalso; simp [importRouteStopsBody, hr, hs] at h
    | some stop =>
      cases hf : RouteStop.findOne t route.id stop.id r.direction r.stopOrder with
      | some found => exfalso; simp [importRouteStopsBody, hr, hs, hf] at h
      | none =>
        cases hc : RouteStop.create t
            { routeId := route.id, stopId := stop.id, stopOrder := r.stopOrder,
              direction := r.direction, distanceFromPrevious := r.distanceFromPrevious,
              averageArrivalTime := r.averageArrivalTime } with
        | error e => exfalso; simp [importRouteStopsBody, hr, hs, hf, hc] at h
        | ok p =>
          obtain ⟨s', row⟩ := p
          exact ⟨route, stop, s', row, rfl, rfl, hc, by simp [importRouteStopsBody, hr, hs, hf, hc]⟩

/-- After a record is created or skipped, its link is in the store. -/
theorem importRouteStopsBody_stores (t : Store) (r : LinkRecord)
    (h : (importRouteStopsBody t r).2 ≠ Outcome.error) :
    LinkStored (importRouteStopsBody t r).1 r := by
  cases ho : (importRouteStopsBody t r).2 with
  | error => exact absurd ho h
  | created =>
    obtain ⟨route, stop, s', row, hr, hs, hc, hstore⟩ := importRouteStopsBody_created t r ho
    have hext := importRouteStopsBody_extends t r
    obtain ⟨e1, e2⟩ := extends_findOne hext r
    refine ⟨route, stop, e1.trans hr, e2.trans hs, ?_⟩
    rw [routeStop_findOne_isSome, hstore]
    obtain ⟨hrows, _⟩ := routeStop_create_ok hc
    obtain ⟨f1, f2, _, _, f5, f6⟩ := routeStop_create_fields hc
    exact ⟨row, by rw [hrows]; simp, f5, f6, f2, f1⟩
  | skipped =>
    cases hr : BusRoute.findOne t r.routeCode with
    | none => exfalso; simp [importRouteStopsBody, hr] at ho
    | some route =>
      cases hs : BusStop.findOne t r.stopName with
      | none => exfalso; simp [importRouteStopsBody, hr, hs] at ho
      | some stop =>
        cases hf : RouteStop.findOne t route.id stop.id r.direction r.stopOrder with
        | some found =>
          have hst : LinkStored t r := ⟨route, stop, hr, hs, by rw [hf]; rfl⟩
          rw [importRouteStopsBody_of_stored t r hst]
          exact hst
        | none =>
          exfalso
          cases hc : RouteStop.create t
              { routeId := route.id, stopId := stop.id, stopOrder := r.stopOrder,
                direction := r.direction, distanceFromPrevious := r.distanceFromPrevious,
                averageArrivalTime := r.averageArrivalTime } with
          | error e => simp [importRouteStopsBody, hr, hs, hf, hc] at ho
          | ok p => simp [importRouteStopsBody, hr, hs, hf, hc] at ho

/-- A create that succeeds on a store succeeds on every store with fewer
links. -/
theorem routeStop_create_antitone {t t' : Store} (h : Store.Extends t t')
    (v : RouteStopValues) (p : Store × RouteStop) (hc : RouteStop.create t' v = .ok p) :
    ∃ q, RouteStop.create t v = .ok q := by
  obtain ⟨hs, hr, extra, hx⟩ := h
  unfold RouteStop.create at hc ⊢
  split at hc
  · rename_i o dstr ho hd
    split at hc
    · cases hc
    · rename_i d hdir
      split at hc
      · cases hc
      · rename_i hfk
        split at hc
        · cases hc
        · rename_i huniq
          rw [hs, hr] at hfk
          have huniq' : ¬ (t.routeStops.any (fun rs =>
              decide (rs.routeId = v.routeId ∧ rs.direction = d ∧ rs.stopOrder = o)) = true) := by
            intro hany
            apply huniq
            rw [hx, List.any_append, hany]
            rfl
          simp only [hdir, hfk, huniq', if_false]
          exact ⟨_, rfl⟩
  · cases hc

/-- A record that is an error on a store creates nothing on a store with
more links. -/
theorem importRouteStopsBody_error_extends {t t' : Store} (h : Store.Extends t t')
    (r : LinkRecord) (he : (importRouteStopsBody t r).2 = Outcome.error) :
    (importRouteStopsBody t' r).2 ≠ Outcome.created := by
  intro hcr
  obtain ⟨route, stop, s', row, hr, hs, hc, _⟩ := importRouteStopsBody_created t' r hcr
  obtain ⟨e1, e2⟩ := extends_findOne h r
  rw [e1] at hr
  rw [e2] at hs
  obtain ⟨q, hq⟩ := routeStop_create_antitone h _ _ hc
  cases hf : RouteStop.findOne t route.id stop.id r.direction r.stopOrder with
  | some found =>
    have hst : LinkStored t r := ⟨route, stop, hr, hs, by rw [hf]; rfl⟩
    rw [importRouteStopsBody_of_stored t r hst] at he
    cases he
  | none =>
    simp [importRouteStopsBody, hr, hs, hf, hq] at he

/-- On a store with at least the links that a run left, every record of
the run creates nothing and leaves the store as it is, and every record the
run created or skipped is skipped. -/
theorem importRouteStops_settled (data : List LinkRecord) (s : Store) (c : LinkCounts)
    (T : Store) (hT : Store.Extends (importRouteStopsLoop s c data).1 T) :
    List.Forall₂
      (fun o r => (importRouteStopsBody T r).1 = T
        ∧ (importRouteStopsBody T r).2 ≠ Outcome.created
        ∧ (o ≠ Outcome.error → (importRouteStopsBody T r).2 = Outcome.skipped))
      (importRouteStopsOutcomes s data) data := by
  induction data generalizing s c with
  | nil => exact List.Forall₂.nil
  | cons r rest ih =>
    simp only [importRouteStopsLoop] at hT
    simp only [importRouteStopsOutcomes]
    have hext1 : Store.Extends (importRouteStopsBody s r).1 T :=
      extends_trans (importRouteStopsLoop_extends _ _ rest) hT
    refine List.Forall₂.cons ?_ (ih _ _ hT)
    by_cases ho : (importRouteStopsBody s r).2 = Outcome.error
    · have hsame : (importRouteStopsBody s r).1 = s := by
        rcases importRouteStopsBody_cases s r with ⟨hcr, _⟩ | ⟨_, h⟩
        · rw [ho] at hcr; cases hcr
        · exact h
      rw [hsame] at hext1
      have hnc := importRouteStopsBody_error_extends hext1 r ho
      refine ⟨?_, hnc, fun h => absurd ho h⟩
      rcases importRouteStopsBody_cases T r with ⟨hcr, _⟩ | ⟨_, h⟩
      · exact absurd hcr hnc
      · exact h
    · have hst := linkStored_extends hext1 r (importRouteStopsBody_stores s r ho)
      have hb := importRouteStopsBody_of_stored T r hst
      rw [hb]
      exact ⟨rfl, by simp, fun _ => rfl⟩

/-- A run over records that create nothing leaves the store and the
created counter as they are. -/
theorem importRouteStopsLoop_settled (T : Store) (c : LinkCounts) (data : List LinkRecord)
    (h : ∀ r ∈ data, (importRouteStopsBody T r).1 = T
      ∧ (importRouteStopsBody T r).2 ≠ Outcome.created) :
    (importRouteStopsLoop T c data).1 = T
      ∧ (importRouteStopsLoop T c data).2.created = c.created
      ∧ importRouteStopsOutcomes T data = data.map (fun r => (importRouteStopsBody T r).2) := by
  induction data generalizing c with
  | nil => exact ⟨rfl, rfl, rfl⟩
  | cons r rest ih =>
    obtain ⟨h1, h2⟩ := h r (List.mem_cons_self _ _)
    simp only [importRouteStopsLoop, importRouteStopsOutcomes, List.map_cons, h1]
    obtain ⟨i1, i2, i3⟩ := ih (c.bump (importRouteStopsBody T r).2)
      (fun x hx => h x (List.mem_cons_of_mem _ hx))
    refine ⟨i1, ?_, by rw [i3]⟩
    rw [i2]
    cases ho : (importRouteStopsBody T r).2 with
    | created => exact absurd ho h2
    | skipped => rfl
    | error => rfl

theorem forall2_right_mem {α β : Type} {P : α → β → Prop} {l1 : List α} {l2 : List β}
    (h : List.Forall₂ P l1 l2) : ∀ b ∈ l2, ∃ a, P a b := by
  induction h with
  | nil => intro b hb; cases hb
  | cons hab _ ih =>
    intro b hb
    rcases List.mem_cons.mp hb with rfl | hb
    · exact ⟨_, hab⟩
    · exact ih b hb

/-! ## The claim on re-running the link stage -/

/-- C23. A second run of the link stage on the same input leaves the store
exactly as the first run left it and creates nothing; every record that the
first run created or skipped is skipped by the second. -/
theorem c23_link_stage_idempotent (s : Store) (data : List LinkRecord) :
    (importRouteStops (importRouteStops s data).1 data).1 = (importRouteStops s data).1
    ∧ (importRouteStops (importRouteStops s data).1 data).2.created = 0
    ∧ List.Forall₂ (fun o1 o2 => o2 ≠ Outcome.created ∧ (o1 ≠ Outcome.error → o2 = Outcome.skipped))
        (importRouteStopsOutcomes s data)
        (importRouteStopsOutcomes (importRouteStops s data).1 data) := by
  have hA := importRouteStops_settled data s { created := 0, skipped := 0, errors := 0 }
    (importRouteStops s data).1 (extends_refl _)
  have hall : ∀ r ∈ data, (importRouteStopsBody (importRouteStops s data).1 r).1
        = (importRouteStops s data).1
      ∧ (importRouteStopsBody (importRouteStops s data).1 r).2 ≠ Outcome.created := by
    intro r hr
    obtain ⟨o, hP⟩ := forall2_right_mem hA r hr
    exact ⟨hP.1, hP.2.1⟩
  obtain ⟨h1, h2, h3⟩ := importRouteStopsLoop_settled (importRouteStops s data).1
    { created := 0, skipped := 0, errors := 0 } data hall
  refine ⟨h1, h2, ?_⟩
  rw [h3, List.forall₂_map_right_iff]
  exact List.Forall₂.imp (fun _ _ hP => ⟨hP.2.1, hP.2.2⟩) hA

/-! ## The claim on the `all` run -/

theorem importRoutesBody_keeps_code (s : Store) (route : BusRouteValues) (code : Option String)
    (h : (BusRoute.findOne s code).isSome = true) :
    (BusRoute.findOne (importRoutesBody s route).1 code).isSome = true := by
  rcases importRoutesBody_cases s route with ⟨_, row, hr, _⟩ | ⟨_, hs⟩
  · rw [busRoute_findOne_isSome] at h ⊢
    obtain ⟨c, hc, r, hmem, hcode⟩ := h
    exact ⟨c, hc, r, by rw [hr]; exact List.mem_append_left _ hmem, hcode⟩
  · rw [hs]; exact h

theorem importRoutesBody_stores_code (s : Store) (route : BusRouteValues)
    (h : (importRoutesBody s route).2 ≠ Outcome.error) :
    (BusRoute.findOne (importRoutesBody s route).1 route.code).isSome = true := by
  rcases importRoutesBody_cases s route with ⟨_, row, hr, hc, _⟩ | ⟨hne, hs⟩
  · rw [busRoute_findOne_isSome]
    exact ⟨row.code, hc, row, by rw [hr]; simp, rfl⟩
  · cases hf : BusRoute.findOne s route.code with
    | some found => rw [hs, hf]; rfl
    | none =>
      exfalso
      cases hc : BusRoute.create s route with
      | error e => simp [importRoutesBody, hf, hc] at h
      | ok p => simp [importRoutesBody, hf, hc] at hne

theorem importRoutesLoop_keeps_code (s : Store) (c : StageCounts) (data : List BusRouteValues)
    (code : Option String) (h : (BusRoute.findOne s code).isSome = true) :
    (BusRoute.findOne (importRoutesLoop s c data).1 code).isSome = true := by
  induction data generalizing s c with
  | nil => exact h
  | cons route rest ih => exact ih _ _ (importRoutesBody_keeps_code s route code h)

/-- After a routes run without an error, the store holds every code of the
input. -/
theorem importRoutesLoop_stores_codes (s : Store) (c : StageCounts) (data : List BusRouteValues)
    (h : ∀ o ∈ importRoutesOutcomes s data, o ≠ Outcome.error) :
    ∀ r ∈ data, (BusRoute.findOne (importRoutesLoop s c data).1 r.code).isSome = true := by
  induction data generalizing s c with
  | nil => intro r hr; cases hr
  | cons route rest ih =>
    intro r hr
    simp only [importRoutesOutcomes, List.mem_cons, forall_eq_or_imp] at h
    simp only [importRoutesLoop]
    rcases List.mem_cons.mp hr with rfl | hr
    · exact importRoutesLoop_keeps_code _ _ _ _ (importRoutesBody_stores_code s r h.1)
    · exact ih _ _ h.2 r hr

/-- C24. An `all` run is the stops stage, then the routes stage, then the
links stage, each on the store the stage before left. When no stop record
and no route record is an error, every link record whose routeCode is the
code of a route record and whose stopName is the name of a stop record finds
its route and its stop at the moment it is processed, so it never takes the
route-not-found or stop-not-found path. -/
theorem c24_all_run_resolves (s : Store) (stops : List StopRecord)
    (routes : List BusRouteValues) (links : List LinkRecord)
    (hstops : ∀ o ∈ importStopsOutcomes s stops, o ≠ Outcome.error)
    (hroutes : ∀ o ∈ importRoutesOutcomes (importStops s stops).1 routes, o ≠ Outcome.error) :
    importAll s stops routes links
        = ((importRouteStops (importRoutes (importStops s stops).1 routes).1 links).1,
           { stops := (importStops s stops).2,
             routes := (importRoutes (importStops s stops).1 routes).2,
             links := (importRouteStops (importRoutes (importStops s stops).1 routes).1 links).2 })
    ∧ ∀ (pre post : List LinkRecord) (r : LinkRecord), links = pre ++ r :: post →
        (∃ x ∈ routes, x.code = r.routeCode) → (∃ y ∈ stops, y.name = r.stopName) →
        ∃ route stop,
          BusRoute.findOne
              (importRouteStops (importRoutes (importStops s stops).1 routes).1 pre).1
              r.routeCode = some route
          ∧ BusStop.findOne
              (importRouteStops (importRoutes (importStops s stops).1 routes).1 pre).1
              r.stopName = some stop := by
  refine ⟨rfl, ?_⟩
  intro pre post r _ hx hy
  obtain ⟨x, hxm, hxc⟩ := hx
  obtain ⟨y, hym, hyn⟩ := hy
  have h1 := importStopsLoop_stores_names s { created := 0, skipped := 0 } stops hstops y hym
  have h2 := importRoutesLoop_stores_codes (importStops s stops).1 { created := 0, skipped := 0 }
    routes hroutes x hxm
  obtain ⟨_, _, hsame⟩ := importRoutesLoop_prefix (importStops s stops).1
    { created := 0, skipped := 0 } routes
  have hext := importRouteStopsLoop_extends (importRoutes (importStops s stops).1 routes).1
    { created := 0, skipped := 0, errors := 0 } pre
  obtain ⟨e1, e2⟩ := extends_findOne hext r
  have hroute : (BusRoute.findOne (importRoutes (importStops s stops).1 routes).1
      r.routeCode).isSome = true := by
    rw [← hxc]; exact h2
  have hstop : (BusStop.findOne (importRoutes (importStops s stops).1 routes).1
      r.stopName).isSome = true := by
    rw [← hyn]
    have : BusStop.findOne (importRoutes (importStops s stops).1 routes).1 y.name
        = BusStop.findOne (importStops s stops).1 y.name := by
      unfold BusStop.findOne importRoutes
      rw [hsame]
    rw [this]
    exact h1
  obtain ⟨route, hr⟩ := Option.isSome_iff_exists.mp hroute
  obtain ⟨stop, hs⟩ := Option.isSome_iff_exists.mp hstop
  exact ⟨route, stop, by unfold importRouteStops; rw [e1]; exact hr,
    by unfold importRouteStops; rw [e2]; exact hs⟩

theorem c24_all_run_resolves_witness :
    (∀ o ∈ importStopsOutcomes Store.empty [recordPlaza, recordMercado], o ≠ Outcome.error)
    ∧ (importAll Store.empty [recordPlaza, recordMercado] [recordR1]
          [linkPlaza, linkMercadoFirst]).2
        = { stops := { created := 2, skipped := 0 }, routes := { created := 1, skipped := 0 },
            links := { created := 1, skipped := 0, errors := 1 } }
    ∧ ∃ route stop,
        BusRoute.findOne
            (importRouteStops
              (importRoutes (importStops Store.empty [recordPlaza, recordMercado]).1
                [recordR1]).1 [linkPlaza]).1
            linkMercadoFirst.routeCode = some route
        ∧ BusStop.findOne
            (importRouteStops
              (importRoutes (importStops Store.empty [recordPlaza, recordMercado]).1
                [recordR1]).1 [linkPlaza]).1
            linkMercadoFirst.stopName = some stop :=
  ⟨by decide, by decide,
   (c24_all_run_resolves Store.empty [recordPlaza, recordMercado] [recordR1]
      [linkPlaza, linkMercadoFirst] (by decide) (by decide)).2
      [linkPlaza] [] linkMercadoFirst rfl (by decide) (by decide)⟩

/-! ## The claim on the coordinates -/

/-- C27, on the failing input. A stop written with (latitude, longitude) by
the create-stop request or by `importStops` is stored as the point
[longitude, latitude], and the stop list and the entries of the route
detail report the latitude and longitude that were written; the stop
detail, whose include names a model that `BusStop` is not associated with,
answers 500 for every store and id and reports no coordinates. -/
theorem c27_round_trip_but_stop_detail (s : Store) (id : Nat) :
    stopDetail s id = StopDetailResponse.serverError
    ∧ includeResolves busStopAssociations Model.BusStop "routeStops" = false
    ∧ (BusStop.findByPk storeRoundTrip (some 2)).map (fun st => st.name) = some "Mercado"
    ∧ stopDetail storeRoundTrip 2 = StopDetailResponse.serverError
    ∧ storeRoundTrip.stops.map (fun st => (st.name, st.coordinates))
        = [("Plaza Central", { coordinates := [-79534, 8983] }),
           ("Mercado", { coordinates := [-79520, 8990] }),
           ("Terminal", { coordinates := [-79510, 8995] })]
    ∧ (stopList storeRoundTrip).map (fun e => (e.stop.name, e.latitude, e.longitude))
        = [("Plaza Central", some 8983, some (-79534)),
           ("Mercado", some 8990, some (-79520)),
           ("Terminal", some 8995, some (-79510))]
    ∧ (∃ detail, routeDetail storeRoundTrip 1 = RouteDetailResponse.ok detail
        ∧ detail.outboundStops.map (fun e => (e.name, e.latitude, e.longitude))
            = [("Plaza Central", some 8983, some (-79534)),
               ("Mercado", some 8990, some (-79520))]
        ∧ detail.inboundStops.map (fun e => (e.name, e.latitude, e.longitude))
            = [("Terminal", some 8995, some (-79510))]) := by
  refine ⟨rfl, by decide, by decide, rfl, by decide, by decide, ⟨_, rfl, ?_, ?_⟩⟩ <;> decide

/-! ## Facts about repeated names in a stops input -/

theorem firstNew_mem_names (data : List StopRecord) (seen : List String) (n : String) :
    n ∈ (firstNew seen data).filterMap (fun r => r.name)
      ↔ n ∈ data.filterMap (fun r => r.name) ∧ n ∉ seen := by
  induction data generalizing seen with
  | nil => simp [firstNew]
  | cons x rest ih =>
    cases hx : x.name with
    | none => simp [firstNew, hx, List.filterMap_cons, ih]
    | some m =>
      by_cases hm : m ∈ seen
      · simp only [firstNew, hx, hm, if_true, List.filterMap_cons, List.mem_cons, ih]
        constructor
        · rintro ⟨h1, h2⟩; exact ⟨Or.inr h1, h2⟩
        · rintro ⟨h1 | h1, h2⟩
          · exact absurd (h1 ▸ hm) h2
          · exact ⟨h1, h2⟩
      · by_cases hnm : n = m
        · subst hnm
          simp [firstNew, hx, hm]
        · simp [firstNew, hx, hm, ih, hnm]

theorem firstNew_nodup (data : List StopRecord) (seen : List String) :
    ((firstNew seen data).filterMap (fun r => r.name)).Nodup := by
  induction data generalizing seen with
  | nil => simp [firstNew]
  | cons x rest ih =>
    cases hx : x.name with
    | none => simpa [firstNew, hx] using ih seen
    | some m =>
      by_cases hm : m ∈ seen
      · simpa [firstNew, hx, hm] using ih seen
      · simp only [firstNew, hx, hm, if_false, List.filterMap_cons, List.nodup_cons]
        refine ⟨?_, ih _⟩
        intro hmem
        have := ((firstNew_mem_names rest (seen ++ [m]) m).mp hmem).2
        simp at this

/-- Every record of `firstNew` has a name and is the first record of the
input with that name. -/
theorem firstNew_first (data : List StopRecord) (seen : List String) :
    ∀ r ∈ firstNew seen data, ∃ n, r.name = some n
      ∧ data.find? (fun x => decide (x.name = some n)) = some r := by
  induction data generalizing seen with
  | nil => intro r hr; simp [firstNew] at hr
  | cons x rest ih =>
    intro r hr
    cases hx : x.name with
    | none =>
      simp only [firstNew, hx] at hr
      obtain ⟨n, hn, hfind⟩ := ih seen r hr
      exact ⟨n, hn, by simp [List.find?_cons, hx, hfind]⟩
    | some m =>
      by_cases hm : m ∈ seen
      · simp only [firstNew, hx, hm, if_true] at hr
        obtain ⟨n, hn, hfind⟩ := ih seen r hr
        have hnot : n ∉ seen :=
          ((firstNew_mem_names rest seen n).mp
            (List.mem_filterMap.mpr ⟨r, hr, hn⟩)).2
        have hne : m ≠ n := fun h => hnot (h ▸ hm)
        exact ⟨n, hn, by simp [List.find?_cons, hx, hne, hfind]⟩
      · simp only [firstNew, hx, hm, if_false, List.mem_cons] at hr
        rcases hr with rfl | hr
        · exact ⟨m, hx, by simp [List.find?_cons, hx]⟩
        · obtain ⟨n, hn, hfind⟩ := ih (seen ++ [m]) r hr
          have hnot : n ∉ seen ++ [m] :=
            ((firstNew_mem_names rest (seen ++ [m]) n).mp
              (List.mem_filterMap.mpr ⟨r, hr, hn⟩)).2
          have hne : m ≠ n := fun h => hnot (by simp [h])
          exact ⟨n, hn, by simp [List.find?_cons, hx, hne, hfind]⟩

theorem holdsRecord_names {rows : List BusStop} {rs : List StopRecord}
    (h : List.Forall₂ HoldsRecord rows rs) :
    rs.filterMap (fun r => r.name) = rows.map (fun st => st.name) ∧ rs.length = rows.length := by
  induction h with
  | nil => exact ⟨rfl, rfl⟩
  | cons hab _ ih =>
    obtain ⟨i1, i2⟩ := ih
    exact ⟨by simp [List.filterMap_cons, hab.1, i1], by simp [i2]⟩

theorem forall2_left_mem {α β : Type} {P : α → β → Prop} {l1 : List α} {l2 : List β}
    (h : List.Forall₂ P l1 l2) : ∀ a ∈ l1, ∃ b ∈ l2, P a b := by
  induction h with
  | nil => intro a ha; cases ha
  | cons hab _ ih =>
    intro a ha
    rcases List.mem_cons.mp ha with rfl | ha
    · exact ⟨_, List.mem_cons_self _ _, hab⟩
    · obtain ⟨b, hb, hP⟩ := ih a ha
      exact ⟨b, List.mem_cons_of_mem _ hb, hP⟩

/-- A created stop row carries the values handed to `BusStop.create`. -/
theorem busStop_create_fields {s s' : Store} {v : BusStopValues} {row : BusStop}
    (h : BusStop.create s v = .ok (s', row)) :
    row.description = v.description ∧ row.coordinates = v.coordinates
      ∧ row.address = v.address ∧ row.landmarks = v.landmarks
      ∧ row.status = StopStatus.active := by
  unfold BusStop.create at h
  split at h
  · cases h
  · split at h
    · cases h
    · split at h
      · injection h with h
        injection h with h1 h2
        subst h2
        exact ⟨rfl, rfl, rfl, rfl, rfl⟩
      · cases h

/-- A record with a name that the store does not hold, when it is not an
error, is created as a row with the fields of the record, at the end of
`bus_stops`. -/
theorem importStopsBody_new_row (s : Store) (r : StopRecord) (n : String)
    (hn : r.name = some n) (hnew : n ∉ s.stops.map (fun st => st.name))
    (hok : (importStopsBody s r).2 ≠ Outcome.error) :
    ∃ s1 row, importStopsBody s r = (s1, Outcome.created)
      ∧ s1.stops = s.stops ++ [row] ∧ HoldsRecord row r := by
  have hf : BusStop.findOne s r.name = none := by
    rw [hn]
    simp only [BusStop.findOne, List.find?_eq_none]
    intro st hst
    simp only [decide_eq_true_eq]
    intro h
    exact hnew (List.mem_map.mpr ⟨st, hst, h⟩)
  cases hc : BusStop.create s
      { name := r.name, description := r.description,
        coordinates := { coordinates := [r.longitude, r.latitude] },
        address := r.address, landmarks := r.landmarks } with
  | error e =>
    exfalso
    apply hok
    unfold importStopsBody
    rw [hf]
    simp only [hc]
  | ok p =>
    obtain ⟨s1, row⟩ := p
    obtain ⟨h1, _, _, _, h5, _⟩ := busStop_create_ok hc
    obtain ⟨f1, f2, f3, f4, f5⟩ := busStop_create_fields hc
    refine ⟨s1, row, ?_, h1, h5, f1, f2, f3, f4, f5⟩
    unfold importStopsBody
    rw [hf]
    simp only [hc]

/-- What a stops run without an error adds: one row for each record of
`firstNew`, in order, with the fields of that record, and `created` counts
them. -/
theorem importStopsLoop_firstNew (data : List StopRecord) (s : Store) (c : StageCounts)
    (hok : ∀ o ∈ importStopsOutcomes s data, o ≠ Outcome.error) :
    ∃ newRows, (importStopsLoop s c data).1.stops = s.stops ++ newRows
      ∧ List.Forall₂ HoldsRecord newRows (firstNew (s.stops.map (fun st => st.name)) data)
      ∧ (importStopsLoop s c data).2.created
          = c.created + (firstNew (s.stops.map (fun st => st.name)) data).length := by
  induction data generalizing s c with
  | nil => exact ⟨[], by simp [importStopsLoop], by simp [firstNew], by simp [importStopsLoop, firstNew]⟩
  | cons r rest ih =>
    simp only [importStopsOutcomes, List.mem_cons, forall_eq_or_imp] at hok
    obtain ⟨hok1, hok2⟩ := hok
    simp only [importStopsLoop]
    cases hn : r.name with
    | none =>
      exfalso
      apply hok1
      unfold importStopsBody
      simp [hn, BusStop.findOne, BusStop.create]
    | some n =>
      by_cases hseen : n ∈ s.stops.map (fun st => st.name)
      · have hsome : (BusStop.findOne s r.name).isSome = true := by
          rw [busStop_findOne_isSome]
          obtain ⟨st, hst, hname⟩ := List.mem_map.mp hseen
          exact ⟨n, hn, st, hst, hname⟩
        rw [importStopsBody_of_stored s r hsome] at hok2 ⊢
        obtain ⟨newRows, h1, h2, h3⟩ := ih s (c.bump Outcome.skipped) hok2
        exact ⟨newRows, h1, by simpa [firstNew, hn, hseen] using h2,
          by simpa [firstNew, hn, hseen, StageCounts.bump] using h3⟩
      · obtain ⟨s1, row, hb, hstops, hrow⟩ := importStopsBody_new_row s r n hn hseen hok1
        rw [hb] at hok2 ⊢
        obtain ⟨newRows, h1, h2, h3⟩ := ih s1 (c.bump Outcome.created) hok2
        have hnames : s1.stops.map (fun st => st.name)
            = s.stops.map (fun st => st.name) ++ [n] := by
          have : row.name = n := by
            have := hrow.1
            rw [hn] at this
            exact (Option.some.inj this).symm
          rw [hstops, List.map_append, List.map_singleton, this]
        rw [hnames] at h2 h3
        refine ⟨row :: newRows, by rw [h1, hstops]; simp, ?_, ?_⟩
        · simp only [firstNew, hn, hseen, if_false]
          exact List.Forall₂.cons hrow h2
        · simp only [firstNew, hn, hseen, if_false, List.length_cons]
          rw [h3]
          simp only [StageCounts.bump]
          omega

theorem firstNew_length (s : Store) (data : List StopRecord) :
    (firstNew (s.stops.map (fun st => st.name)) data).length = (distinctNewNames s data).length
      ∧ ∀ n, n ∈ (firstNew (s.stops.map (fun st => st.name)) data).filterMap (fun r => r.name)
          ↔ n ∈ distinctNewNames s data := by
  have hmem : ∀ n, n ∈ (firstNew (s.stops.map (fun st => st.name)) data).filterMap
      (fun r => r.name) ↔ n ∈ distinctNewNames s data := by
    intro n
    rw [firstNew_mem_names]
    unfold distinctNewNames
    rw [List.mem_dedup, List.mem_filter]
    simp only [List.mem_map, Bool.not_eq_true', List.any_eq_false, decide_eq_true_eq, not_exists,
      not_and]
  refine ⟨?_, hmem⟩
  have hp : ((firstNew (s.stops.map (fun st => st.name)) data).filterMap
      (fun r => r.name)).Perm (distinctNewNames s data) := by
    have hnd : (distinctNewNames s data).Nodup := by
      unfold distinctNewNames
      exact List.nodup_dedup _
    exact (List.perm_ext_iff_of_nodup (firstNew_nodup _ _) hnd).mpr hmem
  have hall : ∀ (l : List StopRecord), (∀ r ∈ l, ∃ n, r.name = some n) →
      (l.filterMap (fun r => r.name)).length = l.length := by
    intro l
    induction l with
    | nil => intro _; rfl
    | cons x xs ih =>
      intro h
      obtain ⟨n, hn⟩ := h x (List.mem_cons_self _ _)
      simp [List.filterMap_cons, hn, ih (fun r hr => h r (List.mem_cons_of_mem _ hr))]
  rw [← hp.length_eq, hall]
  intro r hr
  obtain ⟨n, hn, _⟩ := firstNew_first data _ r hr
  exact ⟨n, hn⟩

/-! ## The claim on repeated names -/

/-- C26, as the code has it. On a stops run without an error, `created` is the number of
distinct input names the store did not hold and `skipped` is the number of
the other records; the run adds, after the rows stored before, exactly one
row for each of those names, holding the fields of the first record of the
input with that name; names already stored keep their row, and a store with
distinct names ends with distinct names. -/
theorem c26_repeated_names_created_once (s : Store) (data : List StopRecord)
    (hok : ∀ o ∈ importStopsOutcomes s data, o ≠ Outcome.error) :
    (importStops s data).2.created = (distinctNewNames s data).length
    ∧ (importStops s data).2.skipped = data.length - (distinctNewNames s data).length
    ∧ (∃ newRows, (importStops s data).1.stops = s.stops ++ newRows
        ∧ (newRows.map (fun st => st.name)).Nodup
        ∧ (∀ n, n ∈ newRows.map (fun st => st.name) ↔ n ∈ distinctNewNames s data)
        ∧ ∀ row ∈ newRows, ∃ r,
            data.find? (fun x => decide (x.name = some row.name)) = some r ∧ HoldsRecord row r)
    ∧ (NaturalKeysUnique s → NaturalKeysUnique (importStops s data).1) := by
  obtain ⟨newRows, h1, h2, h3⟩ :=
    importStopsLoop_firstNew data s { created := 0, skipped := 0 } hok
  obtain ⟨hlen, hmem⟩ := firstNew_length s data
  obtain ⟨hnames, _⟩ := holdsRecord_names h2
  obtain ⟨k1, k2, k3⟩ := importStopsLoop_counts s { created := 0, skipped := 0 } data
  have htot := outcome_count_total (importStopsOutcomes s data)
  have hzero : (importStopsOutcomes s data).count Outcome.error = 0 := by
    rw [List.count_eq_zero]
    intro hmem'
    exact hok _ hmem' rfl
  have hcreated : (importStops s data).2.created = (distinctNewNames s data).length := by
    unfold importStops
    rw [h3, hlen]
    simp
  refine ⟨hcreated, ?_, ⟨newRows, h1, ?_, ?_, ?_⟩, importStopsLoop_keys s _ data⟩
  · unfold importStops at hcreated ⊢
    simp only at k1 k2
    omega
  · rw [← hnames]; exact firstNew_nodup _ _
  · intro n; rw [← hnames]; exact hmem n
  · intro row hrow
    obtain ⟨r, hr, hP⟩ := forall2_left_mem h2 row hrow
    obtain ⟨n, hn, hfind⟩ := firstNew_first data _ r hr
    have : n = row.name := by
      have := hP.1
      rw [hn] at this
      exact Option.some.inj this
    subst this
    exact ⟨r, hfind, hP⟩

theorem c26_repeated_names_created_once_witness :
    (∀ o ∈ importStopsOutcomes storeR1Plaza
        [recordMercado, recordPlazaMoved, recordMercadoAgain, recordTerminal],
      o ≠ Outcome.error)
    ∧ (importStops storeR1Plaza
        [recordMercado, recordPlazaMoved, recordMercadoAgain, recordTerminal]).2.created
        = (distinctNewNames storeR1Plaza
            [recordMercado, recordPlazaMoved, recordMercadoAgain, recordTerminal]).length
    ∧ (importStops storeR1Plaza
        [recordMercado, recordPlazaMoved, recordMercadoAgain, recordTerminal]).2
        = { created := 2, skipped := 2 }
    ∧ (importStops storeR1Plaza
        [recordMercado, recordPlazaMoved, recordMercadoAgain, recordTerminal]).1.stops.map
          (fun st => (st.name, st.coordinates))
        = [("Plaza Central", { coordinates := [-79534, 8983] }),
           ("Mercado", { coordinates := [-79520, 8990] }),
           ("Terminal", { coordinates := [-79510, 8995] })] :=
  ⟨by decide,
   (c26_repeated_names_created_once storeR1Plaza
      [recordMercado, recordPlazaMoved, recordMercadoAgain, recordTerminal] (by decide)).1,
   by decide, by decide⟩

/-- C26, refuted as stated. On a store that holds "Plaza Central", a run
over one record of that name with other coordinates and address skips it:
the one stop of that name holds the stored fields, not those of the first
record of the input with that name. -/
theorem c26_stored_name_keeps_fields :
    importStopsOutcomes storeR1Plaza [recordPlazaMoved] = [Outcome.skipped]
    ∧ [recordPlazaMoved].find? (fun x => decide (x.name = some "Plaza Central"))
        = some recordPlazaMoved
    ∧ (importStops storeR1Plaza [recordPlazaMoved]).1.stops = [plazaCentral]
    ∧ ¬ HoldsRecord plazaCentral recordPlazaMoved := by
  refine ⟨by decide, by decide, by decide, ?_⟩
  intro h
  exact absurd h.2.1 (by decide)

end BusTracker
